import Mathlib

/-!
# Work-value calculator: a shallow embedding of the scoring engine

The four index calculators (`IncomeCalculator`, `WorkCalculator`, `CostCalculator`,
`ExperienceCalculator`) and the aggregator of `WorkValueCalculator` are pure
arithmetic on JavaScript numbers.  The engine is embedded in two readings.

* `WorkValue`: a number is a rational `ℚ`, the arithmetic is exact, and a lookup
  table is the list of its own keys.  This reading carries the properties that
  neither binary rounding nor an inherited property name touches: the order and
  the range of the indices, the tiers of the verdicts, the clamping of the ratings,
  the constants, and which inputs a result reads.
* `WorkValue.Js`: a number is a binary64 value, every `+`, `-`, `*` and `/` is
  rounded to nearest (ties to even), a decimal literal denotes its nearest binary64
  value, and `obj[key]` also finds the names every object inherits from
  `Object.prototype`.  This reading carries the value formulas and the lookups.

Conventions of the embedding:

* `Math.round x` is `⌊x + 1/2⌋` (ties go up), so the code's
  `Math.round(x * 100) / 100` is `round2` on rationals and `Js.jsRound2` on binary64
  values.
* an object literal used as a lookup table is the list of its own keys and values,
  in source order; `List.lookup key obj` is `none` (JavaScript's `undefined`) for a
  key the object does not own.  `Js.getProperty` adds the names inherited from
  `Object.prototype` (such as `constructor`).
* `v || d` on a looked-up number is `jsOr v d` (`Js.orDefault` in the second
  reading): the default `d` replaces `undefined` and the falsy number `0`.
-/

namespace WorkValue

/-! ## Numbers -/

/-- `Math.round`: the nearest integer, ties rounded up. -/
def mathRound (x : ℚ) : ℤ := ⌊x + 1 / 2⌋

/-- The code's `Math.round(x * 100) / 100`. -/
def round2 (x : ℚ) : ℚ := (mathRound (x * 100) : ℚ) / 100

/-- The expression `v || d` for a looked-up number `v`. -/
def jsOr (v : Option ℚ) (d : ℚ) : ℚ :=
  match v with
  | some q => if q = 0 then d else q
  | none => d

/-! ## IncomeCalculator -/

namespace IncomeCalculator

/-- An entry of `cityData`: `{ factor, level }`. -/
structure CityInfo where
  factor : ℚ
  level : String
  deriving DecidableEq

/-- The constructor's `this.cityData`: region → city → `{ factor, level }`. -/
def cityData : List (String × List (String × CityInfo)) :=
  [ ("华北地区",
      [ ("北京", ⟨0.7, "超一线城市"⟩),
        ("天津", ⟨0.8, "一线城市"⟩),
        ("石家庄", ⟨1.0, "二线城市"⟩),
        ("太原", ⟨1.0, "二线城市"⟩),
        ("呼和浩特", ⟨1.1, "二线城市"⟩) ]),
    ("华东地区",
      [ ("上海", ⟨0.7, "超一线城市"⟩),
        ("南京", ⟨0.9, "新一线城市"⟩),
        ("杭州", ⟨0.9, "新一线城市"⟩),
        ("宁波", ⟨1.0, "二线城市"⟩),
        ("苏州", ⟨0.95, "新一线城市"⟩),
        ("无锡", ⟨1.0, "二线城市"⟩),
        ("常州", ⟨1.05, "二线城市"⟩),
        ("南通", ⟨1.05, "二线城市"⟩),
        ("扬州", ⟨1.05, "二线城市"⟩),
        ("徐州", ⟨1.05, "二线城市"⟩),
        ("合肥", ⟨1.0, "二线城市"⟩),
        ("福州", ⟨1.0, "二线城市"⟩),
        ("厦门", ⟨0.95, "新一线城市"⟩),
        ("泉州", ⟨1.05, "二线城市"⟩),
        ("青岛", ⟨0.95, "新一线城市"⟩),
        ("济南", ⟨1.0, "二线城市"⟩),
        ("烟台", ⟨1.05, "二线城市"⟩),
        ("潍坊", ⟨1.05, "二线城市"⟩) ]),
    ("华南地区",
      [ ("广州", ⟨0.85, "一线城市"⟩),
        ("深圳", ⟨0.8, "一线城市"⟩),
        ("珠海", ⟨1.0, "二线城市"⟩),
        ("佛山", ⟨1.0, "二线城市"⟩),
        ("东莞", ⟨1.0, "二线城市"⟩),
        ("中山", ⟨1.05, "二线城市"⟩),
        ("惠州", ⟨1.05, "二线城市"⟩),
        ("南宁", ⟨1.0, "二线城市"⟩),
        ("海口", ⟨1.0, "二线城市"⟩) ]),
    ("华中地区",
      [ ("武汉", ⟨1.0, "新一线城市"⟩),
        ("长沙", ⟨1.0, "新一线城市"⟩),
        ("郑州", ⟨1.0, "新一线城市"⟩),
        ("南昌", ⟨1.0, "二线城市"⟩),
        ("洛阳", ⟨1.05, "二线城市"⟩),
        ("襄阳", ⟨1.05, "二线城市"⟩),
        ("宜昌", ⟨1.05, "二线城市"⟩) ]),
    ("西南地区",
      [ ("成都", ⟨1.0, "新一线城市"⟩),
        ("重庆", ⟨1.0, "新一线城市"⟩),
        ("昆明", ⟨1.0, "二线城市"⟩),
        ("贵阳", ⟨1.0, "二线城市"⟩),
        ("拉萨", ⟨1.1, "三线城市"⟩) ]),
    ("西北地区",
      [ ("西安", ⟨1.1, "二线城市"⟩),
        ("兰州", ⟨1.1, "二线城市"⟩),
        ("西宁", ⟨1.1, "三线城市"⟩),
        ("银川", ⟨1.1, "三线城市"⟩),
        ("乌鲁木齐", ⟨1.1, "二线城市"⟩) ]),
    ("东北地区",
      [ ("沈阳", ⟨1.0, "二线城市"⟩),
        ("大连", ⟨1.0, "二线城市"⟩),
        ("长春", ⟨1.0, "二线城市"⟩),
        ("哈尔滨", ⟨1.0, "二线城市"⟩) ]) ]

/-- The assignment `obj[key] = value` on an object given as its key/value list:
an owned key keeps its place and takes the new value, a new key goes last. -/
def setKey (obj : List (String × ℚ)) (key : String) (value : ℚ) : List (String × ℚ) :=
  match obj with
  | [] => [(key, value)]
  | (k, v) :: rest => if k = key then (k, value) :: rest else (k, v) :: setKey rest key value

/-- `buildCityFactors`: every city of every region with its factor, then the
entry `'其他'` at 1.2. -/
def buildCityFactors : List (String × ℚ) :=
  let factors :=
    cityData.foldl
      (fun acc region => region.2.foldl (fun acc2 entry => setKey acc2 entry.1 entry.2.factor) acc)
      []
  setKey factors "其他" 1.2

/-- The constructor's `this.cityFactors`. -/
def cityFactors : List (String × ℚ) := buildCityFactors

/-- The constructor's `this.educationFactors`. -/
def educationFactors : List (String × ℚ) :=
  [("专科", 1.2), ("本科", 1.0), ("硕士", 0.8), ("博士", 0.6)]

/-- The constructor's `this.schoolRankFactors`. -/
def schoolRankFactors : List (String × ℚ) :=
  [("普通院校", 1.1), ("211院校", 1.0), ("985院校", 0.9), ("顶尖院校", 0.8)]

/-- `getRegions`. -/
def getRegions : List String := cityData.map Prod.fst

/-- `getCitiesByRegion`. -/
def getCitiesByRegion (region : String) : List String :=
  match cityData.lookup region with
  | some cities => cities.map Prod.fst
  | none => []

/-- `getCityInfo`: the entry of the first region that owns the city, else the
fixed `{ factor: 1.0, level: '其他城市' }`. -/
def getCityInfo (city : String) : CityInfo :=
  match cityData.findSome? (fun region => region.2.lookup city) with
  | some info => info
  | none => ⟨1.0, "其他城市"⟩

/-- `calculateSocialInsurance`. -/
def calculateSocialInsurance (base : ℚ) : ℚ :=
  let personalRate : ℚ := 0.08 + 0.02 + 0.005
  let companyRate : ℚ := 0.16 + 0.08 + 0.005 + 0.005 + 0.005
  base * (personalRate + companyRate)

/-- `calculateHousingFund`. -/
def calculateHousingFund (base rate : ℚ) : ℚ := base * rate * 0.02

/-- `getWeight` of the income calculator. -/
def getWeight : ℚ := 0.60

/-- The fields `calculateIncomeIndex` destructures from its argument. -/
structure Input where
  salary : ℚ
  afterTax : ℚ
  allowance : ℚ
  insuranceBase : ℚ
  fundRate : ℚ
  otherBenefits : ℚ
  city : String
  education : String
  schoolRank : String

/-- The `breakdown` object of the income result. -/
structure Breakdown where
  afterTax : ℚ
  housingFund : ℚ
  otherBenefits : ℚ
  allowance : ℚ

/-- The object `calculateIncomeIndex` returns. -/
structure Result where
  incomeIndex : ℚ
  totalIncome : ℚ
  socialInsurance : ℚ
  housingFund : ℚ
  cityFactor : ℚ
  educationFactor : ℚ
  schoolRankFactor : ℚ
  cityInfo : CityInfo
  breakdown : Breakdown

/-- `calculateIncomeIndex`. -/
def calculateIncomeIndex (data : Input) : Result :=
  let cityFactor := jsOr (cityFactors.lookup data.city) 1.0
  let educationFactor := jsOr (educationFactors.lookup data.education) 1.0
  let schoolRankFactor := jsOr (schoolRankFactors.lookup data.schoolRank) 1.0
  let socialInsurance := calculateSocialInsurance data.insuranceBase
  let housingFund := calculateHousingFund data.insuranceBase data.fundRate
  let totalIncome := data.afterTax + housingFund + data.otherBenefits
  let baseIncome : ℚ := 5000
  let incomeIndex := (totalIncome / baseIncome) * 100
  let incomeIndex := incomeIndex * cityFactor * educationFactor * schoolRankFactor
  { incomeIndex := round2 incomeIndex
    totalIncome := round2 totalIncome
    socialInsurance := round2 socialInsurance
    housingFund := round2 housingFund
    cityFactor := cityFactor
    educationFactor := educationFactor
    schoolRankFactor := schoolRankFactor
    cityInfo := getCityInfo data.city
    breakdown :=
      { afterTax := data.afterTax
        housingFund := housingFund
        otherBenefits := data.otherBenefits
        allowance := data.allowance } }

end IncomeCalculator

/-! ## WorkCalculator -/

namespace WorkCalculator

/-- The constructor's `this.standardWorkHours`. -/
def standardWorkHours : ℚ := 8

/-- The constructor's `this.standardCommuteHours`. -/
def standardCommuteHours : ℚ := 1

/-- The constructor's `this.standardWorkIntensity`. -/
def standardWorkIntensity : ℚ := 3

/-- The constructor's `this.standardWorkDays`. -/
def standardWorkDays : ℚ := 5

/-- `calculateTimeCostIndex`. -/
def calculateTimeCostIndex (workHours commuteHours : ℚ) : ℚ :=
  let totalTime := workHours + commuteHours
  let standardTime := standardWorkHours + standardCommuteHours
  (totalTime / standardTime) * 30

/-- `calculateIntensityCostIndex`. -/
def calculateIntensityCostIndex (workIntensity : ℚ) : ℚ :=
  (workIntensity / standardWorkIntensity) * 20

/-- `calculateOvertimeCostIndex`; the divisor is at least 0.1, never zero. -/
def calculateOvertimeCostIndex (overtimeFreq overtimeHours : ℚ) : ℚ :=
  let overtimeTotal := overtimeFreq + overtimeHours
  let divisor := max 0.1 overtimeTotal
  (overtimeTotal / divisor) * 10

/-- `calculateAgeFactor`. -/
def calculateAgeFactor (age : ℚ) : ℚ := 1 + (age - 25) * 0.02

/-- `getWeight` of the work calculator. -/
def getWeight : ℚ := 0.25

/-- The fields `calculateWorkIndex` destructures from its argument. -/
structure Input where
  workStart : ℚ
  workEnd : ℚ
  commuteTime : ℚ
  overtimeFreq : ℚ
  overtimeHours : ℚ
  workIntensity : ℚ
  workDays : ℚ
  age : ℚ

/-- The `breakdown` object of the work result. -/
structure Breakdown where
  workHours : ℚ
  commuteHours : ℚ
  workDays : ℚ
  age : ℚ

/-- The object `calculateWorkIndex` returns. -/
structure Result where
  workIndex : ℚ
  timeCostIndex : ℚ
  intensityCostIndex : ℚ
  overtimeCostIndex : ℚ
  workDaysFactor : ℚ
  ageFactor : ℚ
  breakdown : Breakdown

/-- `calculateWorkIndex`. -/
def calculateWorkIndex (data : Input) : Result :=
  let workHours := data.workEnd - data.workStart
  let commuteHours := (data.commuteTime * 2) / 60
  let timeCostIndex := calculateTimeCostIndex workHours commuteHours
  let intensityCostIndex := calculateIntensityCostIndex data.workIntensity
  let overtimeCostIndex := calculateOvertimeCostIndex data.overtimeFreq data.overtimeHours
  let workDaysFactor := data.workDays / standardWorkDays
  let ageFactor := calculateAgeFactor data.age
  let workIndex :=
    (timeCostIndex + intensityCostIndex + overtimeCostIndex) * ageFactor * workDaysFactor / 10
  { workIndex := max 1 (round2 workIndex)
    timeCostIndex := round2 timeCostIndex
    intensityCostIndex := round2 intensityCostIndex
    overtimeCostIndex := round2 overtimeCostIndex
    workDaysFactor := round2 workDaysFactor
    ageFactor := round2 ageFactor
    breakdown :=
      { workHours := workHours
        commuteHours := commuteHours
        workDays := data.workDays
        age := data.age } }

end WorkCalculator

/-! ## CostCalculator -/

namespace CostCalculator

/-- The constructor's `this.standardRent`. -/
def standardRent : ℚ := 2000

/-- The constructor's `this.standardFood`. -/
def standardFood : ℚ := 1500

/-- The constructor's `this.standardTransport`. -/
def standardTransport : ℚ := 500

/-- The table local to `getCityCostFactor`. -/
def cityCostFactors : List (String × ℚ) :=
  [ ("北京", 1.2), ("上海", 1.2), ("深圳", 1.1), ("广州", 1.0), ("杭州", 0.9),
    ("成都", 0.8), ("武汉", 0.8), ("西安", 0.7), ("其他", 0.6) ]

/-- `getCityCostFactor`. -/
def getCityCostFactor (city : String) : ℚ := jsOr (cityCostFactors.lookup city) 1.0

/-- `calculateCostBenefitRatio`. -/
def calculateCostBenefitRatio (income cost : ℚ) : ℚ :=
  if cost = 0 then 0 else round2 (income / cost)

/-- `getWeight` of the cost calculator. -/
def getWeight : ℚ := 0.20

/-- The fields `calculateCostIndex` destructures from its argument. -/
structure Input where
  rent : ℚ
  food : ℚ
  transport : ℚ
  city : String

/-- The `breakdown` object of the cost result. -/
structure Breakdown where
  rent : ℚ
  food : ℚ
  transport : ℚ

/-- The whole-percent share `Math.round((item / totalCost) * 100)`.  With
`totalCost` zero the quotient is `NaN` or an infinity and so is its rounding:
`none` stands for that result, which is no finite number. -/
def percentShare (item totalCost : ℚ) : Option ℤ :=
  if totalCost = 0 then none else some (mathRound ((item / totalCost) * 100))

/-- The `costRatio` object of the cost result. -/
structure CostRatio where
  rentRatio : Option ℤ
  foodRatio : Option ℤ
  transportRatio : Option ℤ

/-- The object `calculateCostIndex` returns. -/
structure Result where
  costIndex : ℚ
  totalCost : ℚ
  cityCostFactor : ℚ
  breakdown : Breakdown
  costRatio : CostRatio

/-- `calculateCostIndex`. -/
def calculateCostIndex (data : Input) : Result :=
  let totalCost := data.rent + data.food + data.transport
  let baseCost : ℚ := 4000
  let costIndex := (totalCost / baseCost) * 100
  let cityCostFactor := getCityCostFactor data.city
  let costIndex := costIndex * cityCostFactor
  { costIndex := round2 costIndex
    totalCost := round2 totalCost
    cityCostFactor := cityCostFactor
    breakdown :=
      { rent := round2 data.rent
        food := round2 data.food
        transport := round2 data.transport }
    costRatio :=
      { rentRatio := percentShare data.rent totalCost
        foodRatio := percentShare data.food totalCost
        transportRatio := percentShare data.transport totalCost } }

end CostCalculator

/-! ## ExperienceCalculator -/

namespace ExperienceCalculator

/-- A value stored under a rating key, told apart by what `parseFloat` reads
from it: the number `q`, or nothing numeric (`NaN`). -/
inductive JSValue where
  | number (q : ℚ)
  | notNumeric
  deriving DecidableEq

/-- `parseFloat`; `none` is `NaN`. -/
def parseFloat : JSValue → Option ℚ
  | .number q => some q
  | .notNumeric => none

/-- The shape of the five-key objects of this calculator. -/
structure Ratings (α : Type) where
  housingSatisfaction : α
  consumptionSatisfaction : α
  transportSatisfaction : α
  lifeAtmosphere : α
  workAtmosphere : α

/-- The constructor's `this.experienceWeights`. -/
def experienceWeights : Ratings ℚ :=
  { housingSatisfaction := 0.25
    consumptionSatisfaction := 0.20
    transportSatisfaction := 0.15
    lifeAtmosphere := 0.20
    workAtmosphere := 0.20 }

/-- The rating keys of the argument of `calculateExperienceIndex`; a key the
object does not own is `none`. -/
abbrev Input := Ratings (Option JSValue)

/-- The body of the loop of `validateExperienceData` for one owned key:
`parseFloat(data[key]) || 5`, then `Math.max(1, Math.min(10, value))`. -/
def validateValue (v : JSValue) : ℚ :=
  let value := jsOr (parseFloat v) 5
  max 1 (min 10 value)

/-- `validateExperienceData`: the loop runs over the keys the argument owns, so a
key that is absent from the argument is absent from the result. -/
def validateExperienceData (data : Input) : Ratings (Option ℚ) :=
  { housingSatisfaction := data.housingSatisfaction.map validateValue
    consumptionSatisfaction := data.consumptionSatisfaction.map validateValue
    transportSatisfaction := data.transportSatisfaction.map validateValue
    lifeAtmosphere := data.lifeAtmosphere.map validateValue
    workAtmosphere := data.workAtmosphere.map validateValue }

/-- One turn of the accumulation `experienceIndex += validatedData[key] * weight`;
`none` is `NaN`, which an absent key (`undefined`) produces and every later
turn keeps. -/
def accumulate (acc : Option ℚ) (value : Option ℚ) (weight : ℚ) : Option ℚ :=
  match acc, value with
  | some a, some v => some (a + v * weight)
  | _, _ => none

/-- A `weightedScores` entry: `Math.round(value * 10 * 100) / 100`. -/
def weightedScore (value : Option ℚ) : Option ℚ := value.map (fun v => round2 (v * 10))

/-- The object `calculateExperienceIndex` returns. -/
structure Result where
  experienceIndex : Option ℚ
  weightedScores : Ratings (Option ℚ)
  weights : Ratings ℚ
  breakdown : Ratings (Option ℚ)

/-- `calculateExperienceIndex`; the loop over `Object.keys(this.experienceWeights)`
is written out in key order. -/
def calculateExperienceIndex (data : Input) : Result :=
  let validatedData := validateExperienceData data
  let experienceIndex : Option ℚ := some 0
  let experienceIndex :=
    accumulate experienceIndex validatedData.housingSatisfaction
      experienceWeights.housingSatisfaction
  let experienceIndex :=
    accumulate experienceIndex validatedData.consumptionSatisfaction
      experienceWeights.consumptionSatisfaction
  let experienceIndex :=
    accumulate experienceIndex validatedData.transportSatisfaction
      experienceWeights.transportSatisfaction
  let experienceIndex :=
    accumulate experienceIndex validatedData.lifeAtmosphere experienceWeights.lifeAtmosphere
  let experienceIndex :=
    accumulate experienceIndex validatedData.workAtmosphere experienceWeights.workAtmosphere
  let experienceIndex := experienceIndex.map (fun x => x * 10)
  { experienceIndex := experienceIndex.map round2
    weightedScores :=
      { housingSatisfaction := weightedScore validatedData.housingSatisfaction
        consumptionSatisfaction := weightedScore validatedData.consumptionSatisfaction
        transportSatisfaction := weightedScore validatedData.transportSatisfaction
        lifeAtmosphere := weightedScore validatedData.lifeAtmosphere
        workAtmosphere := weightedScore validatedData.workAtmosphere }
    weights := experienceWeights
    breakdown := validatedData }

/-- `getExperienceEvaluation`. -/
def getExperienceEvaluation (experienceIndex : ℚ) : String :=
  if experienceIndex ≥ 90 then "极佳体验，工作生活平衡完美！"
  else if experienceIndex ≥ 80 then "优秀体验，整体满意度很高！"
  else if experienceIndex ≥ 70 then "良好体验，大部分方面令人满意！"
  else if experienceIndex ≥ 60 then "一般体验，有提升空间！"
  else if experienceIndex ≥ 50 then "较差体验，需要改善！"
  else "很差体验，建议重新考虑！"

/-- `getWeight` of the experience calculator. -/
def getWeight : ℚ := 0.20

/-- The record of five ratings that are all numbers. -/
def ofNumbers (h c t l w : ℚ) : Input :=
  { housingSatisfaction := some (.number h)
    consumptionSatisfaction := some (.number c)
    transportSatisfaction := some (.number t)
    lifeAtmosphere := some (.number l)
    workAtmosphere := some (.number w) }

end ExperienceCalculator

/-! ## WorkValueCalculator -/

namespace WorkValueCalculator

/-- The four indices handed to `calculateTotalScore`, and the shape of its
`weights` and `breakdown` objects. -/
structure Scores where
  income : ℚ
  work : ℚ
  cost : ℚ
  experience : ℚ

/-- The `weights` constant of `calculateTotalScore`. -/
def weights : Scores :=
  { income := 0.60, work := 0.25, cost := 0.10, experience := 0.05 }

/-- The object `calculateTotalScore` returns. -/
structure TotalScore where
  totalScore : ℚ
  weights : Scores
  breakdown : Scores

/-- `calculateTotalScore`. -/
def calculateTotalScore (scores : Scores) : TotalScore :=
  let totalScore : ℚ := 0
  let totalScore := totalScore + scores.income * weights.income
  let totalScore := totalScore + (100 - scores.work) * weights.work
  let totalScore := totalScore + (100 - scores.cost) * weights.cost
  let totalScore := totalScore + scores.experience * weights.experience
  let totalScore := max 0 (min 100 totalScore)
  { totalScore := round2 totalScore
    weights := weights
    breakdown :=
      { income := scores.income * weights.income
        work := (100 - scores.work) * weights.work
        cost := (100 - scores.cost) * weights.cost
        experience := scores.experience * weights.experience } }

/-- The object `getEvaluation` returns. -/
structure Evaluation where
  grade : String
  comment : String
  emoji : String
  recommendation : String
  deriving DecidableEq

/-- `getEvaluation`. -/
def getEvaluation (score : ℚ) : Evaluation :=
  if score ≥ 95 then
    { grade := "天菜！"
      comment := "太棒了，你的公司在哪？我也要入职！"
      emoji := "🌟"
      recommendation := "这份工作性价比极高，建议立即接受！" }
  else if score ≥ 85 then
    { grade := "优秀！"
      comment := "这工作性价比简直逆天，赶紧珍惜吧！"
      emoji := "✨"
      recommendation := "工作性价比很高，值得长期发展！" }
  else if score ≥ 75 then
    { grade := "良好！"
      comment := "这份工作相当不错，值得考虑！"
      emoji := "👍"
      recommendation := "性价比不错，可以考虑接受这份工作！" }
  else if score ≥ 65 then
    { grade := "一般！"
      comment := "还可以接受，但还有提升空间。"
      emoji := "😐"
      recommendation := "性价比一般，建议再看看其他机会！" }
  else if score ≥ 50 then
    { grade := "及格！"
      comment := "勉强可以接受，但需要慎重考虑。"
      emoji := "😕"
      recommendation := "性价比偏低，除非特别需要这份工作，否则建议继续寻找！" }
  else
    { grade := "不及格！"
      comment := "这份工作性价比太低，不建议接受这份工作，继续寻找更好的机会吧！"
      emoji := "❌"
      recommendation := "性价比太低，不建议接受这份工作，继续寻找更好的机会吧！" }

/-- The fields of the form record that the engine reads (`collectFormData` fills
every numeric field with a number). -/
structure FormData where
  city : String
  age : ℚ
  education : String
  schoolRank : String
  salary : ℚ
  afterTax : ℚ
  allowance : ℚ
  insuranceBase : ℚ
  fundRate : ℚ
  otherBenefits : ℚ
  workStart : ℚ
  workEnd : ℚ
  commuteTime : ℚ
  overtimeFreq : ℚ
  overtimeHours : ℚ
  workIntensity : ℚ
  workDays : ℚ
  rent : ℚ
  food : ℚ
  transport : ℚ
  housingSatisfaction : ℚ
  consumptionSatisfaction : ℚ
  transportSatisfaction : ℚ
  lifeAtmosphere : ℚ
  workAtmosphere : ℚ

/-- `validateFormData`. -/
def validateFormData (formData : FormData) : Bool :=
  if formData.afterTax = 0 ∨ formData.afterTax ≤ 0 then false
  else if formData.workEnd ≤ formData.workStart then false
  else if formData.city = "" then false
  else true

end WorkValueCalculator

end WorkValue

/-! ## Example inputs -/

namespace WorkValue

/-- Example scenario 1 of the specification (income); the pre-tax salary and the
allowance, which the scenario leaves open, are 0. -/
def incomeScenario : IncomeCalculator.Input :=
  { salary := 0
    afterTax := 10000
    allowance := 0
    insuranceBase := 8000
    fundRate := 0.12
    otherBenefits := 1000
    city := "上海"
    education := "本科"
    schoolRank := "211院校" }

/-- Example scenario 2 of the specification (work burden). -/
def workScenario : WorkCalculator.Input :=
  { workStart := 9
    workEnd := 22
    commuteTime := 90
    overtimeFreq := 3
    overtimeHours := 10
    workIntensity := 8
    workDays := 6
    age := 30 }

end WorkValue

/-! ## Order of the verdict tiers -/

namespace WorkValue

/-- The place of a grade label among the branches of `getEvaluation`, counted from
the last branch (0) up to the first (5); a text that is no grade label counts 0. -/
def gradeRank (grade : String) : ℕ :=
  if grade = "天菜！" then 5
  else if grade = "优秀！" then 4
  else if grade = "良好！" then 3
  else if grade = "一般！" then 2
  else if grade = "及格！" then 1
  else 0

end WorkValue

/-! ## The unrounded work index, the parts of a form record, further inputs -/

namespace WorkValue

/-- The local `workIndex` of `calculateWorkIndex` as it stands before the returned
object rounds it and applies the floor of 1. -/
def WorkCalculator.unroundedWorkIndex (data : WorkCalculator.Input) : ℚ :=
  let workHours := data.workEnd - data.workStart
  let commuteHours := (data.commuteTime * 2) / 60
  let timeCostIndex := WorkCalculator.calculateTimeCostIndex workHours commuteHours
  let intensityCostIndex := WorkCalculator.calculateIntensityCostIndex data.workIntensity
  let overtimeCostIndex :=
    WorkCalculator.calculateOvertimeCostIndex data.overtimeFreq data.overtimeHours
  let workDaysFactor := data.workDays / WorkCalculator.standardWorkDays
  let ageFactor := WorkCalculator.calculateAgeFactor data.age
  (timeCostIndex + intensityCostIndex + overtimeCostIndex) * ageFactor * workDaysFactor / 10

namespace WorkValueCalculator

/-- The part of the form record that `calculateIncomeIndex` reads. -/
def incomeInput (formData : FormData) : IncomeCalculator.Input :=
  { salary := formData.salary
    afterTax := formData.afterTax
    allowance := formData.allowance
    insuranceBase := formData.insuranceBase
    fundRate := formData.fundRate
    otherBenefits := formData.otherBenefits
    city := formData.city
    education := formData.education
    schoolRank := formData.schoolRank }

/-- The part of the form record that `calculateWorkIndex` reads. -/
def workInput (formData : FormData) : WorkCalculator.Input :=
  { workStart := formData.workStart
    workEnd := formData.workEnd
    commuteTime := formData.commuteTime
    overtimeFreq := formData.overtimeFreq
    overtimeHours := formData.overtimeHours
    workIntensity := formData.workIntensity
    workDays := formData.workDays
    age := formData.age }

/-- The part of the form record that `calculateCostIndex` reads. -/
def costInput (formData : FormData) : CostCalculator.Input :=
  { rent := formData.rent
    food := formData.food
    transport := formData.transport
    city := formData.city }

/-- A form record with the form's defaults (nine to six, one hour of commute, no
overtime, intensity 3, five days, age 25, all ratings 5), in 武汉, with an after-tax
salary of 5001 and the standard costs 2000, 1500 and 500. -/
def cascadeForm : FormData :=
  { city := "武汉"
    age := 25
    education := "本科"
    schoolRank := "211院校"
    salary := 0
    afterTax := 5001
    allowance := 0
    insuranceBase := 0
    fundRate := 0.12
    otherBenefits := 0
    workStart := 9
    workEnd := 18
    commuteTime := 60
    overtimeFreq := 0
    overtimeHours := 0
    workIntensity := 3
    workDays := 5
    rent := 2000
    food := 1500
    transport := 500
    housingSatisfaction := 5
    consumptionSatisfaction := 5
    transportSatisfaction := 5
    lifeAtmosphere := 5
    workAtmosphere := 5 }

end WorkValueCalculator

/-- A cost record with no expenses at all. -/
def zeroCostInput : CostCalculator.Input :=
  { rent := 0, food := 0, transport := 0, city := "上海" }

/-- A cost record with three equal expenses. -/
def equalCostInput : CostCalculator.Input :=
  { rent := 1, food := 1, transport := 1, city := "上海" }

end WorkValue

/-! ## The engine on binary64 numbers

The definitions above read a JavaScript number as an exact rational and an object
as the list of its own keys.  That reading is enough for the order, bound and
classification properties, which rounding does not disturb.  The definitions of
`WorkValue.Js` below follow the same source functions with the two refinements the
value formulas need:

* every `+`, `-`, `*` and `/` is rounded to binary64 (`rnd`: 53 significant bits,
  round to nearest, ties to even), and a decimal literal of the source denotes the
  nearest binary64 value (`lit`).  The exponent range is not bounded: overflow to
  an infinity and gradual underflow are not modelled.  `Math.round`, `Math.max`,
  `Math.min` and the comparisons are exact on binary64 values.
* `obj[key]` first looks among the own keys of the object and then among the names
  every object inherits from `Object.prototype` (`getProperty`).  An inherited
  property is a function (or, for `__proto__`, the prototype object): it is truthy,
  so `|| 1.0` keeps it, and the arithmetic that meets it gives `NaN`.

A number that may be `NaN` is an `Option ℚ` (`Num`), `none` being `NaN`. -/

namespace WorkValue

namespace Js

/-! ### binary64 arithmetic -/

/-- The integer nearest to `y`, ties going to the even one. -/
def roundHalfEven (y : ℚ) : ℤ :=
  if y - ⌊y⌋ < 1 / 2 then ⌊y⌋
  else if 1 / 2 < y - ⌊y⌋ then ⌊y⌋ + 1
  else if ⌊y⌋ % 2 = 0 then ⌊y⌋
  else ⌊y⌋ + 1

/-- The exponent of the unit in the last place of the binade of `x`: the binade is
`2 ^ k ≤ |x| < 2 ^ (k + 1)` and the 53-bit significands are spaced `2 ^ (k - 52)`. -/
def ulpExp (x : ℚ) : ℤ := Int.log 2 |x| - 52

/-- Rounding to binary64: the nearest multiple of the unit in the last place, ties
to the even significand. -/
def rnd (x : ℚ) : ℚ :=
  if x = 0 then 0 else (roundHalfEven (x / 2 ^ ulpExp x) : ℚ) * 2 ^ ulpExp x

/-- The binary64 value a decimal literal of the source denotes. -/
def lit (q : ℚ) : ℚ := rnd q

/-- The operator `a + b`. -/
def fadd (a b : ℚ) : ℚ := rnd (a + b)

/-- The operator `a - b`. -/
def fsub (a b : ℚ) : ℚ := rnd (a - b)

/-- The operator `a * b`. -/
def fmul (a b : ℚ) : ℚ := rnd (a * b)

/-- The operator `a / b` for a divisor other than 0. -/
def fdiv (a b : ℚ) : ℚ := rnd (a / b)

/-- The code's `Math.round(x * 100) / 100`: the product and the quotient are
rounded to binary64, `Math.round` is exact. -/
def jsRound2 (x : ℚ) : ℚ := fdiv (mathRound (fmul x 100) : ℚ) 100

/-- A number that may be `NaN` (`none`). -/
abbrev Num := Option ℚ

/-- A binary operator on numbers that may be `NaN`: `NaN` on either side gives
`NaN`. -/
def lift2 (f : ℚ → ℚ → ℚ) (a b : Num) : Num :=
  match a, b with
  | some x, some y => some (f x y)
  | _, _ => none

/-! ### property lookup -/

/-- The property names every object inherits from `Object.prototype`. -/
def objectPrototypeNames : List String :=
  [ "constructor", "__defineGetter__", "__defineSetter__", "hasOwnProperty",
    "__lookupGetter__", "__lookupSetter__", "isPrototypeOf", "propertyIsEnumerable",
    "toString", "valueOf", "__proto__", "toLocaleString" ]

/-- What `obj[key]` finds. -/
inductive Property (α : Type) where
  | own (value : α)
  | inherited
  | undefined
  deriving DecidableEq

/-- The read `obj[key]` on an object given by its own keys and values. -/
def getProperty {α : Type} (obj : List (String × α)) (key : String) : Property α :=
  match obj.lookup key with
  | some value => .own value
  | none => if key ∈ objectPrototypeNames then .inherited else .undefined

/-- The value of `table[key] || 1.0`: a number, or the inherited property that the
lookup found in place of one. -/
inductive Factor where
  | number (q : ℚ)
  | inherited
  deriving DecidableEq

/-- The expression `table[key] || d` on a table of decimal literals. -/
def orDefault (found : Property ℚ) (d : ℚ) : Factor :=
  match found with
  | .own q => if lit q = 0 then .number d else .number (lit q)
  | .inherited => .inherited
  | .undefined => .number d

/-- The product `x * factor`; an inherited property in place of the factor gives
`NaN`. -/
def timesFactor (x : Num) (factor : Factor) : Num :=
  match x, factor with
  | some a, .number q => some (fmul a q)
  | _, _ => none

/-! ### IncomeCalculator -/

namespace IncomeCalculator

/-- What `getCityInfo` returns: an entry of `cityData` (or the fixed fallback
entry), or the inherited property `region[city]` found. -/
inductive CityInfoValue where
  | info (entry : WorkValue.IncomeCalculator.CityInfo)
  | inherited

/-- The read `cityInfo.factor`: the entry's factor, or `undefined` (`none`) on an
inherited property. -/
def CityInfoValue.factor : CityInfoValue → Option ℚ
  | .info entry => some (lit entry.factor)
  | .inherited => none

/-- `getCityInfo`: the first truthy `region[city]`, else the fixed
`{ factor: 1.0, level: '其他城市' }`. -/
def getCityInfo (city : String) : CityInfoValue :=
  match WorkValue.IncomeCalculator.cityData.findSome? (fun region =>
      match getProperty region.2 city with
      | .own entry => some (CityInfoValue.info entry)
      | .inherited => some CityInfoValue.inherited
      | .undefined => none) with
  | some found => found
  | none => .info ⟨1.0, "其他城市"⟩

/-- `calculateSocialInsurance`. -/
def calculateSocialInsurance (base : ℚ) : ℚ :=
  let personalRate := fadd (fadd (lit 0.08) (lit 0.02)) (lit 0.005)
  let companyRate :=
    fadd (fadd (fadd (fadd (lit 0.16) (lit 0.08)) (lit 0.005)) (lit 0.005)) (lit 0.005)
  fmul base (fadd personalRate companyRate)

/-- `calculateHousingFund`. -/
def calculateHousingFund (base rate : ℚ) : ℚ := fmul (fmul base rate) (lit 0.02)

/-- The object `calculateIncomeIndex` returns. -/
structure Result where
  incomeIndex : Num
  totalIncome : ℚ
  socialInsurance : ℚ
  housingFund : ℚ
  cityFactor : Factor
  educationFactor : Factor
  schoolRankFactor : Factor
  cityInfo : CityInfoValue
  breakdown : WorkValue.IncomeCalculator.Breakdown

/-- The local `incomeIndex` of `calculateIncomeIndex` before the returned object
rounds it. -/
def unroundedIncomeIndex (data : WorkValue.IncomeCalculator.Input) : Num :=
  let cityFactor := orDefault (getProperty WorkValue.IncomeCalculator.cityFactors data.city) 1.0
  let educationFactor :=
    orDefault (getProperty WorkValue.IncomeCalculator.educationFactors data.education) 1.0
  let schoolRankFactor :=
    orDefault (getProperty WorkValue.IncomeCalculator.schoolRankFactors data.schoolRank) 1.0
  let housingFund := calculateHousingFund data.insuranceBase data.fundRate
  let totalIncome := fadd (fadd data.afterTax housingFund) data.otherBenefits
  let baseIncome : ℚ := 5000
  let incomeIndex := fmul (fdiv totalIncome baseIncome) 100
  timesFactor (timesFactor (timesFactor (some incomeIndex) cityFactor) educationFactor)
    schoolRankFactor

/-- `calculateIncomeIndex`. -/
def calculateIncomeIndex (data : WorkValue.IncomeCalculator.Input) : Result :=
  let cityFactor := orDefault (getProperty WorkValue.IncomeCalculator.cityFactors data.city) 1.0
  let educationFactor :=
    orDefault (getProperty WorkValue.IncomeCalculator.educationFactors data.education) 1.0
  let schoolRankFactor :=
    orDefault (getProperty WorkValue.IncomeCalculator.schoolRankFactors data.schoolRank) 1.0
  let socialInsurance := calculateSocialInsurance data.insuranceBase
  let housingFund := calculateHousingFund data.insuranceBase data.fundRate
  let totalIncome := fadd (fadd data.afterTax housingFund) data.otherBenefits
  let baseIncome : ℚ := 5000
  let incomeIndex := fmul (fdiv totalIncome baseIncome) 100
  let incomeIndex :=
    timesFactor (timesFactor (timesFactor (some incomeIndex) cityFactor) educationFactor)
      schoolRankFactor
  { incomeIndex := incomeIndex.map jsRound2
    totalIncome := jsRound2 totalIncome
    socialInsurance := jsRound2 socialInsurance
    housingFund := jsRound2 housingFund
    cityFactor := cityFactor
    educationFactor := educationFactor
    schoolRankFactor := schoolRankFactor
    cityInfo := getCityInfo data.city
    breakdown :=
      { afterTax := data.afterTax
        housingFund := housingFund
        otherBenefits := data.otherBenefits
        allowance := data.allowance } }

end IncomeCalculator

/-! ### WorkCalculator -/

namespace WorkCalculator

/-- `calculateTimeCostIndex`. -/
def calculateTimeCostIndex (workHours commuteHours : ℚ) : ℚ :=
  let totalTime := fadd workHours commuteHours
  let standardTime :=
    fadd WorkValue.WorkCalculator.standardWorkHours WorkValue.WorkCalculator.standardCommuteHours
  fmul (fdiv totalTime standardTime) 30

/-- `calculateIntensityCostIndex`. -/
def calculateIntensityCostIndex (workIntensity : ℚ) : ℚ :=
  fmul (fdiv workIntensity WorkValue.WorkCalculator.standardWorkIntensity) 20

/-- `calculateOvertimeCostIndex`; the divisor is at least the binary64 value of 0.1. -/
def calculateOvertimeCostIndex (overtimeFreq overtimeHours : ℚ) : ℚ :=
  let overtimeTotal := fadd overtimeFreq overtimeHours
  let divisor := max (lit 0.1) overtimeTotal
  fmul (fdiv overtimeTotal divisor) 10

/-- `calculateAgeFactor`. -/
def calculateAgeFactor (age : ℚ) : ℚ := fadd 1 (fmul (fsub age 25) (lit 0.02))

/-- The local `workIndex` of `calculateWorkIndex` before the returned object rounds
it and applies the floor of 1. -/
def unroundedWorkIndex (data : WorkValue.WorkCalculator.Input) : ℚ :=
  let workHours := fsub data.workEnd data.workStart
  let commuteHours := fdiv (fmul data.commuteTime 2) 60
  let timeCostIndex := calculateTimeCostIndex workHours commuteHours
  let intensityCostIndex := calculateIntensityCostIndex data.workIntensity
  let overtimeCostIndex := calculateOvertimeCostIndex data.overtimeFreq data.overtimeHours
  let workDaysFactor := fdiv data.workDays WorkValue.WorkCalculator.standardWorkDays
  let ageFactor := calculateAgeFactor data.age
  fdiv
    (fmul (fmul (fadd (fadd timeCostIndex intensityCostIndex) overtimeCostIndex) ageFactor)
      workDaysFactor)
    10

/-- `calculateWorkIndex`. -/
def calculateWorkIndex (data : WorkValue.WorkCalculator.Input) : WorkValue.WorkCalculator.Result :=
  let workHours := fsub data.workEnd data.workStart
  let commuteHours := fdiv (fmul data.commuteTime 2) 60
  let timeCostIndex := calculateTimeCostIndex workHours commuteHours
  let intensityCostIndex := calculateIntensityCostIndex data.workIntensity
  let overtimeCostIndex := calculateOvertimeCostIndex data.overtimeFreq data.overtimeHours
  let workDaysFactor := fdiv data.workDays WorkValue.WorkCalculator.standardWorkDays
  let ageFactor := calculateAgeFactor data.age
  let workIndex :=
    fdiv
      (fmul (fmul (fadd (fadd timeCostIndex intensityCostIndex) overtimeCostIndex) ageFactor)
        workDaysFactor)
      10
  { workIndex := max 1 (jsRound2 workIndex)
    timeCostIndex := jsRound2 timeCostIndex
    intensityCostIndex := jsRound2 intensityCostIndex
    overtimeCostIndex := jsRound2 overtimeCostIndex
    workDaysFactor := jsRound2 workDaysFactor
    ageFactor := jsRound2 ageFactor
    breakdown :=
      { workHours := workHours
        commuteHours := commuteHours
        workDays := data.workDays
        age := data.age } }

end WorkCalculator

/-! ### CostCalculator -/

namespace CostCalculator

/-- `getCityCostFactor`. -/
def getCityCostFactor (city : String) : Factor :=
  orDefault (getProperty WorkValue.CostCalculator.cityCostFactors city) 1.0

/-- `calculateCostBenefitRatio`. -/
def calculateCostBenefitRatio (income cost : ℚ) : ℚ :=
  if cost = 0 then 0 else jsRound2 (fdiv income cost)

/-- The whole-percent share `Math.round((item / totalCost) * 100)`; `none` stands for
the result of a division by a total of 0, which is no finite number. -/
def percentShare (item totalCost : ℚ) : Option ℤ :=
  if totalCost = 0 then none else some (mathRound (fmul (fdiv item totalCost) 100))

/-- The object `calculateCostIndex` returns. -/
structure Result where
  costIndex : Num
  totalCost : ℚ
  cityCostFactor : Factor
  breakdown : WorkValue.CostCalculator.Breakdown
  costRatio : WorkValue.CostCalculator.CostRatio

/-- The local `costIndex` of `calculateCostIndex` before the returned object rounds
it. -/
def unroundedCostIndex (data : WorkValue.CostCalculator.Input) : Num :=
  let totalCost := fadd (fadd data.rent data.food) data.transport
  let baseCost : ℚ := 4000
  let costIndex := fmul (fdiv totalCost baseCost) 100
  timesFactor (some costIndex) (getCityCostFactor data.city)

/-- `calculateCostIndex`. -/
def calculateCostIndex (data : WorkValue.CostCalculator.Input) : Result :=
  let totalCost := fadd (fadd data.rent data.food) data.transport
  let baseCost : ℚ := 4000
  let costIndex := fmul (fdiv totalCost baseCost) 100
  let cityCostFactor := getCityCostFactor data.city
  let costIndex := timesFactor (some costIndex) cityCostFactor
  { costIndex := costIndex.map jsRound2
    totalCost := jsRound2 totalCost
    cityCostFactor := cityCostFactor
    breakdown :=
      { rent := jsRound2 data.rent
        food := jsRound2 data.food
        transport := jsRound2 data.transport }
    costRatio :=
      { rentRatio := percentShare data.rent totalCost
        foodRatio := percentShare data.food totalCost
        transportRatio := percentShare data.transport totalCost } }

end CostCalculator

/-! ### ExperienceCalculator -/

namespace ExperienceCalculator

/-- One turn of the accumulation `experienceIndex += validatedData[key] * weight`,
the weight being a decimal literal; `none` is `NaN`. -/
def accumulate (acc : Num) (value : Option ℚ) (weight : ℚ) : Num :=
  match acc, value with
  | some a, some v => some (fadd a (fmul v (lit weight)))
  | _, _ => none

/-- A `weightedScores` entry: `Math.round(value * 10 * 100) / 100`. -/
def weightedScore (value : Option ℚ) : Option ℚ := value.map (fun v => jsRound2 (fmul v 10))

/-- The local `experienceIndex` of `calculateExperienceIndex` before the returned
object rounds it. -/
def unroundedExperienceIndex (data : WorkValue.ExperienceCalculator.Input) : Num :=
  let validatedData := WorkValue.ExperienceCalculator.validateExperienceData data
  let weights := WorkValue.ExperienceCalculator.experienceWeights
  let experienceIndex : Num := some 0
  let experienceIndex :=
    accumulate experienceIndex validatedData.housingSatisfaction weights.housingSatisfaction
  let experienceIndex :=
    accumulate experienceIndex validatedData.consumptionSatisfaction
      weights.consumptionSatisfaction
  let experienceIndex :=
    accumulate experienceIndex validatedData.transportSatisfaction weights.transportSatisfaction
  let experienceIndex :=
    accumulate experienceIndex validatedData.lifeAtmosphere weights.lifeAtmosphere
  let experienceIndex :=
    accumulate experienceIndex validatedData.workAtmosphere weights.workAtmosphere
  experienceIndex.map (fun x => fmul x 10)

/-- `calculateExperienceIndex`; the loop over `Object.keys(this.experienceWeights)` is
written out in key order. -/
def calculateExperienceIndex (data : WorkValue.ExperienceCalculator.Input) :
    WorkValue.ExperienceCalculator.Result :=
  let validatedData := WorkValue.ExperienceCalculator.validateExperienceData data
  let weights := WorkValue.ExperienceCalculator.experienceWeights
  let experienceIndex : Num := some 0
  let experienceIndex :=
    accumulate experienceIndex validatedData.housingSatisfaction weights.housingSatisfaction
  let experienceIndex :=
    accumulate experienceIndex validatedData.consumptionSatisfaction
      weights.consumptionSatisfaction
  let experienceIndex :=
    accumulate experienceIndex validatedData.transportSatisfaction weights.transportSatisfaction
  let experienceIndex :=
    accumulate experienceIndex validatedData.lifeAtmosphere weights.lifeAtmosphere
  let experienceIndex :=
    accumulate experienceIndex validatedData.workAtmosphere weights.workAtmosphere
  let experienceIndex := experienceIndex.map (fun x => fmul x 10)
  { experienceIndex := experienceIndex.map jsRound2
    weightedScores :=
      { housingSatisfaction := weightedScore validatedData.housingSatisfaction
        consumptionSatisfaction := weightedScore validatedData.consumptionSatisfaction
        transportSatisfaction := weightedScore validatedData.transportSatisfaction
        lifeAtmosphere := weightedScore validatedData.lifeAtmosphere
        workAtmosphere := weightedScore validatedData.workAtmosphere }
    weights := weights
    breakdown := validatedData }

end ExperienceCalculator

/-! ### WorkValueCalculator -/

namespace WorkValueCalculator

/-- The four indices handed to `calculateTotalScore`, each a number that may be
`NaN`, and the shape of its `breakdown` object. -/
structure Scores where
  income : Num
  work : Num
  cost : Num
  experience : Num

/-- The object `calculateTotalScore` returns. -/
structure TotalScore where
  totalScore : Num
  weights : WorkValue.WorkValueCalculator.Scores
  breakdown : Scores

/-- The sum `totalScore` of `calculateTotalScore` after its four `+=` and before
the clamp. -/
def weightedSum (scores : Scores) : Num :=
  let weights := WorkValue.WorkValueCalculator.weights
  let totalScore : Num := some 0
  let totalScore := lift2 fadd totalScore (lift2 fmul scores.income (some (lit weights.income)))
  let totalScore :=
    lift2 fadd totalScore
      (lift2 fmul (lift2 fsub (some 100) scores.work) (some (lit weights.work)))
  let totalScore :=
    lift2 fadd totalScore
      (lift2 fmul (lift2 fsub (some 100) scores.cost) (some (lit weights.cost)))
  lift2 fadd totalScore (lift2 fmul scores.experience (some (lit weights.experience)))

/-- `calculateTotalScore`. -/
def calculateTotalScore (scores : Scores) : TotalScore :=
  let weights := WorkValue.WorkValueCalculator.weights
  let totalScore := weightedSum scores
  let totalScore := lift2 max (some 0) (lift2 min (some 100) totalScore)
  { totalScore := totalScore.map jsRound2
    weights := weights
    breakdown :=
      { income := lift2 fmul scores.income (some (lit weights.income))
        work := lift2 fmul (lift2 fsub (some 100) scores.work) (some (lit weights.work))
        cost := lift2 fmul (lift2 fsub (some 100) scores.cost) (some (lit weights.cost))
        experience := lift2 fmul scores.experience (some (lit weights.experience)) } }

/-- `getEvaluation` on a score that may be `NaN`: every comparison with `NaN` is
false, so `NaN` falls to the last branch, where every score below 50 lands. -/
def getEvaluation (score : Num) : WorkValue.WorkValueCalculator.Evaluation :=
  match score with
  | some s => WorkValue.WorkValueCalculator.getEvaluation s
  | none => WorkValue.WorkValueCalculator.getEvaluation 0

/-- What `calculateValue` hands to `displayResult`. -/
structure ValueResult where
  totalScore : TotalScore
  evaluation : WorkValue.WorkValueCalculator.Evaluation
  incomeResult : IncomeCalculator.Result
  workResult : WorkValue.WorkCalculator.Result
  costResult : CostCalculator.Result
  experienceResult : WorkValue.ExperienceCalculator.Result

/-- `calculateValue` from the collected form record on: `none` when validation stops
it before anything is computed. -/
def calculateValue (formData : WorkValue.WorkValueCalculator.FormData) : Option ValueResult :=
  if WorkValue.WorkValueCalculator.validateFormData formData = false then none
  else
    let incomeResult :=
      IncomeCalculator.calculateIncomeIndex (WorkValue.WorkValueCalculator.incomeInput formData)
    let workResult :=
      WorkCalculator.calculateWorkIndex (WorkValue.WorkValueCalculator.workInput formData)
    let costResult :=
      CostCalculator.calculateCostIndex (WorkValue.WorkValueCalculator.costInput formData)
    let experienceResult :=
      ExperienceCalculator.calculateExperienceIndex
        (WorkValue.ExperienceCalculator.ofNumbers formData.housingSatisfaction
          formData.consumptionSatisfaction formData.transportSatisfaction
          formData.lifeAtmosphere formData.workAtmosphere)
    let totalScore :=
      calculateTotalScore
        { income := incomeResult.incomeIndex
          work := some workResult.workIndex
          cost := costResult.costIndex
          experience := experienceResult.experienceIndex }
    let evaluation := getEvaluation totalScore.totalScore
    some
      { totalScore := totalScore
        evaluation := evaluation
        incomeResult := incomeResult
        workResult := workResult
        costResult := costResult
        experienceResult := experienceResult }

/-- The total score in the specification's words (rounding exactly once, not
cascaded), on binary64 numbers: `jsRound2` of the clamped weighted sum of the four
unrounded indices, the work index keeping its floor of 1. -/
def specTotalScore (formData : WorkValue.WorkValueCalculator.FormData) : Num :=
  let sum :=
    weightedSum
      { income :=
          IncomeCalculator.unroundedIncomeIndex (WorkValue.WorkValueCalculator.incomeInput formData)
        work :=
          some (max 1
            (WorkCalculator.unroundedWorkIndex (WorkValue.WorkValueCalculator.workInput formData)))
        cost :=
          CostCalculator.unroundedCostIndex (WorkValue.WorkValueCalculator.costInput formData)
        experience :=
          ExperienceCalculator.unroundedExperienceIndex
            (WorkValue.ExperienceCalculator.ofNumbers formData.housingSatisfaction
              formData.consumptionSatisfaction formData.transportSatisfaction
              formData.lifeAtmosphere formData.workAtmosphere) }
  (lift2 max (some 0) (lift2 min (some 100) sum)).map jsRound2

end WorkValueCalculator

/-! ### Example inputs

Every numeric field below is a binary64 value: a whole number, a dyadic fraction, or
`lit` of a decimal. -/

/-- Scenario 1 of the specification (income), the fund rate being the binary64
value of 0.12. -/
def incomeScenario : WorkValue.IncomeCalculator.Input :=
  { WorkValue.incomeScenario with fundRate := lit 0.12 }

/-- An income record in 广州 with an after-tax salary of 3005 and nothing else. -/
def tieIncomeInput : WorkValue.IncomeCalculator.Input :=
  { salary := 0
    afterTax := 3005
    allowance := 0
    insuranceBase := 0
    fundRate := 0
    otherBenefits := 0
    city := "广州"
    education := "本科"
    schoolRank := "211院校" }

/-- The record `tieIncomeInput` with a city that no table of the engine lists. -/
def unlistedCityInput : WorkValue.IncomeCalculator.Input :=
  { tieIncomeInput with city := "东京" }

/-- The record `tieIncomeInput` with a city named like an inherited property. -/
def inheritedCityInput : WorkValue.IncomeCalculator.Input :=
  { tieIncomeInput with city := "constructor" }

/-- The record `tieIncomeInput` with an education named like an inherited property. -/
def inheritedEducationInput : WorkValue.IncomeCalculator.Input :=
  { tieIncomeInput with education := "toString" }

/-- A work record: nine to three, 45 minutes of commute, one overtime day, intensity
10, five and a half working days, age 50. -/
def tieWorkInput : WorkValue.WorkCalculator.Input :=
  { workStart := 9
    workEnd := 15
    commuteTime := 45
    overtimeFreq := 1
    overtimeHours := 0
    workIntensity := 10
    workDays := 11 / 2
    age := 50 }

/-- A cost record in 深圳 with the expenses 1000, 300 and 94. -/
def tieCostInput : WorkValue.CostCalculator.Input :=
  { rent := 1000, food := 300, transport := 94, city := "深圳" }

/-- A cost record with a city named like an inherited property. -/
def inheritedCostInput : WorkValue.CostCalculator.Input :=
  { rent := 1000, food := 300, transport := 94, city := "constructor" }

namespace WorkValueCalculator

/-- The form record `cascadeForm`, the fund rate being the binary64 value of
0.12. -/
def cascadeForm : WorkValue.WorkValueCalculator.FormData :=
  { WorkValue.WorkValueCalculator.cascadeForm with fundRate := lit 0.12 }

/-- The form record `cascadeForm` in 广州 with an after-tax salary of 3000, an
insurance base of 5000 and a fund rate of 0.05. -/
def guangzhouForm : WorkValue.WorkValueCalculator.FormData :=
  { WorkValue.WorkValueCalculator.cascadeForm with
    city := "广州"
    afterTax := 3000
    insuranceBase := 5000
    fundRate := lit 0.05 }

end WorkValueCalculator

end Js

end WorkValue

/-! ## Rounding lemmas -/

namespace WorkValue

theorem mathRound_mono {x y : ℚ} (h : x ≤ y) : mathRound x ≤ mathRound y := by
  unfold mathRound
  exact Int.floor_mono (by linarith)

theorem mathRound_intCast (n : ℤ) : mathRound (n : ℚ) = n := by
  unfold mathRound
  rw [Int.floor_eq_iff]
  constructor <;> linarith

theorem round2_mono {x y : ℚ} (h : x ≤ y) : round2 x ≤ round2 y := by
  unfold round2
  have h1 : mathRound (x * 100) ≤ mathRound (y * 100) := mathRound_mono (by linarith)
  have h2 : (mathRound (x * 100) : ℚ) ≤ (mathRound (y * 100) : ℚ) := by exact_mod_cast h1
  linarith

theorem round2_hundredths (n : ℤ) : round2 ((n : ℚ) / 100) = (n : ℚ) / 100 := by
  unfold round2
  have h : (n : ℚ) / 100 * 100 = (n : ℚ) := by ring
  rw [h, mathRound_intCast]

theorem round2_intCast (n : ℤ) : round2 (n : ℚ) = (n : ℚ) := by
  have h := round2_hundredths (n * 100)
  have e : (((n * 100 : ℤ) : ℚ)) / 100 = (n : ℚ) := by push_cast; ring
  rw [e] at h
  exact h

theorem round2_hundred : round2 100 = 100 := by
  simpa using round2_intCast 100

theorem round2_ten : round2 10 = 10 := by
  simpa using round2_intCast 10

end WorkValue

/-! ## Lookup tables -/

namespace WorkValue

theorem lookup_some_snd_mem {l : List (String × ℚ)} {k : String} {v : ℚ}
    (h : l.lookup k = some v) : v ∈ l.map Prod.snd := by
  induction l with
  | nil => simp [List.lookup] at h
  | cons p rest ih =>
    obtain ⟨a, b⟩ := p
    by_cases hk : k = a
    · subst hk
      simp [List.lookup] at h
      simp [h]
    · have hb : (k == a) = false := by simpa using hk
      simp only [List.lookup, hb] at h
      simp only [List.map_cons, List.mem_cons]
      exact Or.inr (ih h)

theorem lookup_none_of_not_key {l : List (String × ℚ)} {k : String}
    (h : k ∉ l.map Prod.fst) : l.lookup k = none := by
  induction l with
  | nil => rfl
  | cons p rest ih =>
    obtain ⟨a, b⟩ := p
    simp only [List.map_cons, List.mem_cons, not_or] at h
    have hb : (k == a) = false := by simpa using h.1
    simp only [List.lookup, hb]
    exact ih h.2

theorem jsOr_some {v d : ℚ} (h : v ≠ 0) : jsOr (some v) d = v := by
  simp [jsOr, h]

namespace IncomeCalculator

theorem setKey_forall (P : ℚ → Prop) (obj : List (String × ℚ)) (key : String) (value : ℚ)
    (hobj : ∀ p ∈ obj, P p.2) (hv : P value) : ∀ p ∈ setKey obj key value, P p.2 := by
  induction obj with
  | nil =>
    intro p hp
    simp only [setKey, List.mem_singleton] at hp
    subst hp
    exact hv
  | cons q rest ih =>
    obtain ⟨a, b⟩ := q
    intro p hp
    unfold setKey at hp
    split at hp
    · rcases List.mem_cons.1 hp with h | h
      · subst h
        exact hv
      · exact hobj p (List.mem_cons_of_mem _ h)
    · rcases List.mem_cons.1 hp with h | h
      · subst h
        exact hobj _ (List.mem_cons_self _ _)
      · exact ih (fun r hr => hobj r (List.mem_cons_of_mem _ hr)) p h

theorem foldl_setKey_forall (P : ℚ → Prop) (region : List (String × CityInfo)) :
    ∀ acc : List (String × ℚ), (∀ p ∈ acc, P p.2) → (∀ e ∈ region, P e.2.factor) →
      ∀ p ∈ region.foldl (fun acc2 entry => setKey acc2 entry.1 entry.2.factor) acc, P p.2 := by
  induction region with
  | nil => intro acc hacc _; simpa using hacc
  | cons e rest ih =>
    intro acc hacc hreg
    simp only [List.foldl_cons]
    apply ih
    · exact setKey_forall P acc e.1 e.2.factor hacc (hreg e (List.mem_cons_self _ _))
    · intro e2 he2
      exact hreg e2 (List.mem_cons_of_mem _ he2)

theorem foldl_regions_forall (P : ℚ → Prop) (regions : List (String × List (String × CityInfo))) :
    ∀ acc : List (String × ℚ), (∀ p ∈ acc, P p.2) →
      (∀ region ∈ regions, ∀ e ∈ region.2, P e.2.factor) →
      ∀ p ∈ regions.foldl
        (fun acc region =>
          region.2.foldl (fun acc2 entry => setKey acc2 entry.1 entry.2.factor) acc) acc,
        P p.2 := by
  induction regions with
  | nil => intro acc hacc _; simpa using hacc
  | cons r rest ih =>
    intro acc hacc hreg
    simp only [List.foldl_cons]
    apply ih
    · exact foldl_setKey_forall P r.2 acc hacc (hreg r (List.mem_cons_self _ _))
    · intro r2 hr2
      exact hreg r2 (List.mem_cons_of_mem _ hr2)

theorem cityData_factor_ne_zero :
    ∀ region ∈ cityData, ∀ e ∈ region.2, e.2.factor ≠ 0 := by
  simp only [cityData, List.forall_mem_cons, List.not_mem_nil, false_implies, implies_true,
    and_true]
  norm_num

theorem cityFactors_ne_zero {city : String} {v : ℚ} (h : cityFactors.lookup city = some v) :
    v ≠ 0 := by
  have hall : ∀ p ∈ cityFactors, p.2 ≠ 0 := by
    unfold cityFactors buildCityFactors
    refine setKey_forall (fun q => q ≠ 0) _ _ _ ?_ (by norm_num)
    refine foldl_regions_forall (fun q => q ≠ 0) cityData [] ?_ cityData_factor_ne_zero
    intro p hp
    simp at hp
  obtain ⟨p, hp, rfl⟩ := List.mem_map.1 (lookup_some_snd_mem h)
  exact hall p hp

theorem educationFactors_ne_zero {k : String} {v : ℚ} (h : educationFactors.lookup k = some v) :
    v ≠ 0 := by
  have hm := lookup_some_snd_mem h
  simp only [educationFactors, List.map_cons, List.map_nil, List.mem_cons, List.mem_singleton,
    List.not_mem_nil, or_false] at hm
  rcases hm with rfl | rfl | rfl | rfl <;> norm_num

theorem schoolRankFactors_ne_zero {k : String} {v : ℚ}
    (h : schoolRankFactors.lookup k = some v) : v ≠ 0 := by
  have hm := lookup_some_snd_mem h
  simp only [schoolRankFactors, List.map_cons, List.map_nil, List.mem_cons, List.mem_singleton,
    List.not_mem_nil, or_false] at hm
  rcases hm with rfl | rfl | rfl | rfl <;> norm_num

end IncomeCalculator

end WorkValue

namespace WorkValue

/-! ## Composite score -/

namespace WorkValueCalculator

theorem clamp_comm (s : ℚ) : max 0 (min 100 s) = min 100 (max 0 s) := by
  rcases le_total s 0 with h0 | h0 <;> rcases le_total s 100 with h1 | h1
  · rw [min_eq_right h1, max_eq_left h0, min_eq_right (by norm_num)]
  · linarith
  · rw [min_eq_right h1, max_eq_right h0, min_eq_right h1]
  · rw [min_eq_left h1, max_eq_right h0, min_eq_left h1, max_eq_right (by norm_num)]

end WorkValueCalculator

end WorkValue

/-! ## Verdict tiers -/

namespace WorkValue

namespace WorkValueCalculator

theorem gradeRank_getEvaluation (score : ℚ) :
    gradeRank (getEvaluation score).grade =
      if score ≥ 95 then 5 else if score ≥ 85 then 4 else if score ≥ 75 then 3
      else if score ≥ 65 then 2 else if score ≥ 50 then 1 else 0 := by
  unfold getEvaluation
  split_ifs <;> rfl

/-- C4: `getEvaluation` is defined on every score and picks the tier of the first
threshold the score reaches: at least 95 gives 天菜！, [85, 95) gives 优秀！,
[75, 85) gives 良好！, [65, 75) gives 一般！, [50, 65) gives 及格！ and below 50
gives 不及格！; the six labels are pairwise different, 95 and 94.99 fall in the
adjacent tiers 天菜！ and 优秀！, and a higher score never gets a lower tier. -/
theorem getEvaluation_tiers :
    (∀ score : ℚ,
      (95 ≤ score → (getEvaluation score).grade = "天菜！") ∧
      (85 ≤ score → score < 95 → (getEvaluation score).grade = "优秀！") ∧
      (75 ≤ score → score < 85 → (getEvaluation score).grade = "良好！") ∧
      (65 ≤ score → score < 75 → (getEvaluation score).grade = "一般！") ∧
      (50 ≤ score → score < 65 → (getEvaluation score).grade = "及格！") ∧
      (score < 50 → (getEvaluation score).grade = "不及格！")) ∧
    ["天菜！", "优秀！", "良好！", "一般！", "及格！", "不及格！"].Nodup ∧
    (getEvaluation 95).grade = "天菜！" ∧
    (getEvaluation 94.99).grade = "优秀！" ∧
    (∀ s t : ℚ, s ≤ t →
      gradeRank (getEvaluation s).grade ≤ gradeRank (getEvaluation t).grade) := by
  refine ⟨?_, by decide, ?_, ?_, ?_⟩
  · intro score
    refine ⟨?_, ?_, ?_, ?_, ?_, ?_⟩
    · intro h
      unfold getEvaluation
      rw [if_pos h]
    · intro h1 h2
      unfold getEvaluation
      rw [if_neg (not_le.2 h2), if_pos h1]
    · intro h1 h2
      unfold getEvaluation
      rw [if_neg (by linarith), if_neg (not_le.2 h2), if_pos h1]
    · intro h1 h2
      unfold getEvaluation
      rw [if_neg (by linarith), if_neg (by linarith), if_neg (not_le.2 h2), if_pos h1]
    · intro h1 h2
      unfold getEvaluation
      rw [if_neg (by linarith), if_neg (by linarith), if_neg (by linarith),
        if_neg (not_le.2 h2), if_pos h1]
    · intro h
      unfold getEvaluation
      rw [if_neg (by linarith), if_neg (by linarith), if_neg (by linarith),
        if_neg (by linarith), if_neg (not_le.2 h)]
  · unfold getEvaluation
    rw [if_pos (by norm_num)]
  · unfold getEvaluation
    rw [if_neg (by norm_num), if_pos (by norm_num)]
  · intro s t hst
    rw [gradeRank_getEvaluation, gradeRank_getEvaluation]
    split_ifs <;> first | decide | (exfalso; linarith)

end WorkValueCalculator

/-! ## Work-burden index -/

namespace WorkCalculator

theorem overtime_of_ge {total : ℚ} (h : 0.1 ≤ total) : total / max 0.1 total * 10 = 10 := by
  have hpos : (0 : ℚ) < total := lt_of_lt_of_le (by norm_num) h
  rw [max_eq_right h, div_self (ne_of_gt hpos)]
  norm_num

theorem overtime_of_lt {total : ℚ} (h : total < 0.1) :
    total / max 0.1 total * 10 = 100 * total := by
  rw [max_eq_left (le_of_lt h)]
  norm_num
  ring

end WorkCalculator

end WorkValue

/-! ## Cost index -/

namespace WorkValue

namespace CostCalculator

theorem cityCostFactors_ne_zero {k : String} {v : ℚ} (h : cityCostFactors.lookup k = some v) :
    v ≠ 0 := by
  have hm := lookup_some_snd_mem h
  simp only [cityCostFactors, List.map_cons, List.map_nil, List.mem_cons, List.mem_singleton,
    List.not_mem_nil, or_false] at hm
  rcases hm with rfl | rfl | rfl | rfl | rfl | rfl | rfl | rfl | rfl <;> norm_num

end CostCalculator

/-! ## Experience index -/

namespace ExperienceCalculator

theorem validateValue_bounds (v : JSValue) : 1 ≤ validateValue v ∧ validateValue v ≤ 10 := by
  unfold validateValue
  exact ⟨le_max_left _ _, max_le (by norm_num) (min_le_left _ _)⟩

theorem validateValue_of_mem {r : ℚ} (h1 : 1 ≤ r) (h10 : r ≤ 10) :
    validateValue (.number r) = r := by
  have h0 : r ≠ 0 := by
    intro h
    rw [h] at h1
    norm_num at h1
  simp only [validateValue, parseFloat]
  rw [jsOr_some h0, min_eq_right h10, max_eq_right h1]

theorem experienceIndex_ofNumbers (h c t l w : ℚ) :
    (calculateExperienceIndex (ofNumbers h c t l w)).experienceIndex =
      some (round2
        ((0.25 * validateValue (.number h) + 0.20 * validateValue (.number c)
          + 0.15 * validateValue (.number t) + 0.20 * validateValue (.number l)
          + 0.20 * validateValue (.number w)) * 10)) := by
  simp only [calculateExperienceIndex, validateExperienceData, ofNumbers, accumulate,
    experienceWeights, Option.map_some']
  congr 2
  ring

/-- C9: when the five satisfaction ratings are numbers, of any magnitude,
`calculateExperienceIndex` returns a number as the experience index, and it lies
in [10, 100]. -/
theorem experienceIndex_bounds (h c t l w : ℚ) :
    ∃ x : ℚ, (calculateExperienceIndex (ofNumbers h c t l w)).experienceIndex = some x ∧
      10 ≤ x ∧ x ≤ 100 := by
  refine ⟨_, experienceIndex_ofNumbers h c t l w, ?_, ?_⟩
  · have hh := (validateValue_bounds (.number h)).1
    have hc := (validateValue_bounds (.number c)).1
    have ht := (validateValue_bounds (.number t)).1
    have hl := (validateValue_bounds (.number l)).1
    have hw := (validateValue_bounds (.number w)).1
    calc (10 : ℚ) = round2 10 := round2_ten.symm
      _ ≤ _ := round2_mono (by linarith)
  · have hh := (validateValue_bounds (.number h)).2
    have hc := (validateValue_bounds (.number c)).2
    have ht := (validateValue_bounds (.number t)).2
    have hl := (validateValue_bounds (.number l)).2
    have hw := (validateValue_bounds (.number w)).2
    calc _ ≤ round2 100 := round2_mono (by linarith)
      _ = 100 := round2_hundred

end ExperienceCalculator

end WorkValue

/-! ## Validation of the ratings -/

namespace WorkValue

namespace ExperienceCalculator

theorem validateValue_of_ne_zero {r : ℚ} (h : r ≠ 0) :
    validateValue (.number r) = min 10 (max 1 r) := by
  simp only [validateValue, parseFloat]
  rw [jsOr_some h]
  rcases le_total r 1 with h1 | h1 <;> rcases le_total r 10 with h10 | h10
  · rw [min_eq_right h10, max_eq_left h1, min_eq_right (by norm_num)]
  · linarith
  · rw [min_eq_right h10, max_eq_right h1, min_eq_right h10]
  · rw [min_eq_left h10, max_eq_right h1, min_eq_left h10, max_eq_right (by norm_num)]

theorem validateValue_default {v : JSValue} (h : parseFloat v = none ∨ parseFloat v = some 0) :
    validateValue v = 5 := by
  unfold validateValue
  rcases h with h | h <;> rw [h] <;> simp only [jsOr, if_true] <;> norm_num

/-- C11, as stated, fails: the numeric rating 0 is validated to 5, while
`min 10 (max 1 0)` is 1. -/
theorem validateExperienceData_counterexample :
    (validateExperienceData (ofNumbers 0 5 5 5 5)).housingSatisfaction = some 5 ∧
    min 10 (max 1 (0 : ℚ)) = 1 ∧
    (validateExperienceData (ofNumbers 0 5 5 5 5)).housingSatisfaction
      ≠ some (min 10 (max 1 (0 : ℚ))) := by
  have hv : (validateExperienceData (ofNumbers 0 5 5 5 5)).housingSatisfaction = some 5 := by
    simp only [validateExperienceData, ofNumbers, Option.map_some']
    rw [validateValue_default (v := .number 0) (Or.inr rfl)]
  have hm : min 10 (max 1 (0 : ℚ)) = 1 := by
    rw [max_eq_left (by norm_num), min_eq_right (by norm_num)]
  refine ⟨hv, hm, ?_⟩
  rw [hv, hm]
  norm_num

/-- C11, amended: `validateExperienceData` clamps every nonzero numeric rating to
[1, 10], the validated value being `min 10 (max 1 r)` (a negative rating becomes 1,
a rating above 10 becomes 10); the rating 0 counts as not given and becomes 5. -/
theorem validateExperienceData_clamps (h c t l w : ℚ)
    (hh : h ≠ 0) (hc : c ≠ 0) (ht : t ≠ 0) (hl : l ≠ 0) (hw : w ≠ 0) :
    (validateExperienceData (ofNumbers h c t l w)).housingSatisfaction
      = some (min 10 (max 1 h)) ∧
    (validateExperienceData (ofNumbers h c t l w)).consumptionSatisfaction
      = some (min 10 (max 1 c)) ∧
    (validateExperienceData (ofNumbers h c t l w)).transportSatisfaction
      = some (min 10 (max 1 t)) ∧
    (validateExperienceData (ofNumbers h c t l w)).lifeAtmosphere
      = some (min 10 (max 1 l)) ∧
    (validateExperienceData (ofNumbers h c t l w)).workAtmosphere
      = some (min 10 (max 1 w)) ∧
    (validateExperienceData (ofNumbers 0 c t l w)).housingSatisfaction = some 5 := by
  simp only [validateExperienceData, ofNumbers, Option.map_some', validateValue_of_ne_zero hh,
    validateValue_of_ne_zero hc, validateValue_of_ne_zero ht, validateValue_of_ne_zero hl,
    validateValue_of_ne_zero hw, validateValue_default (v := .number 0) (Or.inr rfl), and_self]

/-- C11, amended, at the ratings -3, 0.5, 7, 10 and 12: they are validated to 1, 1,
7, 10 and 10. -/
theorem validateExperienceData_clamps_witness :
    (validateExperienceData (ofNumbers (-3) 0.5 7 10 12)).housingSatisfaction = some 1 ∧
    (validateExperienceData (ofNumbers (-3) 0.5 7 10 12)).consumptionSatisfaction = some 1 ∧
    (validateExperienceData (ofNumbers (-3) 0.5 7 10 12)).transportSatisfaction = some 7 ∧
    (validateExperienceData (ofNumbers (-3) 0.5 7 10 12)).lifeAtmosphere = some 10 ∧
    (validateExperienceData (ofNumbers (-3) 0.5 7 10 12)).workAtmosphere = some 10 := by
  obtain ⟨h1, h2, h3, h4, h5, _⟩ := validateExperienceData_clamps (-3) 0.5 7 10 12
    (by norm_num) (by norm_num) (by norm_num) (by norm_num) (by norm_num)
  rw [h1, h2, h3, h4, h5]
  refine ⟨?_, ?_, ?_, ?_, ?_⟩
  · rw [max_eq_left (by norm_num), min_eq_right (by norm_num)]
  · rw [max_eq_left (by norm_num), min_eq_right (by norm_num)]
  · rw [max_eq_right (by norm_num), min_eq_right (by norm_num)]
  · rw [max_eq_right (by norm_num), min_eq_right (by norm_num)]
  · rw [max_eq_right (by norm_num), min_eq_left (by norm_num)]

/-- C12, as stated, fails: the rating 11 is outside [1, 10], and it is validated to
10, not to 5; the experience index is then 62.5, while a rating of 5 in its place
gives 50. -/
theorem defaultRating_counterexample :
    ¬ ((1 : ℚ) ≤ 11 ∧ (11 : ℚ) ≤ 10) ∧
    (validateExperienceData (ofNumbers 11 5 5 5 5)).housingSatisfaction = some 10 ∧
    (validateExperienceData (ofNumbers 11 5 5 5 5)).housingSatisfaction ≠ some 5 ∧
    (calculateExperienceIndex (ofNumbers 11 5 5 5 5)).experienceIndex = some 62.5 ∧
    (calculateExperienceIndex (ofNumbers 5 5 5 5 5)).experienceIndex = some 50 := by
  have h11 : validateValue (.number 11) = 10 := by
    rw [validateValue_of_ne_zero (by norm_num), max_eq_right (by norm_num),
      min_eq_left (by norm_num)]
  have h5 : validateValue (.number 5) = 5 := validateValue_of_mem (by norm_num) (by norm_num)
  have hv : (validateExperienceData (ofNumbers 11 5 5 5 5)).housingSatisfaction = some 10 := by
    simp only [validateExperienceData, ofNumbers, Option.map_some', h11]
  refine ⟨by norm_num, hv, ?_, ?_, ?_⟩
  · rw [hv]
    norm_num
  · rw [experienceIndex_ofNumbers, h11, h5]
    simp only [round2, mathRound]
    norm_num
  · rw [experienceIndex_ofNumbers, h5]
    simp only [round2, mathRound]
    norm_num

/-- C12, amended: a rating that is not numeric, or is the number 0, is replaced by
the default 5, and `calculateExperienceIndex` returns for it what it returns for a
rating of 5 in that dimension; a nonzero numeric rating outside [1, 10] is not
replaced by 5 but clamped, to 10 above 10 and to 1 below 1. -/
theorem defaultRating (v : JSValue) (hv : parseFloat v = none ∨ parseFloat v = some 0)
    (data : Input) :
    validateValue v = 5 ∧
    calculateExperienceIndex { data with housingSatisfaction := some v }
      = calculateExperienceIndex { data with housingSatisfaction := some (.number 5) } ∧
    calculateExperienceIndex { data with consumptionSatisfaction := some v }
      = calculateExperienceIndex { data with consumptionSatisfaction := some (.number 5) } ∧
    calculateExperienceIndex { data with transportSatisfaction := some v }
      = calculateExperienceIndex { data with transportSatisfaction := some (.number 5) } ∧
    calculateExperienceIndex { data with lifeAtmosphere := some v }
      = calculateExperienceIndex { data with lifeAtmosphere := some (.number 5) } ∧
    calculateExperienceIndex { data with workAtmosphere := some v }
      = calculateExperienceIndex { data with workAtmosphere := some (.number 5) } ∧
    (∀ r : ℚ, 10 < r → validateValue (.number r) = 10) ∧
    (∀ r : ℚ, r < 1 → r ≠ 0 → validateValue (.number r) = 1) := by
  have h5 : validateValue (.number 5) = 5 := validateValue_of_mem (by norm_num) (by norm_num)
  have hd : validateValue v = validateValue (.number 5) := by
    rw [validateValue_default hv, h5]
  refine ⟨validateValue_default hv, ?_, ?_, ?_, ?_, ?_, ?_, ?_⟩
  · simp only [calculateExperienceIndex, validateExperienceData, Option.map_some', hd]
  · simp only [calculateExperienceIndex, validateExperienceData, Option.map_some', hd]
  · simp only [calculateExperienceIndex, validateExperienceData, Option.map_some', hd]
  · simp only [calculateExperienceIndex, validateExperienceData, Option.map_some', hd]
  · simp only [calculateExperienceIndex, validateExperienceData, Option.map_some', hd]
  · intro r hr
    rw [validateValue_of_ne_zero (by linarith), max_eq_right (by linarith),
      min_eq_left (le_of_lt hr)]
  · intro r hr h0
    rw [validateValue_of_ne_zero h0, max_eq_left (le_of_lt hr), min_eq_right (by norm_num)]

/-- C12, amended, at a housing rating that is not numeric, the other four ratings
being 7: the validated value is 5 and the experience index is 65. -/
theorem defaultRating_witness :
    parseFloat .notNumeric = none ∧
    validateValue .notNumeric = 5 ∧
    (calculateExperienceIndex
      { ofNumbers 7 7 7 7 7 with housingSatisfaction := some .notNumeric }).experienceIndex
      = some 65 := by
  have h := defaultRating .notNumeric (Or.inl rfl) (ofNumbers 7 7 7 7 7)
  refine ⟨rfl, h.1, ?_⟩
  rw [h.2.1]
  have e : ({ ofNumbers 7 7 7 7 7 with housingSatisfaction := some (.number 5) } : Input)
      = ofNumbers 5 7 7 7 7 := rfl
  rw [e, experienceIndex_ofNumbers, validateValue_of_mem (r := 5) (by norm_num) (by norm_num),
    validateValue_of_mem (r := 7) (by norm_num) (by norm_num)]
  simp only [round2, mathRound]
  norm_num

end ExperienceCalculator

end WorkValue

/-! ## Ratios of the cost calculator -/

namespace WorkValue

theorem mathRound_le (y : ℚ) : (mathRound y : ℚ) ≤ y + 1 / 2 := by
  unfold mathRound
  exact Int.floor_le _

theorem lt_mathRound (y : ℚ) : y - 1 / 2 < (mathRound y : ℚ) := by
  unfold mathRound
  have h := Int.lt_floor_add_one (y + 1 / 2)
  linarith

namespace CostCalculator

theorem percentShare_of_ne_zero {item totalCost : ℚ} (h : totalCost ≠ 0) :
    percentShare item totalCost = some (mathRound ((item / totalCost) * 100)) := by
  unfold percentShare
  rw [if_neg h]

/-- C14: with no expenses at all the total cost is 0 and each of the three divisions
by it gives no number (`none`: 0 / 0 is `NaN`), although the sibling
`calculateCostBenefitRatio` guards the same case and returns 0. -/
theorem costRatio_zeroCost :
    (0 : ℚ) ≤ zeroCostInput.rent ∧ (0 : ℚ) ≤ zeroCostInput.food ∧
    (0 : ℚ) ≤ zeroCostInput.transport ∧
    zeroCostInput.rent + zeroCostInput.food + zeroCostInput.transport = 0 ∧
    (calculateCostIndex zeroCostInput).costRatio.rentRatio = none ∧
    (calculateCostIndex zeroCostInput).costRatio.foodRatio = none ∧
    (calculateCostIndex zeroCostInput).costRatio.transportRatio = none ∧
    calculateCostBenefitRatio 5000 0 = 0 := by
  have h0 : zeroCostInput.rent + zeroCostInput.food + zeroCostInput.transport = 0 := by
    simp only [zeroCostInput]
    norm_num
  refine ⟨le_refl _, le_refl _, le_refl _, h0, ?_, ?_, ?_, ?_⟩
  · simp only [calculateCostIndex, percentShare, h0, if_true]
  · simp only [calculateCostIndex, percentShare, h0, if_true]
  · simp only [calculateCostIndex, percentShare, h0, if_true]
  · unfold calculateCostBenefitRatio
    rw [if_pos rfl]

/-- C15: for non-negative rent, food and transport with a positive total, the three
whole-percent shares of `calculateCostIndex` are numbers and their sum is 99, 100
or 101. -/
theorem costRatio_sum (data : Input) (_hr : 0 ≤ data.rent) (_hf : 0 ≤ data.food)
    (_ht : 0 ≤ data.transport) (hpos : 0 < data.rent + data.food + data.transport) :
    ∃ r f t : ℤ,
      (calculateCostIndex data).costRatio.rentRatio = some r ∧
      (calculateCostIndex data).costRatio.foodRatio = some f ∧
      (calculateCostIndex data).costRatio.transportRatio = some t ∧
      99 ≤ r + f + t ∧ r + f + t ≤ 101 := by
  have hne : data.rent + data.food + data.transport ≠ 0 := ne_of_gt hpos
  have hsum : data.rent / (data.rent + data.food + data.transport) * 100
      + data.food / (data.rent + data.food + data.transport) * 100
      + data.transport / (data.rent + data.food + data.transport) * 100 = 100 := by
    field_simp
    ring
  refine ⟨_, _, _, percentShare_of_ne_zero hne, percentShare_of_ne_zero hne,
    percentShare_of_ne_zero hne, ?_, ?_⟩
  · have h1 := lt_mathRound (data.rent / (data.rent + data.food + data.transport) * 100)
    have h2 := lt_mathRound (data.food / (data.rent + data.food + data.transport) * 100)
    have h3 := lt_mathRound (data.transport / (data.rent + data.food + data.transport) * 100)
    have hq : ((98 : ℤ) : ℚ) <
        ((mathRound (data.rent / (data.rent + data.food + data.transport) * 100)
          + mathRound (data.food / (data.rent + data.food + data.transport) * 100)
          + mathRound (data.transport / (data.rent + data.food + data.transport) * 100) : ℤ)
          : ℚ) := by
      push_cast
      linarith
    have hz := Int.cast_lt.1 hq
    omega
  · have h1 := mathRound_le (data.rent / (data.rent + data.food + data.transport) * 100)
    have h2 := mathRound_le (data.food / (data.rent + data.food + data.transport) * 100)
    have h3 := mathRound_le (data.transport / (data.rent + data.food + data.transport) * 100)
    have hq :
        ((mathRound (data.rent / (data.rent + data.food + data.transport) * 100)
          + mathRound (data.food / (data.rent + data.food + data.transport) * 100)
          + mathRound (data.transport / (data.rent + data.food + data.transport) * 100) : ℤ)
          : ℚ) < ((102 : ℤ) : ℚ) := by
      push_cast
      linarith
    have hz := Int.cast_lt.1 hq
    omega

/-- C15, at three equal expenses of 1: each share is 33 and the sum is 99, not
100. -/
theorem costRatio_sum_witness :
    ∃ r f t : ℤ,
      (calculateCostIndex equalCostInput).costRatio.rentRatio = some r ∧
      (calculateCostIndex equalCostInput).costRatio.foodRatio = some f ∧
      (calculateCostIndex equalCostInput).costRatio.transportRatio = some t ∧
      r = 33 ∧ f = 33 ∧ t = 33 ∧ r + f + t = 99 ∧ r + f + t ≠ 100 := by
  obtain ⟨r, f, t, hr, hf, ht, _, _⟩ := costRatio_sum equalCostInput
    (by simp only [equalCostInput]; norm_num) (by simp only [equalCostInput]; norm_num)
    (by simp only [equalCostInput]; norm_num) (by simp only [equalCostInput]; norm_num)
  have hshare : percentShare 1 (1 + 1 + 1) = some 33 := by
    rw [percentShare_of_ne_zero (by norm_num)]
    simp only [mathRound]
    norm_num
  have er : r = 33 := by
    have h : (calculateCostIndex equalCostInput).costRatio.rentRatio = some 33 := hshare
    rw [hr] at h
    exact Option.some.inj h
  have ef : f = 33 := by
    have h : (calculateCostIndex equalCostInput).costRatio.foodRatio = some 33 := hshare
    rw [hf] at h
    exact Option.some.inj h
  have et : t = 33 := by
    have h : (calculateCostIndex equalCostInput).costRatio.transportRatio = some 33 := hshare
    rw [ht] at h
    exact Option.some.inj h
  refine ⟨r, f, t, hr, hf, ht, er, ef, et, ?_, ?_⟩
  · rw [er, ef, et]
    norm_num
  · rw [er, ef, et]
    norm_num

end CostCalculator

end WorkValue

/-! ## Weight sets -/

namespace WorkValue

namespace WorkValueCalculator

/-- C16: the composite weights of `calculateTotalScore` are 0.60, 0.25, 0.10 and
0.05 and sum to exactly 1, and the experience weights are 0.25, 0.20, 0.15, 0.20
and 0.20 and sum to exactly 1; these are the weight sets the two results carry. -/
theorem weights_sum_one :
    weights.income = 0.60 ∧ weights.work = 0.25 ∧ weights.cost = 0.10 ∧
    weights.experience = 0.05 ∧
    weights.income + weights.work + weights.cost + weights.experience = 1 ∧
    (∀ scores : Scores,
      (calculateTotalScore scores).weights.income + (calculateTotalScore scores).weights.work
        + (calculateTotalScore scores).weights.cost
        + (calculateTotalScore scores).weights.experience = 1) ∧
    ExperienceCalculator.experienceWeights.housingSatisfaction = 0.25 ∧
    ExperienceCalculator.experienceWeights.consumptionSatisfaction = 0.20 ∧
    ExperienceCalculator.experienceWeights.transportSatisfaction = 0.15 ∧
    ExperienceCalculator.experienceWeights.lifeAtmosphere = 0.20 ∧
    ExperienceCalculator.experienceWeights.workAtmosphere = 0.20 ∧
    ExperienceCalculator.experienceWeights.housingSatisfaction
      + ExperienceCalculator.experienceWeights.consumptionSatisfaction
      + ExperienceCalculator.experienceWeights.transportSatisfaction
      + ExperienceCalculator.experienceWeights.lifeAtmosphere
      + ExperienceCalculator.experienceWeights.workAtmosphere = 1 := by
  have hsum : weights.income + weights.work + weights.cost + weights.experience = 1 := by
    simp only [weights]
    norm_num
  refine ⟨rfl, rfl, rfl, rfl, hsum, fun _ => hsum, rfl, rfl, rfl, rfl, rfl, ?_⟩
  simp only [ExperienceCalculator.experienceWeights]
  norm_num

theorem totalScore_eq (s : Scores) :
    (calculateTotalScore s).totalScore =
      round2 (max 0 (min 100
        (0.60 * s.income + 0.25 * (100 - s.work) + 0.10 * (100 - s.cost)
          + 0.05 * s.experience))) := by
  have hsum : (0 : ℚ) + s.income * weights.income + (100 - s.work) * weights.work
      + (100 - s.cost) * weights.cost + s.experience * weights.experience
      = 0.60 * s.income + 0.25 * (100 - s.work) + 0.10 * (100 - s.cost)
        + 0.05 * s.experience := by
    simp only [weights]
    ring
  simp only [calculateTotalScore, hsum]

/-- C17: the `getWeight` of the income and of the work calculator are the weights
`calculateTotalScore` applies (0.60 and 0.25), but the cost calculator returns 0.20
where the total uses 0.10, and the experience calculator returns 0.20 where the
total uses 0.05; a cost index of 0 next to a work index of 100 adds 10 to the total,
not the 20 that a share of 20% would give. -/
theorem getWeight_disagrees :
    IncomeCalculator.getWeight = weights.income ∧
    WorkCalculator.getWeight = weights.work ∧
    CostCalculator.getWeight = 0.20 ∧ weights.cost = 0.10 ∧
    CostCalculator.getWeight ≠ weights.cost ∧
    ExperienceCalculator.getWeight = 0.20 ∧ weights.experience = 0.05 ∧
    ExperienceCalculator.getWeight ≠ weights.experience ∧
    (calculateTotalScore ⟨0, 100, 0, 0⟩).totalScore = 10 ∧
    (calculateTotalScore ⟨0, 100, 0, 0⟩).breakdown.cost = 10 ∧
    (100 - 0) * CostCalculator.getWeight = 20 := by
  refine ⟨rfl, rfl, rfl, rfl, ?_, rfl, rfl, ?_, ?_, ?_, ?_⟩
  · simp only [CostCalculator.getWeight, weights]
    norm_num
  · simp only [ExperienceCalculator.getWeight, weights]
    norm_num
  · rw [totalScore_eq]
    have e : (0.60 : ℚ) * 0 + 0.25 * (100 - 100) + 0.10 * (100 - 0) + 0.05 * 0 = 10 := by
      norm_num
    simp only [e]
    rw [min_eq_right (by norm_num), max_eq_right (by norm_num), round2_ten]
  · simp only [calculateTotalScore, weights]
    norm_num
  · simp only [CostCalculator.getWeight]
    norm_num

end WorkValueCalculator

/-! ## Remarks on the experience index -/

namespace ExperienceCalculator

/-- C19: `getExperienceEvaluation` is defined on every index and picks the remark of
the first threshold the index reaches, with its own thresholds 90, 80, 70, 60 and
50; the six ranges get six pairwise different remarks. -/
theorem getExperienceEvaluation_tiers :
    (∀ x : ℚ,
      (90 ≤ x → getExperienceEvaluation x = "极佳体验，工作生活平衡完美！") ∧
      (80 ≤ x → x < 90 → getExperienceEvaluation x = "优秀体验，整体满意度很高！") ∧
      (70 ≤ x → x < 80 → getExperienceEvaluation x = "良好体验，大部分方面令人满意！") ∧
      (60 ≤ x → x < 70 → getExperienceEvaluation x = "一般体验，有提升空间！") ∧
      (50 ≤ x → x < 60 → getExperienceEvaluation x = "较差体验，需要改善！") ∧
      (x < 50 → getExperienceEvaluation x = "很差体验，建议重新考虑！")) ∧
    ["极佳体验，工作生活平衡完美！", "优秀体验，整体满意度很高！",
      "良好体验，大部分方面令人满意！", "一般体验，有提升空间！",
      "较差体验，需要改善！", "很差体验，建议重新考虑！"].Nodup := by
  refine ⟨?_, by decide⟩
  intro x
  refine ⟨?_, ?_, ?_, ?_, ?_, ?_⟩
  · intro h
    unfold getExperienceEvaluation
    rw [if_pos h]
  · intro h1 h2
    unfold getExperienceEvaluation
    rw [if_neg (not_le.2 h2), if_pos h1]
  · intro h1 h2
    unfold getExperienceEvaluation
    rw [if_neg (by linarith), if_neg (not_le.2 h2), if_pos h1]
  · intro h1 h2
    unfold getExperienceEvaluation
    rw [if_neg (by linarith), if_neg (by linarith), if_neg (not_le.2 h2), if_pos h1]
  · intro h1 h2
    unfold getExperienceEvaluation
    rw [if_neg (by linarith), if_neg (by linarith), if_neg (by linarith),
      if_neg (not_le.2 h2), if_pos h1]
  · intro h
    unfold getExperienceEvaluation
    rw [if_neg (by linarith), if_neg (by linarith), if_neg (by linarith),
      if_neg (by linarith), if_neg (not_le.2 h)]

end ExperienceCalculator

end WorkValue

/-! ## Direction of the composite score -/

namespace WorkValue

namespace WorkValueCalculator

theorem clamp_mono {x y : ℚ} (h : x ≤ y) : max 0 (min 100 x) ≤ max 0 (min 100 y) :=
  max_le_max (le_refl _) (min_le_min (le_refl _) h)

/-- C21: the total score of `calculateTotalScore` never falls when the income index
or the experience index rises, and never rises when the work index or the cost
index rises, the other three indices being held fixed. -/
theorem calculateTotalScore_monotone (income work cost experience x : ℚ) :
    (income ≤ x →
      (calculateTotalScore ⟨income, work, cost, experience⟩).totalScore
        ≤ (calculateTotalScore ⟨x, work, cost, experience⟩).totalScore) ∧
    (experience ≤ x →
      (calculateTotalScore ⟨income, work, cost, experience⟩).totalScore
        ≤ (calculateTotalScore ⟨income, work, cost, x⟩).totalScore) ∧
    (work ≤ x →
      (calculateTotalScore ⟨income, x, cost, experience⟩).totalScore
        ≤ (calculateTotalScore ⟨income, work, cost, experience⟩).totalScore) ∧
    (cost ≤ x →
      (calculateTotalScore ⟨income, work, x, experience⟩).totalScore
        ≤ (calculateTotalScore ⟨income, work, cost, experience⟩).totalScore) := by
  refine ⟨?_, ?_, ?_, ?_⟩
  · intro h
    rw [totalScore_eq, totalScore_eq]
    exact round2_mono (clamp_mono (by simp only []; linarith))
  · intro h
    rw [totalScore_eq, totalScore_eq]
    exact round2_mono (clamp_mono (by simp only []; linarith))
  · intro h
    rw [totalScore_eq, totalScore_eq]
    exact round2_mono (clamp_mono (by simp only []; linarith))
  · intro h
    rw [totalScore_eq, totalScore_eq]
    exact round2_mono (clamp_mono (by simp only []; linarith))

end WorkValueCalculator

end WorkValue

/-! ## Inputs the income index does not read -/

namespace WorkValue

namespace IncomeCalculator

/-- C23: the income index and the total income of `calculateIncomeIndex` do not
depend on the pre-tax salary or the allowance: replacing both by any other values
leaves the two fields (and the social insurance, the housing fund, the three
factors and the city info) unchanged, the allowance showing up in the breakdown
only; the social insurance `round2 (insuranceBase * 0.36)` is reported, while the
total income is `round2 (afterTax + insuranceBase * fundRate * 0.02 + otherBenefits)`
with no social-insurance term. -/
theorem calculateIncomeIndex_ignores_salary (data : Input) (salary allowance : ℚ) :
    (calculateIncomeIndex { data with salary := salary, allowance := allowance }).incomeIndex
      = (calculateIncomeIndex data).incomeIndex ∧
    (calculateIncomeIndex { data with salary := salary, allowance := allowance }).totalIncome
      = (calculateIncomeIndex data).totalIncome ∧
    (calculateIncomeIndex { data with salary := salary, allowance := allowance }).socialInsurance
      = (calculateIncomeIndex data).socialInsurance ∧
    (calculateIncomeIndex { data with salary := salary, allowance := allowance }).housingFund
      = (calculateIncomeIndex data).housingFund ∧
    (calculateIncomeIndex { data with salary := salary, allowance := allowance }).cityFactor
      = (calculateIncomeIndex data).cityFactor ∧
    (calculateIncomeIndex { data with salary := salary, allowance := allowance }).educationFactor
      = (calculateIncomeIndex data).educationFactor ∧
    (calculateIncomeIndex { data with salary := salary, allowance := allowance }).schoolRankFactor
      = (calculateIncomeIndex data).schoolRankFactor ∧
    (calculateIncomeIndex { data with salary := salary, allowance := allowance }).cityInfo
      = (calculateIncomeIndex data).cityInfo ∧
    (calculateIncomeIndex { data with salary := salary, allowance := allowance }).breakdown.allowance
      = allowance ∧
    (calculateIncomeIndex data).socialInsurance = round2 (data.insuranceBase * 0.36) ∧
    (calculateIncomeIndex data).totalIncome
      = round2 (data.afterTax + data.insuranceBase * data.fundRate * 0.02
          + data.otherBenefits) := by
  refine ⟨rfl, rfl, rfl, rfl, rfl, rfl, rfl, rfl, rfl, ?_, rfl⟩
  simp only [calculateIncomeIndex, calculateSocialInsurance]
  norm_num

end IncomeCalculator

/-! ## Direction of the work-burden index -/

namespace WorkCalculator

theorem overtime_mono {a b : ℚ} (h : a ≤ b) :
    a / max 0.1 a * 10 ≤ b / max 0.1 b * 10 := by
  rcases lt_or_le a 0.1 with ha | ha <;> rcases lt_or_le b 0.1 with hb | hb
  · rw [overtime_of_lt ha, overtime_of_lt hb]
    linarith
  · rw [overtime_of_lt ha, overtime_of_ge hb]
    have h1 : (0.1 : ℚ) = 1 / 10 := by norm_num
    rw [h1] at ha
    linarith
  · exfalso
    linarith
  · rw [overtime_of_ge ha, overtime_of_ge hb]

theorem calculateOvertimeCostIndex_mono {f h f2 h2 : ℚ} (hle : f + h ≤ f2 + h2) :
    calculateOvertimeCostIndex f h ≤ calculateOvertimeCostIndex f2 h2 := by
  unfold calculateOvertimeCostIndex
  exact overtime_mono hle

theorem calculateAgeFactor_pos {age : ℚ} (h : 0 ≤ age) : 0 < calculateAgeFactor age := by
  unfold calculateAgeFactor
  have e : (0.02 : ℚ) = 2 / 100 := by norm_num
  rw [e]
  linarith

theorem workIndex_eq (data : Input) :
    (calculateWorkIndex data).workIndex = max 1 (round2 (unroundedWorkIndex data)) := rfl

theorem unroundedWorkIndex_eq (data : Input) :
    unroundedWorkIndex data =
      (calculateTimeCostIndex (data.workEnd - data.workStart) (data.commuteTime * 2 / 60)
        + calculateIntensityCostIndex data.workIntensity
        + calculateOvertimeCostIndex data.overtimeFreq data.overtimeHours)
        * (calculateAgeFactor data.age * (data.workDays / 5) / 10) := by
  simp only [unroundedWorkIndex, standardWorkDays]
  ring

theorem workIndex_le_of_parts (d e : Input) (hage : 0 ≤ d.age) (hdays : 0 ≤ d.workDays)
    (he_age : e.age = d.age) (he_days : e.workDays = d.workDays)
    (hparts :
      calculateTimeCostIndex (d.workEnd - d.workStart) (d.commuteTime * 2 / 60)
        + calculateIntensityCostIndex d.workIntensity
        + calculateOvertimeCostIndex d.overtimeFreq d.overtimeHours
      ≤ calculateTimeCostIndex (e.workEnd - e.workStart) (e.commuteTime * 2 / 60)
        + calculateIntensityCostIndex e.workIntensity
        + calculateOvertimeCostIndex e.overtimeFreq e.overtimeHours) :
    (calculateWorkIndex d).workIndex ≤ (calculateWorkIndex e).workIndex := by
  rw [workIndex_eq, workIndex_eq]
  apply max_le_max (le_refl _)
  apply round2_mono
  rw [unroundedWorkIndex_eq, unroundedWorkIndex_eq, he_age, he_days]
  have hfac : 0 ≤ calculateAgeFactor d.age * (d.workDays / 5) / 10 := by
    have h1 := calculateAgeFactor_pos hage
    positivity
  exact mul_le_mul_of_nonneg_right hparts hfac

/-- C24: for an input with a non-negative age, a non-negative number of working
days and non-negative overtime quantities, the work index of `calculateWorkIndex`
never falls when the commute time, the end of work, the work intensity, the
overtime frequency or the overtime hours rises, the other fields being held
fixed. -/
theorem calculateWorkIndex_monotone (data : Input) (x : ℚ)
    (hage : 0 ≤ data.age) (hdays : 0 ≤ data.workDays)
    (_hfreq : 0 ≤ data.overtimeFreq) (_hhours : 0 ≤ data.overtimeHours) :
    (data.commuteTime ≤ x →
      (calculateWorkIndex data).workIndex
        ≤ (calculateWorkIndex { data with commuteTime := x }).workIndex) ∧
    (data.workEnd ≤ x →
      (calculateWorkIndex data).workIndex
        ≤ (calculateWorkIndex { data with workEnd := x }).workIndex) ∧
    (data.workIntensity ≤ x →
      (calculateWorkIndex data).workIndex
        ≤ (calculateWorkIndex { data with workIntensity := x }).workIndex) ∧
    (data.overtimeFreq ≤ x →
      (calculateWorkIndex data).workIndex
        ≤ (calculateWorkIndex { data with overtimeFreq := x }).workIndex) ∧
    (data.overtimeHours ≤ x →
      (calculateWorkIndex data).workIndex
        ≤ (calculateWorkIndex { data with overtimeHours := x }).workIndex) := by
  refine ⟨?_, ?_, ?_, ?_, ?_⟩
  · intro h
    refine workIndex_le_of_parts data _ hage hdays ?_ ?_ ?_
    · rfl
    · rfl
    · simp only [calculateTimeCostIndex, standardWorkHours, standardCommuteHours]
      linarith
  · intro h
    refine workIndex_le_of_parts data _ hage hdays ?_ ?_ ?_
    · rfl
    · rfl
    · simp only [calculateTimeCostIndex, standardWorkHours, standardCommuteHours]
      linarith
  · intro h
    refine workIndex_le_of_parts data _ hage hdays ?_ ?_ ?_
    · rfl
    · rfl
    · simp only [calculateIntensityCostIndex, standardWorkIntensity]
      linarith
  · intro h
    refine workIndex_le_of_parts data _ hage hdays ?_ ?_ ?_
    · rfl
    · rfl
    · have hO : calculateOvertimeCostIndex data.overtimeFreq data.overtimeHours
          ≤ calculateOvertimeCostIndex x data.overtimeHours :=
        calculateOvertimeCostIndex_mono (by linarith)
      simp only []
      linarith
  · intro h
    refine workIndex_le_of_parts data _ hage hdays ?_ ?_ ?_
    · rfl
    · rfl
    · have hO : calculateOvertimeCostIndex data.overtimeFreq data.overtimeHours
          ≤ calculateOvertimeCostIndex data.overtimeFreq x :=
        calculateOvertimeCostIndex_mono (by linarith)
      simp only []
      linarith

/-- C24, at scenario 2: a commute of 120 minutes in place of 90 does not lower the
work index. -/
theorem calculateWorkIndex_monotone_witness :
    (0 : ℚ) ≤ workScenario.age ∧ (0 : ℚ) ≤ workScenario.workDays ∧
    workScenario.commuteTime ≤ 120 ∧
    (calculateWorkIndex workScenario).workIndex
      ≤ (calculateWorkIndex { workScenario with commuteTime := 120 }).workIndex := by
  have hage : (0 : ℚ) ≤ workScenario.age := by simp only [workScenario]; norm_num
  have hdays : (0 : ℚ) ≤ workScenario.workDays := by simp only [workScenario]; norm_num
  have hc : workScenario.commuteTime ≤ 120 := by simp only [workScenario]; norm_num
  exact ⟨hage, hdays, hc,
    (calculateWorkIndex_monotone workScenario 120 hage hdays
      (by simp only [workScenario]; norm_num) (by simp only [workScenario]; norm_num)).1 hc⟩

end WorkCalculator

end WorkValue

/-! ## City factor against city info -/

namespace WorkValue

theorem lookup_some_pair_mem {α : Type} {l : List (String × α)} {k : String} {v : α}
    (h : l.lookup k = some v) : (k, v) ∈ l := by
  induction l with
  | nil => simp [List.lookup] at h
  | cons p rest ih =>
    obtain ⟨a, b⟩ := p
    by_cases hk : k = a
    · subst hk
      simp [List.lookup] at h
      simp [h]
    · have hb : (k == a) = false := by simpa using hk
      simp only [List.lookup, hb] at h
      exact List.mem_cons_of_mem _ (ih h)

theorem lookup_some_of_key {α : Type} {l : List (String × α)} {k : String}
    (h : k ∈ l.map Prod.fst) : ∃ v, l.lookup k = some v := by
  induction l with
  | nil => simp at h
  | cons p rest ih =>
    obtain ⟨a, b⟩ := p
    by_cases hk : k = a
    · subst hk
      exact ⟨b, by simp [List.lookup]⟩
    · have hb : (k == a) = false := by simpa using hk
      simp only [List.map_cons, List.mem_cons] at h
      rcases h with h | h
      · exact absurd h hk
      · obtain ⟨v, hv⟩ := ih h
        exact ⟨v, by simp only [List.lookup, hb]; exact hv⟩

namespace IncomeCalculator

theorem cityData_entries_agree :
    cityData.map (fun r => r.2.map (fun e => (getCityInfo e.1, cityFactors.lookup e.1)))
      = cityData.map (fun r => r.2.map (fun e => (e.2, some e.2.factor))) := by
  rfl

theorem cityData_entry {r : String × List (String × CityInfo)} (hr : r ∈ cityData)
    {e : String × CityInfo} (he : e ∈ r.2) :
    getCityInfo e.1 = e.2 ∧ cityFactors.lookup e.1 = some e.2.factor := by
  have h1 := List.map_inj_left.1 cityData_entries_agree r hr
  have h2 := List.map_inj_left.1 h1 e he
  exact ⟨congrArg Prod.fst h2, congrArg Prod.snd h2⟩

end IncomeCalculator

end WorkValue

/-! ## binary64 rounding -/

namespace WorkValue

namespace Js

theorem roundHalfEven_spec (y : ℚ) :
    |y - roundHalfEven y| < 1 / 2 ∨
      (|y - roundHalfEven y| = 1 / 2 ∧ roundHalfEven y % 2 = 0) := by
  have h0 : (⌊y⌋ : ℚ) ≤ y := Int.floor_le y
  have h1 : y < (⌊y⌋ : ℚ) + 1 := Int.lt_floor_add_one y
  unfold roundHalfEven
  split_ifs with ha hb hc
  · left
    rw [abs_lt]
    constructor <;> linarith
  · left
    rw [abs_lt]
    push_cast
    constructor <;> linarith
  · right
    have he : y - (⌊y⌋ : ℚ) = 1 / 2 := le_antisymm (not_lt.1 hb) (not_lt.1 ha)
    exact ⟨by rw [he]; norm_num, hc⟩
  · right
    have he : y - (⌊y⌋ : ℚ) = 1 / 2 := le_antisymm (not_lt.1 hb) (not_lt.1 ha)
    refine ⟨?_, by omega⟩
    have he2 : y - ((⌊y⌋ + 1 : ℤ) : ℚ) = -(1 / 2) := by
      push_cast
      linarith
    rw [he2]
    norm_num

theorem roundHalfEven_unique (y : ℚ) (n : ℤ)
    (h : |y - n| < 1 / 2 ∨ (|y - n| = 1 / 2 ∧ n % 2 = 0)) : roundHalfEven y = n := by
  have hs := roundHalfEven_spec y
  generalize roundHalfEven y = m at hs
  have key : ∀ a b : ℤ, |y - a| ≤ 1 / 2 → |y - b| ≤ 1 / 2 →
      (|y - a| < 1 / 2 ∨ |y - b| < 1 / 2 ∨ (a % 2 = 0 ∧ b % 2 = 0)) → a ≤ b := by
    intro a b ha hb hc
    rw [abs_le] at ha hb
    have hle : (a : ℚ) ≤ b + 1 := by linarith
    have hle2 : a ≤ b + 1 := by exact_mod_cast hle
    rcases hc with hc | hc | hc
    · rw [abs_lt] at hc
      have hlt : (a : ℚ) < b + 1 := by linarith
      have hlt2 : a < b + 1 := by exact_mod_cast hlt
      omega
    · rw [abs_lt] at hc
      have hlt : (a : ℚ) < b + 1 := by linarith
      have hlt2 : a < b + 1 := by exact_mod_cast hlt
      omega
    · omega
  have hm : |y - m| ≤ 1 / 2 := by
    rcases hs with hs | hs
    · exact le_of_lt hs
    · exact le_of_eq hs.1
  have hn : |y - n| ≤ 1 / 2 := by
    rcases h with h | h
    · exact le_of_lt h
    · exact le_of_eq h.1
  have hc1 : |y - m| < 1 / 2 ∨ |y - n| < 1 / 2 ∨ (m % 2 = 0 ∧ n % 2 = 0) := by
    rcases hs with hs | hs
    · exact Or.inl hs
    · rcases h with h | h
      · exact Or.inr (Or.inl h)
      · exact Or.inr (Or.inr ⟨hs.2, h.2⟩)
  have hc2 : |y - n| < 1 / 2 ∨ |y - m| < 1 / 2 ∨ (n % 2 = 0 ∧ m % 2 = 0) := by
    rcases hc1 with h1 | h1 | h1
    · exact Or.inr (Or.inl h1)
    · exact Or.inl h1
    · exact Or.inr (Or.inr ⟨h1.2, h1.1⟩)
  exact le_antisymm (key m n hm hn hc1) (key n m hn hm hc2)

theorem roundHalfEven_intCast (n : ℤ) : roundHalfEven (n : ℚ) = n :=
  roundHalfEven_unique _ n (Or.inl (by simp))

theorem roundHalfEven_neg (y : ℚ) : roundHalfEven (-y) = -roundHalfEven y := by
  apply roundHalfEven_unique
  have e : -y - ((-roundHalfEven y : ℤ) : ℚ) = -(y - roundHalfEven y) := by
    push_cast
    ring
  rw [e, abs_neg]
  rcases roundHalfEven_spec y with h | h
  · exact Or.inl h
  · exact Or.inr ⟨h.1, by omega⟩

theorem roundHalfEven_mono {y z : ℚ} (h : y ≤ z) : roundHalfEven y ≤ roundHalfEven z := by
  rcases eq_or_lt_of_le h with h | h
  · rw [h]
  · have hy : |y - roundHalfEven y| ≤ 1 / 2 := by
      rcases roundHalfEven_spec y with hs | hs
      · exact le_of_lt hs
      · exact le_of_eq hs.1
    have hz : |z - roundHalfEven z| ≤ 1 / 2 := by
      rcases roundHalfEven_spec z with hs | hs
      · exact le_of_lt hs
      · exact le_of_eq hs.1
    rw [abs_le] at hy hz
    have hlt : (roundHalfEven y : ℚ) < roundHalfEven z + 1 := by linarith
    have hlt2 : roundHalfEven y < roundHalfEven z + 1 := by exact_mod_cast hlt
    omega

theorem ulpExp_spec {x : ℚ} (hx : x ≠ 0) :
    (2 : ℚ) ^ (ulpExp x + 52) ≤ |x| ∧ |x| < (2 : ℚ) ^ (ulpExp x + 53) := by
  have hpos : 0 < |x| := abs_pos.2 hx
  unfold ulpExp
  constructor
  · have h := Int.zpow_log_le_self (b := 2) (by norm_num) hpos
    simpa using h
  · have h := Int.lt_zpow_succ_log_self (b := 2) (by norm_num) |x|
    have e : Int.log 2 |x| - 52 + 53 = Int.log 2 |x| + 1 := by ring
    rw [e]
    simpa using h

theorem ulpExp_eq_of {x : ℚ} (k : ℤ) (h1 : (2 : ℚ) ^ k ≤ |x|) (h2 : |x| < (2 : ℚ) ^ (k + 1)) :
    ulpExp x = k - 52 := by
  have hpos : 0 < |x| := lt_of_lt_of_le (by positivity) h1
  have ha : k ≤ Int.log 2 |x| := by
    rw [← Int.zpow_le_iff_le_log (by norm_num) hpos]
    simpa using h1
  have hb : Int.log 2 |x| < k + 1 := by
    rw [← Int.lt_zpow_iff_log_lt (by norm_num) hpos]
    simpa using h2
  unfold ulpExp
  omega

theorem rnd_zero : rnd 0 = 0 := by
  unfold rnd
  rw [if_pos rfl]

theorem rnd_of_ne_zero {x : ℚ} (hx : x ≠ 0) :
    rnd x = (roundHalfEven (x / 2 ^ ulpExp x) : ℚ) * 2 ^ ulpExp x := by
  unfold rnd
  rw [if_neg hx]

theorem two_zpow_pos (e : ℤ) : (0 : ℚ) < 2 ^ e := by positivity

/-- Evaluation of `rnd` from a certificate: the binade `k` of `x` and the integer
`m` nearest to `x / 2 ^ (k - 52)`. -/
theorem rnd_eq_of {x : ℚ} (k m : ℤ) (h1 : (2 : ℚ) ^ k ≤ |x|) (h2 : |x| < (2 : ℚ) ^ (k + 1))
    (h3 : |x / 2 ^ (k - 52) - m| < 1 / 2 ∨ (|x / 2 ^ (k - 52) - m| = 1 / 2 ∧ m % 2 = 0)) :
    rnd x = (m : ℚ) * 2 ^ (k - 52) := by
  have hx : x ≠ 0 := by
    intro h
    rw [h, abs_zero] at h1
    exact absurd h1 (not_le.2 (two_zpow_pos k))
  rw [rnd_of_ne_zero hx, ulpExp_eq_of k h1 h2, roundHalfEven_unique _ m h3]

theorem rnd_neg (x : ℚ) : rnd (-x) = -rnd x := by
  by_cases hx : x = 0
  · rw [hx, neg_zero, rnd_zero, neg_zero]
  · have hnx : -x ≠ 0 := neg_ne_zero.2 hx
    have he : ulpExp (-x) = ulpExp x := by
      unfold ulpExp
      rw [abs_neg]
    rw [rnd_of_ne_zero hx, rnd_of_ne_zero hnx, he, neg_div, roundHalfEven_neg]
    push_cast
    ring

theorem scaled_bounds {x : ℚ} (hx : 0 < x) :
    (2 : ℚ) ^ (52 : ℤ) ≤ x / 2 ^ ulpExp x ∧ x / 2 ^ ulpExp x < (2 : ℚ) ^ (53 : ℤ) := by
  obtain ⟨h1, h2⟩ := ulpExp_spec (ne_of_gt hx)
  rw [abs_of_pos hx] at h1 h2
  have hp := two_zpow_pos (ulpExp x)
  rw [zpow_add₀ (by norm_num : (2 : ℚ) ≠ 0)] at h1 h2
  constructor
  · rw [le_div_iff₀ hp]
    linarith
  · rw [div_lt_iff₀ hp]
    linarith

theorem roundHalfEven_scaled_bounds {x : ℚ} (hx : 0 < x) :
    (2 : ℚ) ^ (52 : ℤ) ≤ (roundHalfEven (x / 2 ^ ulpExp x) : ℚ) ∧
      (roundHalfEven (x / 2 ^ ulpExp x) : ℚ) ≤ (2 : ℚ) ^ (53 : ℤ) := by
  obtain ⟨h1, h2⟩ := scaled_bounds hx
  have e52 : (2 : ℚ) ^ (52 : ℤ) = (((2 : ℤ) ^ (52 : ℕ) : ℤ) : ℚ) := by norm_num
  have e53 : (2 : ℚ) ^ (53 : ℤ) = (((2 : ℤ) ^ (53 : ℕ) : ℤ) : ℚ) := by norm_num
  constructor
  · have h := roundHalfEven_mono h1
    rw [e52, roundHalfEven_intCast] at h
    rw [e52]
    exact_mod_cast h
  · have h := roundHalfEven_mono (le_of_lt h2)
    rw [e53, roundHalfEven_intCast] at h
    rw [e53]
    exact_mod_cast h

theorem rnd_pos {x : ℚ} (hx : 0 < x) : 0 < rnd x := by
  rw [rnd_of_ne_zero (ne_of_gt hx)]
  have h := (roundHalfEven_scaled_bounds hx).1
  have hp : (0 : ℚ) < 2 ^ (52 : ℤ) := two_zpow_pos 52
  exact mul_pos (lt_of_lt_of_le hp h) (two_zpow_pos _)

theorem rnd_nonneg {x : ℚ} (hx : 0 ≤ x) : 0 ≤ rnd x := by
  rcases eq_or_lt_of_le hx with h | h
  · rw [← h, rnd_zero]
  · exact le_of_lt (rnd_pos h)

theorem rnd_eq_zero_iff {x : ℚ} : rnd x = 0 ↔ x = 0 := by
  constructor
  · intro h
    by_contra hx
    rcases lt_or_gt_of_ne hx with hlt | hgt
    · have hp := rnd_pos (neg_pos.2 hlt)
      rw [rnd_neg, h, neg_zero] at hp
      exact lt_irrefl _ hp
    · have hp := rnd_pos hgt
      rw [h] at hp
      exact lt_irrefl _ hp
  · intro h
    rw [h, rnd_zero]

theorem rnd_mono_pos {x y : ℚ} (hx : 0 < x) (h : x ≤ y) : rnd x ≤ rnd y := by
  have hy : 0 < y := lt_of_lt_of_le hx h
  have hle : ulpExp x ≤ ulpExp y := by
    unfold ulpExp
    have := Int.log_mono_right (b := 2) (abs_pos.2 (ne_of_gt hx))
      (by rw [abs_of_pos hx, abs_of_pos hy]; exact h : |x| ≤ |y|)
    omega
  rw [rnd_of_ne_zero (ne_of_gt hx), rnd_of_ne_zero (ne_of_gt hy)]
  rcases eq_or_lt_of_le hle with he | he
  · rw [he]
    apply mul_le_mul_of_nonneg_right _ (le_of_lt (two_zpow_pos _))
    have hdiv : x / 2 ^ ulpExp y ≤ y / 2 ^ ulpExp y :=
      div_le_div_of_nonneg_right h (le_of_lt (two_zpow_pos _))
    exact_mod_cast roundHalfEven_mono hdiv
  · have hxu := (roundHalfEven_scaled_bounds hx).2
    have hyl := (roundHalfEven_scaled_bounds hy).1
    have hstep : ulpExp x + 1 ≤ ulpExp y := he
    calc (roundHalfEven (x / 2 ^ ulpExp x) : ℚ) * 2 ^ ulpExp x
        ≤ 2 ^ (53 : ℤ) * 2 ^ ulpExp x :=
          mul_le_mul_of_nonneg_right hxu (le_of_lt (two_zpow_pos _))
      _ = 2 ^ (52 : ℤ) * 2 ^ (ulpExp x + 1) := by
          rw [zpow_add₀ (by norm_num : (2 : ℚ) ≠ 0)]
          norm_num
          ring
      _ ≤ 2 ^ (52 : ℤ) * 2 ^ ulpExp y := by
          apply mul_le_mul_of_nonneg_left _ (le_of_lt (two_zpow_pos _))
          exact zpow_le_zpow_right₀ (by norm_num) hstep
      _ ≤ (roundHalfEven (y / 2 ^ ulpExp y) : ℚ) * 2 ^ ulpExp y :=
          mul_le_mul_of_nonneg_right hyl (le_of_lt (two_zpow_pos _))

theorem rnd_mono {x y : ℚ} (h : x ≤ y) : rnd x ≤ rnd y := by
  rcases lt_trichotomy x 0 with hx | hx | hx
  · rcases lt_or_le y 0 with hy | hy
    · have hm := rnd_mono_pos (neg_pos.2 hy) (neg_le_neg h)
      rw [rnd_neg, rnd_neg] at hm
      linarith
    · have h1 := rnd_pos (neg_pos.2 hx)
      rw [rnd_neg] at h1
      have h2 := rnd_nonneg hy
      linarith
  · rw [hx, rnd_zero]
    rw [hx] at h
    exact rnd_nonneg h
  · exact rnd_mono_pos hx h

theorem rnd_of_dyadic (m j : ℤ) (hm : |m| ≤ 2 ^ 53) :
    rnd ((m : ℚ) * 2 ^ j) = (m : ℚ) * 2 ^ j := by
  by_cases hm0 : m = 0
  · rw [hm0]
    simp [rnd_zero]
  have hmq : (m : ℚ) ≠ 0 := by exact_mod_cast hm0
  have hx : (m : ℚ) * 2 ^ j ≠ 0 := mul_ne_zero hmq (ne_of_gt (two_zpow_pos j))
  have habs : |(m : ℚ) * 2 ^ j| = |(m : ℚ)| * 2 ^ j := by
    rw [abs_mul, abs_of_pos (two_zpow_pos j)]
  have hmle : |(m : ℚ)| ≤ 2 ^ (53 : ℤ) := by
    have h : ((|m| : ℤ) : ℚ) ≤ ((2 ^ 53 : ℤ) : ℚ) := by exact_mod_cast hm
    rw [Int.cast_abs] at h
    calc |(m : ℚ)| ≤ ((2 ^ 53 : ℤ) : ℚ) := h
      _ = 2 ^ (53 : ℤ) := by norm_num
  obtain ⟨h1, _⟩ := ulpExp_spec hx
  rw [habs] at h1
  set e := ulpExp ((m : ℚ) * 2 ^ j) with he
  have hle : e + 52 ≤ 53 + j := by
    have h2 : (2 : ℚ) ^ (e + 52) ≤ 2 ^ (53 + j) := by
      rw [zpow_add₀ (by norm_num : (2 : ℚ) ≠ 0) 53 j]
      exact le_trans h1 (mul_le_mul_of_nonneg_right hmle (le_of_lt (two_zpow_pos j)))
    exact (zpow_le_zpow_iff_right₀ (by norm_num : (1 : ℚ) < 2)).1 h2
  rw [rnd_of_ne_zero hx, ← he]
  rcases lt_or_le j e with hje | hje
  · have hej : e = j + 1 := by omega
    have hge : (2 : ℚ) ^ (53 : ℤ) ≤ |(m : ℚ)| := by
      rw [hej] at h1
      have e1 : (2 : ℚ) ^ (j + 1 + 52) = 2 ^ (53 : ℤ) * 2 ^ j := by
        rw [← zpow_add₀ (by norm_num : (2 : ℚ) ≠ 0)]
        congr 1
        ring
      rw [e1] at h1
      exact le_of_mul_le_mul_right h1 (two_zpow_pos j)
    have hmabs : |(m : ℚ)| = 2 ^ (53 : ℤ) := le_antisymm hmle hge
    have hdiv : (m : ℚ) * 2 ^ j / 2 ^ e = (m : ℚ) / 2 := by
      rw [hej, zpow_add₀ (by norm_num : (2 : ℚ) ≠ 0)]
      field_simp
      ring
    rw [hdiv]
    rcases abs_choice (m : ℚ) with hc | hc
    · rw [hc] at hmabs
      rw [hmabs]
      have e2 : (2 : ℚ) ^ (53 : ℤ) / 2 = (((2 : ℤ) ^ (52 : ℕ) : ℤ) : ℚ) := by norm_num
      rw [e2, roundHalfEven_intCast, hej, zpow_add₀ (by norm_num : (2 : ℚ) ≠ 0)]
      norm_num
      ring
    · have hm2 : (m : ℚ) = -2 ^ (53 : ℤ) := by
        rw [hc] at hmabs
        linarith
      rw [hm2]
      have e2 : -(2 : ℚ) ^ (53 : ℤ) / 2 = (((-(2 : ℤ) ^ (52 : ℕ)) : ℤ) : ℚ) := by norm_num
      rw [e2, roundHalfEven_intCast, hej, zpow_add₀ (by norm_num : (2 : ℚ) ≠ 0)]
      norm_num
      ring
  · obtain ⟨n, hn⟩ := Int.eq_ofNat_of_zero_le (sub_nonneg.2 hje)
    have hdiv : (m : ℚ) * 2 ^ j / 2 ^ e = ((m * 2 ^ n : ℤ) : ℚ) := by
      have hj : j = e + (n : ℤ) := by omega
      rw [hj, zpow_add₀ (by norm_num : (2 : ℚ) ≠ 0), zpow_natCast]
      push_cast
      field_simp
      ring
    rw [hdiv, roundHalfEven_intCast]
    have hj : j = (n : ℤ) + e := by omega
    rw [hj, zpow_add₀ (by norm_num : (2 : ℚ) ≠ 0), zpow_natCast]
    push_cast
    ring

theorem rnd_intCast (n : ℤ) (hn : |n| ≤ 2 ^ 53) : rnd (n : ℚ) = n := by
  have h := rnd_of_dyadic n 0 hn
  simpa using h

theorem rnd_idem (x : ℚ) : rnd (rnd x) = rnd x := by
  have hpos : ∀ y : ℚ, 0 < y → rnd (rnd y) = rnd y := by
    intro y hy
    rw [rnd_of_ne_zero (ne_of_gt hy)]
    apply rnd_of_dyadic
    obtain ⟨h1, h2⟩ := roundHalfEven_scaled_bounds hy
    have h2' : (roundHalfEven (y / 2 ^ ulpExp y) : ℚ) ≤ (((2 : ℤ) ^ (53 : ℕ) : ℤ) : ℚ) := by
      have e53 : (2 : ℚ) ^ (53 : ℤ) = (((2 : ℤ) ^ (53 : ℕ) : ℤ) : ℚ) := by norm_num
      rw [← e53]
      exact h2
    have h1' : (0 : ℚ) ≤ (roundHalfEven (y / 2 ^ ulpExp y) : ℚ) :=
      le_trans (le_of_lt (two_zpow_pos 52)) h1
    have h3 : roundHalfEven (y / 2 ^ ulpExp y) ≤ 2 ^ 53 := by exact_mod_cast h2'
    have h4 : 0 ≤ roundHalfEven (y / 2 ^ ulpExp y) := by exact_mod_cast h1'
    rw [abs_of_nonneg h4]
    exact h3
  rcases lt_trichotomy x 0 with hx | hx | hx
  · have h := hpos (-x) (neg_pos.2 hx)
    rw [rnd_neg, rnd_neg] at h
    exact neg_injective h
  · rw [hx, rnd_zero, rnd_zero]
  · exact hpos x hx

/-- Evaluation of `rnd` off a tie, with the rounded value given. -/
theorem rnd_eval {x y : ℚ} (k m : ℤ) (h1 : (2 : ℚ) ^ k ≤ |x|) (h2 : |x| < (2 : ℚ) ^ (k + 1))
    (h3 : |x / 2 ^ (k - 52) - m| < 1 / 2) (hy : (m : ℚ) * 2 ^ (k - 52) = y) : rnd x = y := by
  rw [← hy]
  exact rnd_eq_of k m h1 h2 (Or.inl h3)

/-- Evaluation of `rnd` on a tie, with the rounded value given. -/
theorem rnd_eval_tie {x y : ℚ} (k m : ℤ) (h1 : (2 : ℚ) ^ k ≤ |x|)
    (h2 : |x| < (2 : ℚ) ^ (k + 1)) (h3 : |x / 2 ^ (k - 52) - m| = 1 / 2) (heven : m % 2 = 0)
    (hy : (m : ℚ) * 2 ^ (k - 52) = y) : rnd x = y := by
  rw [← hy]
  exact rnd_eq_of k m h1 h2 (Or.inr ⟨h3, heven⟩)

/-- Evaluation of `rnd` at a positive number off a tie, free of absolute values. -/
theorem rnd_eval_pos {x y : ℚ} (k m : ℤ) (h1 : (2 : ℚ) ^ k ≤ x) (h2 : x < (2 : ℚ) ^ (k + 1))
    (h3 : (m : ℚ) - 1 / 2 < x / 2 ^ (k - 52)) (h4 : x / 2 ^ (k - 52) < (m : ℚ) + 1 / 2)
    (hy : (m : ℚ) * 2 ^ (k - 52) = y) : rnd x = y := by
  have hx : 0 < x := lt_of_lt_of_le (two_zpow_pos k) h1
  refine rnd_eval k m ?_ ?_ ?_ hy
  · rw [abs_of_pos hx]
    exact h1
  · rw [abs_of_pos hx]
    exact h2
  · rw [abs_lt]
    constructor <;> linarith

/-- Evaluation of `rnd` at a negative number off a tie, free of absolute values. -/
theorem rnd_eval_neg {x y : ℚ} (k m : ℤ) (h1 : (2 : ℚ) ^ k ≤ -x) (h2 : -x < (2 : ℚ) ^ (k + 1))
    (h3 : (m : ℚ) - 1 / 2 < -x / 2 ^ (k - 52)) (h4 : -x / 2 ^ (k - 52) < (m : ℚ) + 1 / 2)
    (hy : -((m : ℚ) * 2 ^ (k - 52)) = y) : rnd x = y := by
  have h := rnd_eval_pos k m h1 h2 h3 h4 rfl
  rw [rnd_neg] at h
  rw [← hy, ← h, neg_neg]

/-- Evaluation of `rnd` at a positive number on a tie: the even neighbour `m`. -/
theorem rnd_eval_pos_tie {x y : ℚ} (k m : ℤ) (h1 : (2 : ℚ) ^ k ≤ x)
    (h2 : x < (2 : ℚ) ^ (k + 1))
    (h3 : x / 2 ^ (k - 52) = (m : ℚ) + 1 / 2 ∨ x / 2 ^ (k - 52) = (m : ℚ) - 1 / 2)
    (heven : m % 2 = 0) (hy : (m : ℚ) * 2 ^ (k - 52) = y) : rnd x = y := by
  have hx : 0 < x := lt_of_lt_of_le (two_zpow_pos k) h1
  refine rnd_eval_tie k m ?_ ?_ ?_ heven hy
  · rw [abs_of_pos hx]
    exact h1
  · rw [abs_of_pos hx]
    exact h2
  · rcases h3 with h3 | h3 <;> rw [h3] <;> norm_num

theorem mathRound_eval {x : ℚ} (n : ℤ) (h1 : (n : ℚ) ≤ x + 1 / 2) (h2 : x + 1 / 2 < (n : ℚ) + 1) :
    mathRound x = n := by
  unfold mathRound
  rw [Int.floor_eq_iff]
  exact ⟨h1, h2⟩

theorem lift2_some (f : ℚ → ℚ → ℚ) (a b : ℚ) : lift2 f (some a) (some b) = some (f a b) := rfl

theorem timesFactor_number (a q : ℚ) : timesFactor (some a) (.number q) = some (fmul a q) := rfl

theorem timesFactor_inherited (x : Num) : timesFactor x .inherited = none := by
  cases x <;> rfl

theorem timesFactor_none (factor : Factor) : timesFactor none factor = none := rfl

theorem lit_ne_zero {q : ℚ} (h : q ≠ 0) : lit q ≠ 0 := by
  unfold lit
  rw [Ne, rnd_eq_zero_iff]
  exact h

theorem orDefault_own {q : ℚ} (h : q ≠ 0) (d : ℚ) : orDefault (.own q) d = .number (lit q) := by
  simp only [orDefault, if_neg (lit_ne_zero h)]

theorem getProperty_of_lookup {α : Type} {obj : List (String × α)} {key : String} {v : α}
    (h : obj.lookup key = some v) : getProperty obj key = .own v := by
  simp only [getProperty, h]

theorem getProperty_undefined {α : Type} {obj : List (String × α)} {key : String}
    (h : obj.lookup key = none) (hp : key ∉ objectPrototypeNames) :
    getProperty obj key = .undefined := by
  simp only [getProperty, h, if_neg hp]

theorem getProperty_inherited {α : Type} {obj : List (String × α)} {key : String}
    (h : obj.lookup key = none) (hp : key ∈ objectPrototypeNames) :
    getProperty obj key = .inherited := by
  simp only [getProperty, h, if_pos hp]

theorem rnd_hundred : rnd 100 = 100 := by
  simpa using rnd_intCast 100 (by norm_num)

theorem rnd_tenThousand : rnd 10000 = 10000 := by
  simpa using rnd_intCast 10000 (by norm_num)

theorem rnd_one : rnd 1 = 1 := by
  simpa using rnd_intCast 1 (by norm_num)

theorem rnd_ten : rnd 10 = 10 := by
  simpa using rnd_intCast 10 (by norm_num)

theorem jsRound2_bounds {x : ℚ} (h0 : 0 ≤ x) (h100 : x ≤ 100) :
    0 ≤ jsRound2 x ∧ jsRound2 x ≤ 100 := by
  have hp0 : 0 ≤ fmul x 100 := rnd_nonneg (by linarith)
  have hp1 : fmul x 100 ≤ 10000 := by
    have h := rnd_mono (show x * 100 ≤ 10000 by linarith)
    rw [rnd_tenThousand] at h
    exact h
  have hn0 : (0 : ℤ) ≤ mathRound (fmul x 100) := by
    have h := mathRound_mono hp0
    have e : mathRound (0 : ℚ) = 0 := by simpa using mathRound_intCast 0
    rw [e] at h
    exact h
  have hn1 : mathRound (fmul x 100) ≤ 10000 := by
    have h := mathRound_mono hp1
    have e : mathRound (10000 : ℚ) = 10000 := by simpa using mathRound_intCast 10000
    rw [e] at h
    exact h
  have hq0 : (0 : ℚ) ≤ (mathRound (fmul x 100) : ℚ) := by exact_mod_cast hn0
  have hq1 : (mathRound (fmul x 100) : ℚ) ≤ 10000 := by exact_mod_cast hn1
  unfold jsRound2 fdiv
  constructor
  · exact rnd_nonneg (div_nonneg hq0 (by norm_num))
  · have h := rnd_mono (show (mathRound (fmul x 100) : ℚ) / 100 ≤ 100 by linarith)
    rw [rnd_hundred] at h
    exact h

end Js

end WorkValue

/-! ## Income index on binary64 numbers -/

namespace WorkValue

namespace Js

namespace IncomeCalculator

theorem factors_of_lookups (data : WorkValue.IncomeCalculator.Input)
    (cityFactor educationFactor schoolRankFactor : ℚ)
    (hc : WorkValue.IncomeCalculator.cityFactors.lookup data.city = some cityFactor)
    (he : WorkValue.IncomeCalculator.educationFactors.lookup data.education
      = some educationFactor)
    (hs : WorkValue.IncomeCalculator.schoolRankFactors.lookup data.schoolRank
      = some schoolRankFactor) :
    orDefault (getProperty WorkValue.IncomeCalculator.cityFactors data.city) 1.0
      = .number (lit cityFactor) ∧
    orDefault (getProperty WorkValue.IncomeCalculator.educationFactors data.education) 1.0
      = .number (lit educationFactor) ∧
    orDefault (getProperty WorkValue.IncomeCalculator.schoolRankFactors data.schoolRank) 1.0
      = .number (lit schoolRankFactor) := by
  rw [getProperty_of_lookup hc, getProperty_of_lookup he, getProperty_of_lookup hs,
    orDefault_own (WorkValue.IncomeCalculator.cityFactors_ne_zero hc),
    orDefault_own (WorkValue.IncomeCalculator.educationFactors_ne_zero he),
    orDefault_own (WorkValue.IncomeCalculator.schoolRankFactors_ne_zero hs)]
  exact ⟨rfl, rfl, rfl⟩

theorem incomeIndex_of_lookups (data : WorkValue.IncomeCalculator.Input)
    (cityFactor educationFactor schoolRankFactor : ℚ)
    (hc : WorkValue.IncomeCalculator.cityFactors.lookup data.city = some cityFactor)
    (he : WorkValue.IncomeCalculator.educationFactors.lookup data.education
      = some educationFactor)
    (hs : WorkValue.IncomeCalculator.schoolRankFactors.lookup data.schoolRank
      = some schoolRankFactor) :
    (calculateIncomeIndex data).totalIncome =
      jsRound2 (fadd (fadd data.afterTax (fmul (fmul data.insuranceBase data.fundRate) (lit 0.02)))
        data.otherBenefits) ∧
    (calculateIncomeIndex data).incomeIndex =
      some (jsRound2
        (fmul (fmul (fmul
          (fmul (fdiv
            (fadd (fadd data.afterTax (fmul (fmul data.insuranceBase data.fundRate) (lit 0.02)))
              data.otherBenefits) 5000) 100)
          (lit cityFactor)) (lit educationFactor)) (lit schoolRankFactor))) := by
  obtain ⟨h1, h2, h3⟩ := factors_of_lookups data cityFactor educationFactor schoolRankFactor
    hc he hs
  simp only [calculateIncomeIndex, calculateHousingFund, h1, h2, h3, timesFactor_number,
    Option.map_some', and_self]

/-- C1, amended: when the city, the education and the school rank are keys of the
income tables, `calculateIncomeIndex` reports the binary64 values of the three table
entries as its factors, and its total income and income index are
`Math.round(v * 100) / 100` of the formulas
`afterTax + insuranceBase * fundRate * 0.02 + otherBenefits` and
`(totalIncome / 5000) * 100 * cityFactor * educationFactor * schoolRankFactor`
evaluated from left to right with every operation rounded to binary64. -/
theorem calculateIncomeIndex_binary64 (data : WorkValue.IncomeCalculator.Input)
    (cityFactor educationFactor schoolRankFactor : ℚ)
    (hc : WorkValue.IncomeCalculator.cityFactors.lookup data.city = some cityFactor)
    (he : WorkValue.IncomeCalculator.educationFactors.lookup data.education
      = some educationFactor)
    (hs : WorkValue.IncomeCalculator.schoolRankFactors.lookup data.schoolRank
      = some schoolRankFactor) :
    (calculateIncomeIndex data).cityFactor = .number (lit cityFactor) ∧
    (calculateIncomeIndex data).educationFactor = .number (lit educationFactor) ∧
    (calculateIncomeIndex data).schoolRankFactor = .number (lit schoolRankFactor) ∧
    (calculateIncomeIndex data).totalIncome =
      jsRound2 (fadd (fadd data.afterTax (fmul (fmul data.insuranceBase data.fundRate) (lit 0.02)))
        data.otherBenefits) ∧
    (calculateIncomeIndex data).incomeIndex =
      some (jsRound2
        (fmul (fmul (fmul
          (fmul (fdiv
            (fadd (fadd data.afterTax (fmul (fmul data.insuranceBase data.fundRate) (lit 0.02)))
              data.otherBenefits) 5000) 100)
          (lit cityFactor)) (lit educationFactor)) (lit schoolRankFactor))) := by
  obtain ⟨h1, h2, h3⟩ := factors_of_lookups data cityFactor educationFactor schoolRankFactor
    hc he hs
  obtain ⟨h4, h5⟩ := incomeIndex_of_lookups data cityFactor educationFactor schoolRankFactor
    hc he hs
  exact ⟨h1, h2, h3, h4, h5⟩

/-- C1, scenario 1: after-tax 10000, insurance base 8000, fund rate 0.12, other
benefits 1000 in 上海 with 本科 and 211院校 gives the factors 0.7, 1.0 and 1.0, the
total income 11019.2 and the income index 154.27 (each the binary64 value of the
decimal). -/
theorem calculateIncomeIndex_binary64_witness :
    WorkValue.IncomeCalculator.cityFactors.lookup incomeScenario.city = some 0.7 ∧
    WorkValue.IncomeCalculator.educationFactors.lookup incomeScenario.education = some 1.0 ∧
    WorkValue.IncomeCalculator.schoolRankFactors.lookup incomeScenario.schoolRank = some 1.0 ∧
    (calculateIncomeIndex incomeScenario).cityFactor = .number (lit 0.7) ∧
    (calculateIncomeIndex incomeScenario).educationFactor = .number (lit 1.0) ∧
    (calculateIncomeIndex incomeScenario).schoolRankFactor = .number (lit 1.0) ∧
    (calculateIncomeIndex incomeScenario).totalIncome = lit 11019.2 ∧
    (calculateIncomeIndex incomeScenario).incomeIndex = some (lit 154.27) := by
  have hc : WorkValue.IncomeCalculator.cityFactors.lookup incomeScenario.city = some 0.7 := rfl
  have he : WorkValue.IncomeCalculator.educationFactors.lookup incomeScenario.education
      = some 1.0 := rfl
  have hs : WorkValue.IncomeCalculator.schoolRankFactors.lookup incomeScenario.schoolRank
      = some 1.0 := rfl
  obtain ⟨h1, h2, h3, h4, h5⟩ := calculateIncomeIndex_binary64 incomeScenario 0.7 1.0 1.0 hc he hs

  have e1 : lit 0.02 = (5764607523034235 / 288230376151711744 : ℚ) :=
    rnd_eval_pos (-6) 5764607523034235 (by norm_num) (by norm_num) (by norm_num) (by norm_num) (by norm_num)
  have e2 : lit 0.12 = (1080863910568919 / 9007199254740992 : ℚ) :=
    rnd_eval_pos (-4) 8646911284551352 (by norm_num) (by norm_num) (by norm_num) (by norm_num) (by norm_num)
  have e3 : fmul (8000 : ℚ) (1080863910568919 / 9007199254740992 : ℚ) = (960 : ℚ) :=
    rnd_eval_pos 9 8444249301319680 (by norm_num) (by norm_num) (by norm_num) (by norm_num) (by norm_num)
  have e4 : fmul (960 : ℚ) (5764607523034235 / 288230376151711744 : ℚ) = (5404319552844595 / 281474976710656 : ℚ) :=
    rnd_eval_pos 4 5404319552844595 (by norm_num) (by norm_num) (by norm_num) (by norm_num) (by norm_num)
  have e5 : fadd (10000 : ℚ) (5404319552844595 / 281474976710656 : ℚ) = (2754056725253325 / 274877906944 : ℚ) :=
    rnd_eval_pos 13 5508113450506650 (by norm_num) (by norm_num) (by norm_num) (by norm_num) (by norm_num)
  have e6 : fadd (2754056725253325 / 274877906944 : ℚ) (1000 : ℚ) = (3028934632197325 / 274877906944 : ℚ) :=
    rnd_eval_pos 13 6057869264394650 (by norm_num) (by norm_num) (by norm_num) (by norm_num) (by norm_num)
  have e7 : fdiv (3028934632197325 / 274877906944 : ℚ) (5000 : ℚ) = (4962606501392097 / 2251799813685248 : ℚ) :=
    rnd_eval_pos 1 4962606501392097 (by norm_num) (by norm_num) (by norm_num) (by norm_num) (by norm_num)
  have e8 : fmul (4962606501392097 / 2251799813685248 : ℚ) (100 : ℚ) = (121157385287893 / 549755813888 : ℚ) :=
    rnd_eval_pos 7 7754072658425152 (by norm_num) (by norm_num) (by norm_num) (by norm_num) (by norm_num)
  have e9 : lit 0.7 = (3152519739159347 / 4503599627370496 : ℚ) :=
    rnd_eval_pos (-1) 6305039478318694 (by norm_num) (by norm_num) (by norm_num) (by norm_num) (by norm_num)
  have e10 : fmul (121157385287893 / 549755813888 : ℚ) (3152519739159347 / 4503599627370496 : ℚ) = (2713925430448803 / 17592186044416 : ℚ) :=
    rnd_eval_pos 7 5427850860897606 (by norm_num) (by norm_num) (by norm_num) (by norm_num) (by norm_num)
  have e11 : lit 1.0 = (1 : ℚ) :=
    rnd_eval_pos 0 4503599627370496 (by norm_num) (by norm_num) (by norm_num) (by norm_num) (by norm_num)
  have e12 : fmul (2713925430448803 / 17592186044416 : ℚ) (1 : ℚ) = (2713925430448803 / 17592186044416 : ℚ) :=
    rnd_eval_pos 7 5427850860897606 (by norm_num) (by norm_num) (by norm_num) (by norm_num) (by norm_num)
  have e13 : fmul (3028934632197325 / 274877906944 : ℚ) (100 : ℚ) = (1101920 : ℚ) :=
    rnd_eval_pos 20 4732710362808320 (by norm_num) (by norm_num) (by norm_num) (by norm_num) (by norm_num)
  have e14 : mathRound (1101920 : ℚ) = 1101920 :=
    mathRound_eval 1101920 (by norm_num) (by norm_num)
  have e15 : fdiv (((1101920 : ℤ) : ℚ)) 100 = (3028934632197325 / 274877906944 : ℚ) :=
    rnd_eval_pos 13 6057869264394650 (by norm_num) (by norm_num) (by norm_num) (by norm_num) (by norm_num)
  have e16 : fmul (2713925430448803 / 17592186044416 : ℚ) (100 : ℚ) = (8481016970152509 / 549755813888 : ℚ) :=
    rnd_eval_pos 13 8481016970152509 (by norm_num) (by norm_num) (by norm_num) (by norm_num) (by norm_num)
  have e17 : mathRound (8481016970152509 / 549755813888 : ℚ) = 15427 :=
    mathRound_eval 15427 (by norm_num) (by norm_num)
  have e18 : fdiv (((15427 : ℤ) : ℚ)) 100 = (5427893082144113 / 35184372088832 : ℚ) :=
    rnd_eval_pos 7 5427893082144113 (by norm_num) (by norm_num) (by norm_num) (by norm_num) (by norm_num)
  have e19 : lit 11019.2 = (3028934632197325 / 274877906944 : ℚ) :=
    rnd_eval_pos 13 6057869264394650 (by norm_num) (by norm_num) (by norm_num) (by norm_num) (by norm_num)
  have e20 : lit 154.27 = (5427893082144113 / 35184372088832 : ℚ) :=
    rnd_eval_pos 7 5427893082144113 (by norm_num) (by norm_num) (by norm_num) (by norm_num) (by norm_num)
  refine ⟨hc, he, hs, h1, h2, h3, ?_, ?_⟩
  · rw [h4]
    simp only [incomeScenario, WorkValue.incomeScenario, jsRound2]
    simp only [e1, e2, e3, e4, e5, e6, e7, e8, e9, e10, e11, e12, e13, e14, e15, e16, e17, e18, e19, e20]
  · rw [h5]
    simp only [incomeScenario, WorkValue.incomeScenario, jsRound2]
    simp only [e1, e2, e3, e4, e5, e6, e7, e8, e9, e10, e11, e12, e13, e14, e15, e16, e17, e18, e19, e20]

/-- C1, as stated, fails: for an after-tax salary of 3005 in 广州 with 本科 and 211院校
(factors 0.85, 1.0, 1.0, nothing else paid) the code returns the income index 51.08,
while `round2` of the exact value of the formula, 51.085, is 51.09. -/
theorem calculateIncomeIndex_exact_counterexample :
    WorkValue.IncomeCalculator.cityFactors.lookup tieIncomeInput.city = some 0.85 ∧
    WorkValue.IncomeCalculator.educationFactors.lookup tieIncomeInput.education = some 1.0 ∧
    WorkValue.IncomeCalculator.schoolRankFactors.lookup tieIncomeInput.schoolRank = some 1.0 ∧
    (calculateIncomeIndex tieIncomeInput).incomeIndex = some (lit 51.08) ∧
    WorkValue.round2
      (((tieIncomeInput.afterTax + tieIncomeInput.insuranceBase * tieIncomeInput.fundRate * 0.02
        + tieIncomeInput.otherBenefits) / 5000) * 100 * 0.85 * 1.0 * 1.0) = 51.09 ∧
    lit 51.08 ≠ 51.09 := by
  have hc : WorkValue.IncomeCalculator.cityFactors.lookup tieIncomeInput.city = some 0.85 := rfl
  have he : WorkValue.IncomeCalculator.educationFactors.lookup tieIncomeInput.education
      = some 1.0 := rfl
  have hs : WorkValue.IncomeCalculator.schoolRankFactors.lookup tieIncomeInput.schoolRank
      = some 1.0 := rfl
  obtain ⟨_, h5⟩ := incomeIndex_of_lookups tieIncomeInput 0.85 1.0 1.0 hc he hs

  have e1 : lit 0.02 = (5764607523034235 / 288230376151711744 : ℚ) :=
    rnd_eval_pos (-6) 5764607523034235 (by norm_num) (by norm_num) (by norm_num) (by norm_num) (by norm_num)
  have e2 : fmul (0 : ℚ) (0 : ℚ) = 0 :=
    (by unfold fmul; norm_num [rnd_zero])
  have e3 : fmul (0 : ℚ) (5764607523034235 / 288230376151711744 : ℚ) = 0 :=
    (by unfold fmul; norm_num [rnd_zero])
  have e4 : fadd (3005 : ℚ) (0 : ℚ) = (3005 : ℚ) :=
    rnd_eval_pos 11 6608064882933760 (by norm_num) (by norm_num) (by norm_num) (by norm_num) (by norm_num)
  have e5 : fdiv (3005 : ℚ) (5000 : ℚ) = (676665844012417 / 1125899906842624 : ℚ) :=
    rnd_eval_pos (-1) 5413326752099336 (by norm_num) (by norm_num) (by norm_num) (by norm_num) (by norm_num)
  have e6 : fmul (676665844012417 / 1125899906842624 : ℚ) (100 : ℚ) = (2114580762538803 / 35184372088832 : ℚ) :=
    rnd_eval_pos_tie 5 8458323050155212 (by norm_num) (by norm_num) (Or.inl (by norm_num)) (by norm_num) (by norm_num)
  have e7 : lit 0.85 = (7656119366529843 / 9007199254740992 : ℚ) :=
    rnd_eval_pos (-1) 7656119366529843 (by norm_num) (by norm_num) (by norm_num) (by norm_num) (by norm_num)
  have e8 : fmul (2114580762538803 / 35184372088832 : ℚ) (7656119366529843 / 9007199254740992 : ℚ) = (3594787296315965 / 70368744177664 : ℚ) :=
    rnd_eval_pos 5 7189574592631930 (by norm_num) (by norm_num) (by norm_num) (by norm_num) (by norm_num)
  have e9 : lit 1.0 = (1 : ℚ) :=
    rnd_eval_pos 0 4503599627370496 (by norm_num) (by norm_num) (by norm_num) (by norm_num) (by norm_num)
  have e10 : fmul (3594787296315965 / 70368744177664 : ℚ) (1 : ℚ) = (3594787296315965 / 70368744177664 : ℚ) :=
    rnd_eval_pos 5 7189574592631930 (by norm_num) (by norm_num) (by norm_num) (by norm_num) (by norm_num)
  have e11 : fmul (3594787296315965 / 70368744177664 : ℚ) (100 : ℚ) = (5616855150493695 / 1099511627776 : ℚ) :=
    rnd_eval_pos 12 5616855150493695 (by norm_num) (by norm_num) (by norm_num) (by norm_num) (by norm_num)
  have e12 : mathRound (5616855150493695 / 1099511627776 : ℚ) = 5108 :=
    mathRound_eval 5108 (by norm_num) (by norm_num)
  have e13 : fdiv (((5108 : ℤ) : ℚ)) 100 = (3594435452595077 / 70368744177664 : ℚ) :=
    rnd_eval_pos 5 7188870905190154 (by norm_num) (by norm_num) (by norm_num) (by norm_num) (by norm_num)
  have e14 : lit 51.08 = (3594435452595077 / 70368744177664 : ℚ) :=
    rnd_eval_pos 5 7188870905190154 (by norm_num) (by norm_num) (by norm_num) (by norm_num) (by norm_num)
  refine ⟨hc, he, hs, ?_, ?_, ?_⟩
  · rw [h5]
    simp only [tieIncomeInput, jsRound2]
    simp only [e1, e2, e3, e4, e5, e6, e7, e8, e9, e10, e11, e12, e13, e14]
  · simp only [tieIncomeInput, WorkValue.round2, mathRound]
    norm_num
  · rw [e14]
    norm_num

end IncomeCalculator

end Js

end WorkValue

/-! ## Unlisted cities on binary64 numbers -/

namespace WorkValue

namespace Js

namespace IncomeCalculator

theorem cityFactor_of_unlisted (data : WorkValue.IncomeCalculator.Input)
    (h : data.city ∉ WorkValue.IncomeCalculator.cityFactors.map Prod.fst)
    (hp : data.city ∉ objectPrototypeNames) :
    (calculateIncomeIndex data).cityFactor = .number 1.0 := by
  simp only [calculateIncomeIndex, getProperty_undefined (lookup_none_of_not_key h) hp, orDefault]

/-- C2: 东京 is in no table of the engine (no key of `cityFactors`, no key of the cost
table, no city of `cityData`) and no inherited property name; `cityFactors` holds
1.2 under 其他, the entry its comment calls the default value, yet
`calculateIncomeIndex` gives 东京 the city factor 1.0 of the `|| 1.0` fallback, not
1.2; the cost calculator gives it 1.0 as well. -/
theorem unlistedCity_cityFactor_one :
    unlistedCityInput.city ∉ WorkValue.IncomeCalculator.cityFactors.map Prod.fst ∧
    unlistedCityInput.city ∉ WorkValue.CostCalculator.cityCostFactors.map Prod.fst ∧
    WorkValue.IncomeCalculator.cityData.findSome?
      (fun region => region.2.lookup unlistedCityInput.city) = none ∧
    unlistedCityInput.city ∉ objectPrototypeNames ∧
    WorkValue.IncomeCalculator.cityFactors.lookup "其他" = some 1.2 ∧
    (calculateIncomeIndex unlistedCityInput).cityFactor = .number 1.0 ∧
    (calculateIncomeIndex unlistedCityInput).cityFactor ≠ .number (lit 1.2) ∧
    CostCalculator.getCityCostFactor unlistedCityInput.city = .number 1.0 := by
  have hk : unlistedCityInput.city ∉ WorkValue.IncomeCalculator.cityFactors.map Prod.fst := by
    decide
  have hkc : unlistedCityInput.city ∉ WorkValue.CostCalculator.cityCostFactors.map Prod.fst := by
    decide
  have hp : unlistedCityInput.city ∉ objectPrototypeNames := by decide
  have hv := cityFactor_of_unlisted unlistedCityInput hk hp

  have e1 : lit 1.2 = (5404319552844595 / 4503599627370496 : ℚ) :=
    rnd_eval_pos 0 5404319552844595 (by norm_num) (by norm_num) (by norm_num) (by norm_num) (by norm_num)
  refine ⟨hk, hkc, by decide, hp, rfl, hv, ?_, ?_⟩
  · rw [hv, e1]
    intro h
    have h2 := Factor.number.inj h
    norm_num at h2
  · simp only [CostCalculator.getCityCostFactor,
      getProperty_undefined (lookup_none_of_not_key hkc) hp, orDefault]

end IncomeCalculator

end Js

end WorkValue

/-! ## Composite score on binary64 numbers -/

namespace WorkValue

namespace Js

namespace WorkValueCalculator

theorem clamp_swap (s : ℚ) : max 0 (min 100 s) = min 100 (max 0 s) :=
  WorkValue.WorkValueCalculator.clamp_comm s

theorem totalScore_of_numbers (income work cost experience : ℚ) :
    (calculateTotalScore ⟨some income, some work, some cost, some experience⟩).totalScore =
      some (jsRound2 (max 0 (min 100
        (fadd (fadd (fadd (fadd 0 (fmul income (lit 0.60))) (fmul (fsub 100 work) (lit 0.25)))
            (fmul (fsub 100 cost) (lit 0.10))) (fmul experience (lit 0.05)))))) := by
  simp only [calculateTotalScore, weightedSum, WorkValue.WorkValueCalculator.weights,
    lift2_some, Option.map_some']

/-- C3, amended: for all numbers `calculateTotalScore` returns
`Math.round(s * 100) / 100` with `s` the weighted sum
`income * 0.60 + (100 - work) * 0.25 + (100 - cost) * 0.10 + experience * 0.05`,
accumulated from 0 in that order with every operation rounded to binary64 and then
clamped to [0, 100]; the total score lies in [0, 100] for every input. -/
theorem calculateTotalScore_binary64 (income work cost experience : ℚ) :
    (calculateTotalScore ⟨some income, some work, some cost, some experience⟩).totalScore =
      some (jsRound2 (min 100 (max 0
        (fadd (fadd (fadd (fadd 0 (fmul income (lit 0.60))) (fmul (fsub 100 work) (lit 0.25)))
            (fmul (fsub 100 cost) (lit 0.10))) (fmul experience (lit 0.05)))))) ∧
    ∃ t : ℚ,
      (calculateTotalScore ⟨some income, some work, some cost, some experience⟩).totalScore
        = some t ∧ 0 ≤ t ∧ t ≤ 100 := by
  rw [totalScore_of_numbers, clamp_swap]
  refine ⟨rfl, _, rfl, ?_⟩
  exact jsRound2_bounds (le_min (by norm_num) (le_max_left _ _)) (min_le_left _ _)

/-- C3, as stated, fails: for the indices 3, 0.5, 0 and 0 the code returns the total
36.67, while `round2` of the exact weighted sum, 36.675, is 36.68. -/
theorem calculateTotalScore_exact_counterexample :
    (calculateTotalScore ⟨some 3, some (1 / 2), some 0, some 0⟩).totalScore = some (lit 36.67) ∧
    WorkValue.round2 (min 100 (max 0
      (0.60 * 3 + 0.25 * (100 - 1 / 2) + 0.10 * (100 - 0) + 0.05 * 0))) = 36.68 ∧
    lit 36.67 ≠ 36.68 := by

  have e1 : lit 0.60 = (5404319552844595 / 9007199254740992 : ℚ) :=
    rnd_eval_pos (-1) 5404319552844595 (by norm_num) (by norm_num) (by norm_num) (by norm_num) (by norm_num)
  have e2 : fmul (3 : ℚ) (5404319552844595 / 9007199254740992 : ℚ) = (2026619832316723 / 1125899906842624 : ℚ) :=
    rnd_eval_pos_tie 0 8106479329266892 (by norm_num) (by norm_num) (Or.inl (by norm_num)) (by norm_num) (by norm_num)
  have e3 : fadd (0 : ℚ) (2026619832316723 / 1125899906842624 : ℚ) = (2026619832316723 / 1125899906842624 : ℚ) :=
    rnd_eval_pos 0 8106479329266892 (by norm_num) (by norm_num) (by norm_num) (by norm_num) (by norm_num)
  have e4 : fsub (100 : ℚ) (1 / 2 : ℚ) = (199 / 2 : ℚ) :=
    rnd_eval_pos 6 7001690045677568 (by norm_num) (by norm_num) (by norm_num) (by norm_num) (by norm_num)
  have e5 : lit 0.25 = (1 / 4 : ℚ) :=
    rnd_eval_pos (-2) 4503599627370496 (by norm_num) (by norm_num) (by norm_num) (by norm_num) (by norm_num)
  have e6 : fmul (199 / 2 : ℚ) (1 / 4 : ℚ) = (199 / 8 : ℚ) :=
    rnd_eval_pos 4 7001690045677568 (by norm_num) (by norm_num) (by norm_num) (by norm_num) (by norm_num)
  have e7 : fadd (2026619832316723 / 1125899906842624 : ℚ) (199 / 8 : ℚ) = (7508345003756749 / 281474976710656 : ℚ) :=
    rnd_eval_pos 4 7508345003756749 (by norm_num) (by norm_num) (by norm_num) (by norm_num) (by norm_num)
  have e8 : fsub (100 : ℚ) (0 : ℚ) = (100 : ℚ) :=
    rnd_eval_pos 6 7036874417766400 (by norm_num) (by norm_num) (by norm_num) (by norm_num) (by norm_num)
  have e9 : lit 0.10 = (3602879701896397 / 36028797018963968 : ℚ) :=
    rnd_eval_pos (-4) 7205759403792794 (by norm_num) (by norm_num) (by norm_num) (by norm_num) (by norm_num)
  have e10 : fmul (100 : ℚ) (3602879701896397 / 36028797018963968 : ℚ) = (10 : ℚ) :=
    rnd_eval_pos 3 5629499534213120 (by norm_num) (by norm_num) (by norm_num) (by norm_num) (by norm_num)
  have e11 : fadd (7508345003756749 / 281474976710656 : ℚ) (10 : ℚ) = (2580773692715827 / 70368744177664 : ℚ) :=
    rnd_eval_pos_tie 5 5161547385431654 (by norm_num) (by norm_num) (Or.inl (by norm_num)) (by norm_num) (by norm_num)
  have e12 : lit 0.05 = (3602879701896397 / 72057594037927936 : ℚ) :=
    rnd_eval_pos (-5) 7205759403792794 (by norm_num) (by norm_num) (by norm_num) (by norm_num) (by norm_num)
  have e13 : fmul (0 : ℚ) (3602879701896397 / 72057594037927936 : ℚ) = 0 :=
    (by unfold fmul; norm_num [rnd_zero])
  have e14 : fadd (2580773692715827 / 70368744177664 : ℚ) (0 : ℚ) = (2580773692715827 / 70368744177664 : ℚ) :=
    rnd_eval_pos 5 5161547385431654 (by norm_num) (by norm_num) (by norm_num) (by norm_num) (by norm_num)
  have e15 : fmul (2580773692715827 / 70368744177664 : ℚ) (100 : ℚ) = (8064917789736959 / 2199023255552 : ℚ) :=
    rnd_eval_pos 11 8064917789736959 (by norm_num) (by norm_num) (by norm_num) (by norm_num) (by norm_num)
  have e16 : mathRound (8064917789736959 / 2199023255552 : ℚ) = 3667 :=
    mathRound_eval 3667 (by norm_num) (by norm_num)
  have e17 : fdiv (((3667 : ℤ) : ℚ)) 100 = (2580421848994939 / 70368744177664 : ℚ) :=
    rnd_eval_pos 5 5160843697989878 (by norm_num) (by norm_num) (by norm_num) (by norm_num) (by norm_num)
  have e18 : lit 36.67 = (2580421848994939 / 70368744177664 : ℚ) :=
    rnd_eval_pos 5 5160843697989878 (by norm_num) (by norm_num) (by norm_num) (by norm_num) (by norm_num)
  have hmax : max (0 : ℚ) (min 100 (2580773692715827 / 70368744177664 : ℚ)) = (2580773692715827 / 70368744177664 : ℚ) := by
    rw [min_eq_right (by norm_num), max_eq_right (by norm_num)]
  refine ⟨?_, ?_, ?_⟩
  · rw [totalScore_of_numbers]
    simp only [e1, e2, e3, e4, e5, e6, e7, e8, e9, e10, e11, e12, e13, e14, e15, e16, e17, e18]
    rw [hmax]
    simp only [jsRound2, e1, e2, e3, e4, e5, e6, e7, e8, e9, e10, e11, e12, e13, e14, e15, e16, e17, e18]
  · have e : (0.60 : ℚ) * 3 + 0.25 * (100 - 1 / 2) + 0.10 * (100 - 0) + 0.05 * 0 = 36.675 := by
      norm_num
    rw [e, max_eq_right (by norm_num), min_eq_right (by norm_num)]
    simp only [WorkValue.round2, mathRound]
    norm_num
  · rw [e18]
    norm_num

end WorkValueCalculator

end Js

end WorkValue

/-! ## Work-burden index on binary64 numbers -/

namespace WorkValue

namespace Js

namespace WorkCalculator

theorem standardTime_nine : fadd 8 1 = 9 := by
  unfold fadd
  have e : (8 : ℚ) + 1 = ((9 : ℤ) : ℚ) := by norm_num
  rw [e, rnd_intCast 9 (by norm_num)]
  norm_num

theorem unroundedWorkIndex_formula (data : WorkValue.WorkCalculator.Input) :
    unroundedWorkIndex data =
      (fdiv
            (fmul
              (fmul
                (fadd
                  (fadd
                    (fmul
                      (fdiv
                        (fadd (fsub data.workEnd data.workStart)
                          (fdiv (fmul data.commuteTime 2) 60)) 9) 30)
                    (fmul (fdiv data.workIntensity 3) 20))
                  (calculateOvertimeCostIndex data.overtimeFreq data.overtimeHours))
                (fadd 1 (fmul (fsub data.age 25) (lit 0.02))))
              (fdiv data.workDays 5))
            10) := by
  simp only [unroundedWorkIndex, calculateTimeCostIndex, calculateIntensityCostIndex,
    calculateAgeFactor, WorkValue.WorkCalculator.standardWorkHours,
    WorkValue.WorkCalculator.standardCommuteHours,
    WorkValue.WorkCalculator.standardWorkIntensity, WorkValue.WorkCalculator.standardWorkDays,
    standardTime_nine]

theorem workIndex_of_unrounded (data : WorkValue.WorkCalculator.Input) :
    (calculateWorkIndex data).workIndex = max 1 (jsRound2 (unroundedWorkIndex data)) := rfl

/-- C5, amended: `calculateWorkIndex` returns `max 1 (r)` with `r` the value
`Math.round(v * 100) / 100` of
`v = (T + I + O) * ageFactor * workDaysFactor / 10`,
`T = ((workEnd - workStart) + commuteTime * 2 / 60) / 9 * 30`,
`I = workIntensity / 3 * 20`, `O` the overtime cost index,
`ageFactor = 1 + (age - 25) * 0.02` and `workDaysFactor = workDays / 5`, evaluated in
that order with every operation rounded to binary64; the work index is at least 1
always, and in scenario 2 the rounded value and the work index are 15.4, above the
floor of 1 and above 10. -/
theorem calculateWorkIndex_binary64 :
    (∀ data : WorkValue.WorkCalculator.Input,
      (calculateWorkIndex data).workIndex =
        max 1 (jsRound2
          (fdiv
            (fmul
              (fmul
                (fadd
                  (fadd
                    (fmul
                      (fdiv
                        (fadd (fsub data.workEnd data.workStart)
                          (fdiv (fmul data.commuteTime 2) 60)) 9) 30)
                    (fmul (fdiv data.workIntensity 3) 20))
                  (calculateOvertimeCostIndex data.overtimeFreq data.overtimeHours))
                (fadd 1 (fmul (fsub data.age 25) (lit 0.02))))
              (fdiv data.workDays 5))
            10)) ∧
      1 ≤ (calculateWorkIndex data).workIndex) ∧
    jsRound2 (unroundedWorkIndex workScenario) = lit 15.4 ∧
    (calculateWorkIndex workScenario).workIndex = lit 15.4 ∧
    (10 : ℚ) < (calculateWorkIndex workScenario).workIndex := by
  have hgen : ∀ data : WorkValue.WorkCalculator.Input,
      (calculateWorkIndex data).workIndex =
        max 1 (jsRound2
          (fdiv
            (fmul
              (fmul
                (fadd
                  (fadd
                    (fmul
                      (fdiv
                        (fadd (fsub data.workEnd data.workStart)
                          (fdiv (fmul data.commuteTime 2) 60)) 9) 30)
                    (fmul (fdiv data.workIntensity 3) 20))
                  (calculateOvertimeCostIndex data.overtimeFreq data.overtimeHours))
                (fadd 1 (fmul (fsub data.age 25) (lit 0.02))))
              (fdiv data.workDays 5))
            10)) := by
    intro data
    rw [workIndex_of_unrounded, unroundedWorkIndex_formula]

  have e1 : fsub (22 : ℚ) (9 : ℚ) = (13 : ℚ) :=
    rnd_eval_pos 3 7318349394477056 (by norm_num) (by norm_num) (by norm_num) (by norm_num) (by norm_num)
  have e2 : fmul (90 : ℚ) (2 : ℚ) = (180 : ℚ) :=
    rnd_eval_pos 7 6333186975989760 (by norm_num) (by norm_num) (by norm_num) (by norm_num) (by norm_num)
  have e3 : fdiv (180 : ℚ) (60 : ℚ) = (3 : ℚ) :=
    rnd_eval_pos 1 6755399441055744 (by norm_num) (by norm_num) (by norm_num) (by norm_num) (by norm_num)
  have e4 : fadd (8 : ℚ) (1 : ℚ) = (9 : ℚ) :=
    rnd_eval_pos 3 5066549580791808 (by norm_num) (by norm_num) (by norm_num) (by norm_num) (by norm_num)
  have e5 : fadd (13 : ℚ) (3 : ℚ) = (16 : ℚ) :=
    rnd_eval_pos 4 4503599627370496 (by norm_num) (by norm_num) (by norm_num) (by norm_num) (by norm_num)
  have e6 : fdiv (16 : ℚ) (9 : ℚ) = (2001599834386887 / 1125899906842624 : ℚ) :=
    rnd_eval_pos 0 8006399337547548 (by norm_num) (by norm_num) (by norm_num) (by norm_num) (by norm_num)
  have e7 : fmul (2001599834386887 / 1125899906842624 : ℚ) (30 : ℚ) = (3752999689475413 / 70368744177664 : ℚ) :=
    rnd_eval_pos 5 7505999378950826 (by norm_num) (by norm_num) (by norm_num) (by norm_num) (by norm_num)
  have e8 : fdiv (8 : ℚ) (3 : ℚ) = (6004799503160661 / 2251799813685248 : ℚ) :=
    rnd_eval_pos 1 6004799503160661 (by norm_num) (by norm_num) (by norm_num) (by norm_num) (by norm_num)
  have e9 : fmul (6004799503160661 / 2251799813685248 : ℚ) (20 : ℚ) = (3752999689475413 / 70368744177664 : ℚ) :=
    rnd_eval_pos 5 7505999378950826 (by norm_num) (by norm_num) (by norm_num) (by norm_num) (by norm_num)
  have e10 : fadd (3 : ℚ) (10 : ℚ) = (13 : ℚ) :=
    rnd_eval_pos 3 7318349394477056 (by norm_num) (by norm_num) (by norm_num) (by norm_num) (by norm_num)
  have e11 : lit 0.1 = (3602879701896397 / 36028797018963968 : ℚ) :=
    rnd_eval_pos (-4) 7205759403792794 (by norm_num) (by norm_num) (by norm_num) (by norm_num) (by norm_num)
  have e12 : max (3602879701896397 / 36028797018963968 : ℚ) (13 : ℚ) = (13 : ℚ) :=
    max_eq_right (by norm_num)
  have e13 : fdiv (13 : ℚ) (13 : ℚ) = (1 : ℚ) :=
    rnd_eval_pos 0 4503599627370496 (by norm_num) (by norm_num) (by norm_num) (by norm_num) (by norm_num)
  have e14 : fmul (1 : ℚ) (10 : ℚ) = (10 : ℚ) :=
    rnd_eval_pos 3 5629499534213120 (by norm_num) (by norm_num) (by norm_num) (by norm_num) (by norm_num)
  have e15 : fdiv (6 : ℚ) (5 : ℚ) = (5404319552844595 / 4503599627370496 : ℚ) :=
    rnd_eval_pos 0 5404319552844595 (by norm_num) (by norm_num) (by norm_num) (by norm_num) (by norm_num)
  have e16 : fsub (30 : ℚ) (25 : ℚ) = (5 : ℚ) :=
    rnd_eval_pos 2 5629499534213120 (by norm_num) (by norm_num) (by norm_num) (by norm_num) (by norm_num)
  have e17 : lit 0.02 = (5764607523034235 / 288230376151711744 : ℚ) :=
    rnd_eval_pos (-6) 5764607523034235 (by norm_num) (by norm_num) (by norm_num) (by norm_num) (by norm_num)
  have e18 : fmul (5 : ℚ) (5764607523034235 / 288230376151711744 : ℚ) = (3602879701896397 / 36028797018963968 : ℚ) :=
    rnd_eval_pos (-4) 7205759403792794 (by norm_num) (by norm_num) (by norm_num) (by norm_num) (by norm_num)
  have e19 : fadd (1 : ℚ) (3602879701896397 / 36028797018963968 : ℚ) = (2476979795053773 / 2251799813685248 : ℚ) :=
    rnd_eval_pos 0 4953959590107546 (by norm_num) (by norm_num) (by norm_num) (by norm_num) (by norm_num)
  have e20 : fadd (3752999689475413 / 70368744177664 : ℚ) (3752999689475413 / 70368744177664 : ℚ) = (3752999689475413 / 35184372088832 : ℚ) :=
    rnd_eval_pos 6 7505999378950826 (by norm_num) (by norm_num) (by norm_num) (by norm_num) (by norm_num)
  have e21 : fadd (3752999689475413 / 35184372088832 : ℚ) (10 : ℚ) = (4104843410363733 / 35184372088832 : ℚ) :=
    rnd_eval_pos 6 8209686820727466 (by norm_num) (by norm_num) (by norm_num) (by norm_num) (by norm_num)
  have e22 : fmul (4104843410363733 / 35184372088832 : ℚ) (2476979795053773 / 2251799813685248 : ℚ) = (4515327751400107 / 35184372088832 : ℚ) :=
    rnd_eval_pos 7 4515327751400107 (by norm_num) (by norm_num) (by norm_num) (by norm_num) (by norm_num)
  have e23 : fmul (4515327751400107 / 35184372088832 : ℚ) (5404319552844595 / 4503599627370496 : ℚ) = (154 : ℚ) :=
    rnd_eval_pos 7 5418393301680128 (by norm_num) (by norm_num) (by norm_num) (by norm_num) (by norm_num)
  have e24 : fdiv (154 : ℚ) (10 : ℚ) = (8669429282688205 / 562949953421312 : ℚ) :=
    rnd_eval_pos 3 8669429282688205 (by norm_num) (by norm_num) (by norm_num) (by norm_num) (by norm_num)
  have e25 : fmul (8669429282688205 / 562949953421312 : ℚ) (100 : ℚ) = (1540 : ℚ) :=
    rnd_eval_pos 10 6772991627100160 (by norm_num) (by norm_num) (by norm_num) (by norm_num) (by norm_num)
  have e26 : mathRound (1540 : ℚ) = 1540 :=
    mathRound_eval 1540 (by norm_num) (by norm_num)
  have e27 : fdiv (((1540 : ℤ) : ℚ)) 100 = (8669429282688205 / 562949953421312 : ℚ) :=
    rnd_eval_pos 3 8669429282688205 (by norm_num) (by norm_num) (by norm_num) (by norm_num) (by norm_num)
  have e28 : lit 15.4 = (8669429282688205 / 562949953421312 : ℚ) :=
    rnd_eval_pos 3 8669429282688205 (by norm_num) (by norm_num) (by norm_num) (by norm_num) (by norm_num)
  have e29 : max (1 : ℚ) (8669429282688205 / 562949953421312 : ℚ) = (8669429282688205 / 562949953421312 : ℚ) :=
    max_eq_right (by norm_num)
  have hraw : jsRound2 (unroundedWorkIndex workScenario) = lit 15.4 := by
    rw [unroundedWorkIndex_formula]
    simp only [workScenario, calculateOvertimeCostIndex, jsRound2]
    simp only [e1, e2, e3, e4, e5, e6, e7, e8, e9, e10, e11, e12, e13, e14, e15, e16, e17, e18, e19, e20, e21, e22, e23, e24, e25, e26, e27, e28, e29]
  have hval : (calculateWorkIndex workScenario).workIndex = lit 15.4 := by
    rw [workIndex_of_unrounded, hraw]
    simp only [e1, e2, e3, e4, e5, e6, e7, e8, e9, e10, e11, e12, e13, e14, e15, e16, e17, e18, e19, e20, e21, e22, e23, e24, e25, e26, e27, e28, e29]
  refine ⟨fun data => ⟨hgen data, ?_⟩, hraw, hval, ?_⟩
  · rw [workIndex_of_unrounded]
    exact le_max_left _ _
  · rw [hval, e28]
    norm_num

/-- C5, as stated, fails: for work from 9 to 15, 45 minutes of commute, one overtime
day, intensity 10, 5.5 working days and age 50 the code returns the work index
16.77, while `round2` of the exact value of the formula, 16.775, is 16.78. -/
theorem calculateWorkIndex_exact_counterexample :
    (calculateWorkIndex tieWorkInput).workIndex = lit 16.77 ∧
    max 1 (WorkValue.round2
      ((((tieWorkInput.workEnd - tieWorkInput.workStart) + tieWorkInput.commuteTime * 2 / 60)
          / 9 * 30
        + tieWorkInput.workIntensity / 3 * 20
        + WorkValue.WorkCalculator.calculateOvertimeCostIndex tieWorkInput.overtimeFreq
            tieWorkInput.overtimeHours)
        * (1 + (tieWorkInput.age - 25) * 0.02) * (tieWorkInput.workDays / 5) / 10)) = 16.78 ∧
    lit 16.77 ≠ 16.78 := by

  have e1 : fsub (15 : ℚ) (9 : ℚ) = (6 : ℚ) :=
    rnd_eval_pos 2 6755399441055744 (by norm_num) (by norm_num) (by norm_num) (by norm_num) (by norm_num)
  have e2 : fmul (45 : ℚ) (2 : ℚ) = (90 : ℚ) :=
    rnd_eval_pos 6 6333186975989760 (by norm_num) (by norm_num) (by norm_num) (by norm_num) (by norm_num)
  have e3 : fdiv (90 : ℚ) (60 : ℚ) = (3 / 2 : ℚ) :=
    rnd_eval_pos 0 6755399441055744 (by norm_num) (by norm_num) (by norm_num) (by norm_num) (by norm_num)
  have e4 : fadd (8 : ℚ) (1 : ℚ) = (9 : ℚ) :=
    rnd_eval_pos 3 5066549580791808 (by norm_num) (by norm_num) (by norm_num) (by norm_num) (by norm_num)
  have e5 : fadd (6 : ℚ) (3 / 2 : ℚ) = (15 / 2 : ℚ) :=
    rnd_eval_pos 2 8444249301319680 (by norm_num) (by norm_num) (by norm_num) (by norm_num) (by norm_num)
  have e6 : fdiv (15 / 2 : ℚ) (9 : ℚ) = (7505999378950827 / 9007199254740992 : ℚ) :=
    rnd_eval_pos (-1) 7505999378950827 (by norm_num) (by norm_num) (by norm_num) (by norm_num) (by norm_num)
  have e7 : fmul (7505999378950827 / 9007199254740992 : ℚ) (30 : ℚ) = (25 : ℚ) :=
    rnd_eval_pos 4 7036874417766400 (by norm_num) (by norm_num) (by norm_num) (by norm_num) (by norm_num)
  have e8 : fdiv (10 : ℚ) (3 : ℚ) = (7505999378950827 / 2251799813685248 : ℚ) :=
    rnd_eval_pos 1 7505999378950827 (by norm_num) (by norm_num) (by norm_num) (by norm_num) (by norm_num)
  have e9 : fmul (7505999378950827 / 2251799813685248 : ℚ) (20 : ℚ) = (4691249611844267 / 70368744177664 : ℚ) :=
    rnd_eval_pos 6 4691249611844267 (by norm_num) (by norm_num) (by norm_num) (by norm_num) (by norm_num)
  have e10 : fadd (1 : ℚ) (0 : ℚ) = (1 : ℚ) :=
    rnd_eval_pos 0 4503599627370496 (by norm_num) (by norm_num) (by norm_num) (by norm_num) (by norm_num)
  have e11 : lit 0.1 = (3602879701896397 / 36028797018963968 : ℚ) :=
    rnd_eval_pos (-4) 7205759403792794 (by norm_num) (by norm_num) (by norm_num) (by norm_num) (by norm_num)
  have e12 : max (3602879701896397 / 36028797018963968 : ℚ) (1 : ℚ) = (1 : ℚ) :=
    max_eq_right (by norm_num)
  have e13 : fdiv (1 : ℚ) (1 : ℚ) = (1 : ℚ) :=
    rnd_eval_pos 0 4503599627370496 (by norm_num) (by norm_num) (by norm_num) (by norm_num) (by norm_num)
  have e14 : fmul (1 : ℚ) (10 : ℚ) = (10 : ℚ) :=
    rnd_eval_pos 3 5629499534213120 (by norm_num) (by norm_num) (by norm_num) (by norm_num) (by norm_num)
  have e15 : fdiv (11 / 2 : ℚ) (5 : ℚ) = (2476979795053773 / 2251799813685248 : ℚ) :=
    rnd_eval_pos 0 4953959590107546 (by norm_num) (by norm_num) (by norm_num) (by norm_num) (by norm_num)
  have e16 : fsub (50 : ℚ) (25 : ℚ) = (25 : ℚ) :=
    rnd_eval_pos 4 7036874417766400 (by norm_num) (by norm_num) (by norm_num) (by norm_num) (by norm_num)
  have e17 : lit 0.02 = (5764607523034235 / 288230376151711744 : ℚ) :=
    rnd_eval_pos (-6) 5764607523034235 (by norm_num) (by norm_num) (by norm_num) (by norm_num) (by norm_num)
  have e18 : fmul (25 : ℚ) (5764607523034235 / 288230376151711744 : ℚ) = (1 / 2 : ℚ) :=
    rnd_eval_pos (-1) 4503599627370496 (by norm_num) (by norm_num) (by norm_num) (by norm_num) (by norm_num)
  have e19 : fadd (1 : ℚ) (1 / 2 : ℚ) = (3 / 2 : ℚ) :=
    rnd_eval_pos 0 6755399441055744 (by norm_num) (by norm_num) (by norm_num) (by norm_num) (by norm_num)
  have e20 : fadd (25 : ℚ) (4691249611844267 / 70368744177664 : ℚ) = (6450468216285867 / 70368744177664 : ℚ) :=
    rnd_eval_pos 6 6450468216285867 (by norm_num) (by norm_num) (by norm_num) (by norm_num) (by norm_num)
  have e21 : fadd (6450468216285867 / 70368744177664 : ℚ) (10 : ℚ) = (7154155658062507 / 70368744177664 : ℚ) :=
    rnd_eval_pos 6 7154155658062507 (by norm_num) (by norm_num) (by norm_num) (by norm_num) (by norm_num)
  have e22 : fmul (7154155658062507 / 70368744177664 : ℚ) (3 / 2 : ℚ) = (305 / 2 : ℚ) :=
    rnd_eval_pos 7 5365616743546880 (by norm_num) (by norm_num) (by norm_num) (by norm_num) (by norm_num)
  have e23 : fmul (305 / 2 : ℚ) (2476979795053773 / 2251799813685248 : ℚ) = (671 / 4 : ℚ) :=
    rnd_eval_pos 7 5902178417901568 (by norm_num) (by norm_num) (by norm_num) (by norm_num) (by norm_num)
  have e24 : fdiv (671 / 4 : ℚ) (10 : ℚ) = (2360871367160627 / 140737488355328 : ℚ) :=
    rnd_eval_pos 4 4721742734321254 (by norm_num) (by norm_num) (by norm_num) (by norm_num) (by norm_num)
  have e25 : fmul (2360871367160627 / 140737488355328 : ℚ) (100 : ℚ) = (7377723022376959 / 4398046511104 : ℚ) :=
    rnd_eval_pos 10 7377723022376959 (by norm_num) (by norm_num) (by norm_num) (by norm_num) (by norm_num)
  have e26 : mathRound (7377723022376959 / 4398046511104 : ℚ) = 1677 :=
    mathRound_eval 1677 (by norm_num) (by norm_num)
  have e27 : fdiv (((1677 : ℤ) : ℚ)) 100 = (4720335359437701 / 281474976710656 : ℚ) :=
    rnd_eval_pos 4 4720335359437701 (by norm_num) (by norm_num) (by norm_num) (by norm_num) (by norm_num)
  have e28 : lit 16.77 = (4720335359437701 / 281474976710656 : ℚ) :=
    rnd_eval_pos 4 4720335359437701 (by norm_num) (by norm_num) (by norm_num) (by norm_num) (by norm_num)
  have e29 : max (1 : ℚ) (4720335359437701 / 281474976710656 : ℚ) = (4720335359437701 / 281474976710656 : ℚ) :=
    max_eq_right (by norm_num)
  have hO : WorkValue.WorkCalculator.calculateOvertimeCostIndex tieWorkInput.overtimeFreq
      tieWorkInput.overtimeHours = 10 := by
    unfold WorkValue.WorkCalculator.calculateOvertimeCostIndex
    exact WorkValue.WorkCalculator.overtime_of_ge (by simp only [tieWorkInput]; norm_num)
  refine ⟨?_, ?_, ?_⟩
  · rw [workIndex_of_unrounded, unroundedWorkIndex_formula]
    simp only [tieWorkInput, calculateOvertimeCostIndex, jsRound2]
    simp only [e1, e2, e3, e4, e5, e6, e7, e8, e9, e10, e11, e12, e13, e14, e15, e16, e17, e18, e19, e20, e21, e22, e23, e24, e25, e26, e27, e28, e29]
  · rw [hO]
    simp only [tieWorkInput, WorkValue.round2, mathRound]
    norm_num
  · rw [e28]
    norm_num

end WorkCalculator

end Js

end WorkValue

/-! ## Overtime cost index on binary64 numbers -/

namespace WorkValue

namespace Js

namespace WorkCalculator

theorem lit_tenth_pos : 0 < lit 0.1 := by
  unfold lit
  exact rnd_pos (by norm_num)

theorem lit_tenth_le_one : lit 0.1 ≤ 1 := by
  unfold lit
  have h := rnd_mono (show (0.1 : ℚ) ≤ 1 by norm_num)
  rw [rnd_one] at h
  exact h

theorem overtimeIndex_of_ge {f h : ℚ} (hge : lit 0.1 ≤ fadd f h) :
    calculateOvertimeCostIndex f h = 10 := by
  have hne : fadd f h ≠ 0 := ne_of_gt (lt_of_lt_of_le lit_tenth_pos hge)
  simp only [calculateOvertimeCostIndex, max_eq_right hge]
  unfold fdiv
  rw [div_self hne, rnd_one]
  unfold fmul
  rw [one_mul, rnd_ten]

theorem overtimeIndex_of_lt {f h : ℚ} (hlt : fadd f h < lit 0.1) :
    calculateOvertimeCostIndex f h = fmul (fdiv (fadd f h) (lit 0.1)) 10 := by
  simp only [calculateOvertimeCostIndex, max_eq_left (le_of_lt hlt)]

/-- C6, amended: for non-negative overtime quantities the overtime cost index is
exactly 10 whenever their binary64 sum reaches the binary64 value of 0.1 (so
whenever both are whole numbers and one is nonzero); below that it is
`(sum / 0.1) * 10` in binary64 arithmetic; and it is 0 only when both quantities
are 0. -/
theorem calculateOvertimeCostIndex_binary64 (overtimeFreq overtimeHours : ℚ)
    (hf : 0 ≤ overtimeFreq) (hh : 0 ≤ overtimeHours) :
    (lit 0.1 ≤ fadd overtimeFreq overtimeHours →
      calculateOvertimeCostIndex overtimeFreq overtimeHours = 10) ∧
    (fadd overtimeFreq overtimeHours < lit 0.1 →
      calculateOvertimeCostIndex overtimeFreq overtimeHours
        = fmul (fdiv (fadd overtimeFreq overtimeHours) (lit 0.1)) 10) ∧
    (calculateOvertimeCostIndex overtimeFreq overtimeHours = 0 ↔
      overtimeFreq = 0 ∧ overtimeHours = 0) ∧
    (∀ m n : ℕ, overtimeFreq = m → overtimeHours = n → (m ≠ 0 ∨ n ≠ 0) →
      calculateOvertimeCostIndex overtimeFreq overtimeHours = 10) := by
  refine ⟨overtimeIndex_of_ge, overtimeIndex_of_lt, ?_, ?_⟩
  · constructor
    · intro h0
      rcases le_or_lt (lit 0.1) (fadd overtimeFreq overtimeHours) with hge | hlt
      · rw [overtimeIndex_of_ge hge] at h0
        norm_num at h0
      · rw [overtimeIndex_of_lt hlt] at h0
        unfold fmul at h0
        rw [rnd_eq_zero_iff] at h0
        have h1 : fdiv (fadd overtimeFreq overtimeHours) (lit 0.1) = 0 := by
          rcases mul_eq_zero.1 h0 with h | h
          · exact h
          · norm_num at h
        unfold fdiv at h1
        rw [rnd_eq_zero_iff] at h1
        have h2 : fadd overtimeFreq overtimeHours = 0 := by
          rcases div_eq_zero_iff.1 h1 with h | h
          · exact h
          · exact absurd h (ne_of_gt lit_tenth_pos)
        unfold fadd at h2
        rw [rnd_eq_zero_iff] at h2
        constructor <;> linarith
    · rintro ⟨rfl, rfl⟩
      have hz : fadd (0 : ℚ) 0 = 0 := by
        unfold fadd
        rw [add_zero, rnd_zero]
      rw [overtimeIndex_of_lt (by rw [hz]; exact lit_tenth_pos), hz]
      unfold fdiv
      rw [zero_div, rnd_zero]
      unfold fmul
      rw [zero_mul, rnd_zero]
  · intro m n hm hn hmn
    apply overtimeIndex_of_ge
    have h1 : (1 : ℚ) ≤ (m : ℚ) + (n : ℚ) := by
      have : 1 ≤ m + n := by omega
      exact_mod_cast this
    have h2 : rnd 1 ≤ fadd overtimeFreq overtimeHours := by
      unfold fadd
      rw [hm, hn]
      exact rnd_mono h1
    rw [rnd_one] at h2
    exact le_trans lit_tenth_le_one h2

/-- C6, amended, at 3 overtime days of 10 hours: the sum 13 reaches 0.1 and the index
is 10. -/
theorem calculateOvertimeCostIndex_binary64_witness :
    lit 0.1 ≤ fadd 3 10 ∧ calculateOvertimeCostIndex 3 10 = 10 := by

  have e1 : fadd (3 : ℚ) (10 : ℚ) = (13 : ℚ) :=
    rnd_eval_pos 3 7318349394477056 (by norm_num) (by norm_num) (by norm_num) (by norm_num) (by norm_num)
  have e2 : lit 0.1 = (3602879701896397 / 36028797018963968 : ℚ) :=
    rnd_eval_pos (-4) 7205759403792794 (by norm_num) (by norm_num) (by norm_num) (by norm_num) (by norm_num)
  have hge : lit 0.1 ≤ fadd 3 10 := by
    rw [e1, e2]
    norm_num
  exact ⟨hge,
    (calculateOvertimeCostIndex_binary64 3 10 (by norm_num) (by norm_num)).1 hge⟩

/-- C6, as stated, fails: with an overtime frequency of 1/16 and no overtime hours
one quantity is nonzero, and the overtime cost index is 6.25, not 10. -/
theorem calculateOvertimeCostIndex_fraction_counterexample :
    (0 : ℚ) ≤ 1 / 16 ∧ (1 / 16 : ℚ) ≠ 0 ∧
    calculateOvertimeCostIndex (1 / 16) 0 = 25 / 4 ∧
    calculateOvertimeCostIndex (1 / 16) 0 ≠ 10 := by

  have e1 : fadd (1 / 16 : ℚ) (0 : ℚ) = (1 / 16 : ℚ) :=
    rnd_eval_pos (-4) 4503599627370496 (by norm_num) (by norm_num) (by norm_num) (by norm_num) (by norm_num)
  have e2 : lit 0.1 = (3602879701896397 / 36028797018963968 : ℚ) :=
    rnd_eval_pos (-4) 7205759403792794 (by norm_num) (by norm_num) (by norm_num) (by norm_num) (by norm_num)
  have e3 : max (3602879701896397 / 36028797018963968 : ℚ) (1 / 16 : ℚ) = (3602879701896397 / 36028797018963968 : ℚ) :=
    max_eq_left (by norm_num)
  have e4 : fdiv (1 / 16 : ℚ) (3602879701896397 / 36028797018963968 : ℚ) = (5 / 8 : ℚ) :=
    rnd_eval_pos (-1) 5629499534213120 (by norm_num) (by norm_num) (by norm_num) (by norm_num) (by norm_num)
  have e5 : fmul (5 / 8 : ℚ) (10 : ℚ) = (25 / 4 : ℚ) :=
    rnd_eval_pos 2 7036874417766400 (by norm_num) (by norm_num) (by norm_num) (by norm_num) (by norm_num)
  have hv : calculateOvertimeCostIndex (1 / 16) 0 = 25 / 4 := by
    simp only [calculateOvertimeCostIndex]
    simp only [e1, e2, e3, e4, e5]
  refine ⟨by norm_num, by norm_num, hv, ?_⟩
  rw [hv]
  norm_num

end WorkCalculator

end Js

end WorkValue

/-! ## Cost index on binary64 numbers -/

namespace WorkValue

namespace Js

namespace CostCalculator

theorem getCityCostFactor_number_of_lookup {city : String} {v : ℚ}
    (h : WorkValue.CostCalculator.cityCostFactors.lookup city = some v) :
    getCityCostFactor city = .number (lit v) := by
  unfold getCityCostFactor
  rw [getProperty_of_lookup h, orDefault_own (WorkValue.CostCalculator.cityCostFactors_ne_zero h)]

theorem getCityCostFactor_of_unlisted {city : String}
    (h : city ∉ WorkValue.CostCalculator.cityCostFactors.map Prod.fst)
    (hp : city ∉ objectPrototypeNames) : getCityCostFactor city = .number 1.0 := by
  simp only [getCityCostFactor, getProperty_undefined (lookup_none_of_not_key h) hp, orDefault]

theorem getCityCostFactor_of_inherited {city : String} (hp : city ∈ objectPrototypeNames) :
    getCityCostFactor city = .inherited := by
  have hk : ∀ name ∈ objectPrototypeNames,
      name ∉ WorkValue.CostCalculator.cityCostFactors.map Prod.fst := by decide
  simp only [getCityCostFactor, getProperty_inherited (lookup_none_of_not_key (hk city hp)) hp,
    orDefault]

theorem getCityCostFactor_number {city : String} (hp : city ∉ objectPrototypeNames) :
    ∃ q : ℚ, getCityCostFactor city = .number q := by
  cases hl : WorkValue.CostCalculator.cityCostFactors.lookup city with
  | some v => exact ⟨_, getCityCostFactor_number_of_lookup hl⟩
  | none =>
    refine ⟨1.0, ?_⟩
    simp only [getCityCostFactor, getProperty_undefined hl hp, orDefault]

/-- C7, amended: `calculateCostIndex` reports `getCityCostFactor(city)` as its city
cost factor and `Math.round(t * 100) / 100` of `t = rent + food + transport` as its
total cost; when the factor is a number (as it is for every city that is no
inherited property name) the cost index is `Math.round(v * 100) / 100` of
`v = (t / 4000) * 100 * cityCostFactor`, every operation rounded to binary64. -/
theorem calculateCostIndex_binary64 (data : WorkValue.CostCalculator.Input) :
    (calculateCostIndex data).cityCostFactor = getCityCostFactor data.city ∧
    (calculateCostIndex data).totalCost
      = jsRound2 (fadd (fadd data.rent data.food) data.transport) ∧
    (∀ q : ℚ, getCityCostFactor data.city = .number q →
      (calculateCostIndex data).costIndex =
        some (jsRound2
          (fmul (fmul (fdiv (fadd (fadd data.rent data.food) data.transport) 4000) 100) q))) ∧
    (data.city ∉ objectPrototypeNames → ∃ q : ℚ, getCityCostFactor data.city = .number q) := by
  refine ⟨rfl, rfl, ?_, getCityCostFactor_number⟩
  intro q hq
  simp only [calculateCostIndex, hq, timesFactor_number, Option.map_some']

/-- C7, as stated, fails: for the expenses 1000, 300 and 94 in 深圳 (factor 1.1) the
code returns the cost index 38.33, while `round2` of the exact value of the formula,
38.335, is 38.34. -/
theorem calculateCostIndex_exact_counterexample :
    getCityCostFactor tieCostInput.city = .number (lit 1.1) ∧
    (calculateCostIndex tieCostInput).costIndex = some (lit 38.33) ∧
    WorkValue.round2
      (((tieCostInput.rent + tieCostInput.food + tieCostInput.transport) / 4000) * 100 * 1.1)
      = 38.34 ∧
    lit 38.33 ≠ 38.34 := by
  have hf : getCityCostFactor tieCostInput.city = .number (lit 1.1) :=
    getCityCostFactor_number_of_lookup rfl

  have e1 : fadd (1000 : ℚ) (300 : ℚ) = (1300 : ℚ) :=
    rnd_eval_pos 10 5717460464435200 (by norm_num) (by norm_num) (by norm_num) (by norm_num) (by norm_num)
  have e2 : fadd (1300 : ℚ) (94 : ℚ) = (1394 : ℚ) :=
    rnd_eval_pos 10 6130876836478976 (by norm_num) (by norm_num) (by norm_num) (by norm_num) (by norm_num)
  have e3 : fdiv (1394 : ℚ) (4000 : ℚ) = (6278017880554471 / 18014398509481984 : ℚ) :=
    rnd_eval_pos (-2) 6278017880554471 (by norm_num) (by norm_num) (by norm_num) (by norm_num) (by norm_num)
  have e4 : fmul (6278017880554471 / 18014398509481984 : ℚ) (100 : ℚ) = (1226175367295795 / 35184372088832 : ℚ) :=
    rnd_eval_pos 5 4904701469183180 (by norm_num) (by norm_num) (by norm_num) (by norm_num) (by norm_num)
  have e5 : lit 1.1 = (2476979795053773 / 2251799813685248 : ℚ) :=
    rnd_eval_pos 0 4953959590107546 (by norm_num) (by norm_num) (by norm_num) (by norm_num) (by norm_num)
  have e6 : fmul (1226175367295795 / 35184372088832 : ℚ) (2476979795053773 / 2251799813685248 : ℚ) = (2697585808050749 / 70368744177664 : ℚ) :=
    rnd_eval_pos 5 5395171616101498 (by norm_num) (by norm_num) (by norm_num) (by norm_num) (by norm_num)
  have e7 : fmul (2697585808050749 / 70368744177664 : ℚ) (100 : ℚ) = (8429955650158591 / 2199023255552 : ℚ) :=
    rnd_eval_pos 11 8429955650158591 (by norm_num) (by norm_num) (by norm_num) (by norm_num) (by norm_num)
  have e8 : mathRound (8429955650158591 / 2199023255552 : ℚ) = 3833 :=
    mathRound_eval 3833 (by norm_num) (by norm_num)
  have e9 : fdiv (((3833 : ℤ) : ℚ)) 100 = (2697233964329861 / 70368744177664 : ℚ) :=
    rnd_eval_pos 5 5394467928659722 (by norm_num) (by norm_num) (by norm_num) (by norm_num) (by norm_num)
  have e10 : lit 38.33 = (2697233964329861 / 70368744177664 : ℚ) :=
    rnd_eval_pos 5 5394467928659722 (by norm_num) (by norm_num) (by norm_num) (by norm_num) (by norm_num)
  refine ⟨hf, ?_, ?_, ?_⟩
  · simp only [calculateCostIndex, hf, timesFactor_number, Option.map_some']
    simp only [tieCostInput, jsRound2]
    simp only [e1, e2, e3, e4, e5, e6, e7, e8, e9, e10]
  · simp only [tieCostInput, WorkValue.round2, mathRound]
    norm_num
  · rw [e10]
    norm_num

/-- C8 at the city `constructor`: the string is no key of the cost table, yet
`getCityCostFactor` returns for it not 1.0 but the property the table inherits under
that name, which is no number, and the cost index of a record with that city is
`NaN`; every name inherited from `Object.prototype` fares the same.  For every other
city the two-tier fallback holds: the literal key 其他 yields 0.6, each of the eight
named cities its table value, and a string that is no key of the table 1.0. -/
theorem getCityCostFactor_inherited :
    inheritedCostInput.city ∉ WorkValue.CostCalculator.cityCostFactors.map Prod.fst ∧
    getCityCostFactor inheritedCostInput.city = .inherited ∧
    getCityCostFactor inheritedCostInput.city ≠ .number 1.0 ∧
    (calculateCostIndex inheritedCostInput).costIndex = none ∧
    (∀ city : String, city ∈ objectPrototypeNames → getCityCostFactor city = .inherited) ∧
    getCityCostFactor "其他" = .number (lit 0.6) ∧
    getCityCostFactor "北京" = .number (lit 1.2) ∧
    getCityCostFactor "上海" = .number (lit 1.2) ∧
    getCityCostFactor "深圳" = .number (lit 1.1) ∧
    getCityCostFactor "广州" = .number (lit 1.0) ∧
    getCityCostFactor "杭州" = .number (lit 0.9) ∧
    getCityCostFactor "成都" = .number (lit 0.8) ∧
    getCityCostFactor "武汉" = .number (lit 0.8) ∧
    getCityCostFactor "西安" = .number (lit 0.7) ∧
    (∀ city : String, city ∉ WorkValue.CostCalculator.cityCostFactors.map Prod.fst →
      city ∉ objectPrototypeNames → getCityCostFactor city = .number 1.0) ∧
    (∀ city : String, city ∉ objectPrototypeNames →
      ∃ q : ℚ, getCityCostFactor city = .number q) := by
  have hp : inheritedCostInput.city ∈ objectPrototypeNames := by decide
  have hf := getCityCostFactor_of_inherited hp
  refine ⟨by decide, hf, ?_, ?_, fun _ h => getCityCostFactor_of_inherited h,
    getCityCostFactor_number_of_lookup rfl, getCityCostFactor_number_of_lookup rfl, getCityCostFactor_number_of_lookup rfl, getCityCostFactor_number_of_lookup rfl, getCityCostFactor_number_of_lookup rfl, getCityCostFactor_number_of_lookup rfl, getCityCostFactor_number_of_lookup rfl, getCityCostFactor_number_of_lookup rfl, getCityCostFactor_number_of_lookup rfl,
    fun _ h hq => getCityCostFactor_of_unlisted h hq, fun _ hq => getCityCostFactor_number hq⟩
  · rw [hf]
    exact Factor.noConfusion
  · simp only [calculateCostIndex, hf, timesFactor_inherited, Option.map_none']

end CostCalculator

end Js

end WorkValue

/-! ## Experience index on binary64 numbers -/

namespace WorkValue

namespace Js

namespace ExperienceCalculator

theorem unroundedExperienceIndex_ofNumbers (h c t l w : ℚ) :
    unroundedExperienceIndex (WorkValue.ExperienceCalculator.ofNumbers h c t l w) =
      some (fmul
          (fadd
            (fadd
              (fadd (fadd (fadd 0 (fmul (WorkValue.ExperienceCalculator.validateValue (.number h)) (lit 0.25))) (fmul (WorkValue.ExperienceCalculator.validateValue (.number c)) (lit 0.20)))
                (fmul (WorkValue.ExperienceCalculator.validateValue (.number t)) (lit 0.15)))
              (fmul (WorkValue.ExperienceCalculator.validateValue (.number l)) (lit 0.20)))
            (fmul (WorkValue.ExperienceCalculator.validateValue (.number w)) (lit 0.20)))
          10) := by
  simp only [unroundedExperienceIndex, WorkValue.ExperienceCalculator.validateExperienceData,
    WorkValue.ExperienceCalculator.ofNumbers, WorkValue.ExperienceCalculator.experienceWeights,
    accumulate, Option.map_some']

theorem experienceIndex_of_unrounded (data : WorkValue.ExperienceCalculator.Input) :
    (calculateExperienceIndex data).experienceIndex
      = (unroundedExperienceIndex data).map jsRound2 := rfl

/-- C10, amended: for ratings `h`, `c`, `t`, `l`, `w` that already lie in [1, 10],
`calculateExperienceIndex` returns `Math.round(v * 100) / 100` of
`v = (h * 0.25 + c * 0.20 + t * 0.15 + l * 0.20 + w * 0.20) * 10`, the sum
accumulated from 0 in that order with every operation rounded to binary64. -/
theorem experienceIndex_binary64 (h c t l w : ℚ)
    (hh1 : 1 ≤ h) (hh10 : h ≤ 10) (hc1 : 1 ≤ c) (hc10 : c ≤ 10) (ht1 : 1 ≤ t) (ht10 : t ≤ 10)
    (hl1 : 1 ≤ l) (hl10 : l ≤ 10) (hw1 : 1 ≤ w) (hw10 : w ≤ 10) :
    (calculateExperienceIndex
      (WorkValue.ExperienceCalculator.ofNumbers h c t l w)).experienceIndex =
      some (jsRound2
        (fmul
          (fadd
            (fadd
              (fadd (fadd (fadd 0 (fmul h (lit 0.25))) (fmul c (lit 0.20)))
                (fmul t (lit 0.15)))
              (fmul l (lit 0.20)))
            (fmul w (lit 0.20)))
          10)) := by
  rw [experienceIndex_of_unrounded, unroundedExperienceIndex_ofNumbers,
    WorkValue.ExperienceCalculator.validateValue_of_mem hh1 hh10,
    WorkValue.ExperienceCalculator.validateValue_of_mem hc1 hc10,
    WorkValue.ExperienceCalculator.validateValue_of_mem ht1 ht10,
    WorkValue.ExperienceCalculator.validateValue_of_mem hl1 hl10,
    WorkValue.ExperienceCalculator.validateValue_of_mem hw1 hw10]
  rfl

/-- C10, scenario 3: five ratings of 10 give the experience index 100 exactly. -/
theorem experienceIndex_binary64_witness :
    (calculateExperienceIndex
      (WorkValue.ExperienceCalculator.ofNumbers 10 10 10 10 10)).experienceIndex = some 100 := by
  have h := experienceIndex_binary64 10 10 10 10 10 (by norm_num) (by norm_num) (by norm_num) (by norm_num) (by norm_num) (by norm_num) (by norm_num) (by norm_num) (by norm_num) (by norm_num)

  have e1 : lit 0.25 = (1 / 4 : ℚ) :=
    rnd_eval_pos (-2) 4503599627370496 (by norm_num) (by norm_num) (by norm_num) (by norm_num) (by norm_num)
  have e2 : fmul (10 : ℚ) (1 / 4 : ℚ) = (5 / 2 : ℚ) :=
    rnd_eval_pos 1 5629499534213120 (by norm_num) (by norm_num) (by norm_num) (by norm_num) (by norm_num)
  have e3 : fadd (0 : ℚ) (5 / 2 : ℚ) = (5 / 2 : ℚ) :=
    rnd_eval_pos 1 5629499534213120 (by norm_num) (by norm_num) (by norm_num) (by norm_num) (by norm_num)
  have e4 : lit 0.20 = (3602879701896397 / 18014398509481984 : ℚ) :=
    rnd_eval_pos (-3) 7205759403792794 (by norm_num) (by norm_num) (by norm_num) (by norm_num) (by norm_num)
  have e5 : fmul (10 : ℚ) (3602879701896397 / 18014398509481984 : ℚ) = (2 : ℚ) :=
    rnd_eval_pos 1 4503599627370496 (by norm_num) (by norm_num) (by norm_num) (by norm_num) (by norm_num)
  have e6 : fadd (5 / 2 : ℚ) (2 : ℚ) = (9 / 2 : ℚ) :=
    rnd_eval_pos 2 5066549580791808 (by norm_num) (by norm_num) (by norm_num) (by norm_num) (by norm_num)
  have e7 : lit 0.15 = (5404319552844595 / 36028797018963968 : ℚ) :=
    rnd_eval_pos (-3) 5404319552844595 (by norm_num) (by norm_num) (by norm_num) (by norm_num) (by norm_num)
  have e8 : fmul (10 : ℚ) (5404319552844595 / 36028797018963968 : ℚ) = (3 / 2 : ℚ) :=
    rnd_eval_pos 0 6755399441055744 (by norm_num) (by norm_num) (by norm_num) (by norm_num) (by norm_num)
  have e9 : fadd (9 / 2 : ℚ) (3 / 2 : ℚ) = (6 : ℚ) :=
    rnd_eval_pos 2 6755399441055744 (by norm_num) (by norm_num) (by norm_num) (by norm_num) (by norm_num)
  have e10 : fadd (6 : ℚ) (2 : ℚ) = (8 : ℚ) :=
    rnd_eval_pos 3 4503599627370496 (by norm_num) (by norm_num) (by norm_num) (by norm_num) (by norm_num)
  have e11 : fadd (8 : ℚ) (2 : ℚ) = (10 : ℚ) :=
    rnd_eval_pos 3 5629499534213120 (by norm_num) (by norm_num) (by norm_num) (by norm_num) (by norm_num)
  have e12 : fmul (10 : ℚ) (10 : ℚ) = (100 : ℚ) :=
    rnd_eval_pos 6 7036874417766400 (by norm_num) (by norm_num) (by norm_num) (by norm_num) (by norm_num)
  have e13 : fmul (100 : ℚ) (100 : ℚ) = (10000 : ℚ) :=
    rnd_eval_pos 13 5497558138880000 (by norm_num) (by norm_num) (by norm_num) (by norm_num) (by norm_num)
  have e14 : mathRound (10000 : ℚ) = 10000 :=
    mathRound_eval 10000 (by norm_num) (by norm_num)
  have e15 : fdiv (((10000 : ℤ) : ℚ)) 100 = (100 : ℚ) :=
    rnd_eval_pos 6 7036874417766400 (by norm_num) (by norm_num) (by norm_num) (by norm_num) (by norm_num)
  rw [h]
  simp only [jsRound2]
  simp only [e1, e2, e3, e4, e5, e6, e7, e8, e9, e10, e11, e12, e13, e14, e15]

/-- C10, as stated, fails: for the ratings 1, 9, 2.25, 5 and 5, all in [1, 10], the
code returns the experience index 43.87, while `round2` of the exact value of the
formula, 43.875, is 43.88. -/
theorem experienceIndex_exact_counterexample :
    (calculateExperienceIndex
      (WorkValue.ExperienceCalculator.ofNumbers 1 9 (9 / 4) 5 5)).experienceIndex
      = some (lit 43.87) ∧
    WorkValue.round2 ((0.25 * 1 + 0.20 * 9 + 0.15 * (9 / 4) + 0.20 * 5 + 0.20 * 5) * 10)
      = 43.88 ∧
    lit 43.87 ≠ 43.88 := by
  have h1 : WorkValue.ExperienceCalculator.validateValue (.number 1) = 1 :=
    WorkValue.ExperienceCalculator.validateValue_of_mem (by norm_num) (by norm_num)
  have h9 : WorkValue.ExperienceCalculator.validateValue (.number 9) = 9 :=
    WorkValue.ExperienceCalculator.validateValue_of_mem (by norm_num) (by norm_num)
  have hq : WorkValue.ExperienceCalculator.validateValue (.number (9 / 4)) = 9 / 4 :=
    WorkValue.ExperienceCalculator.validateValue_of_mem (by norm_num) (by norm_num)
  have h5 : WorkValue.ExperienceCalculator.validateValue (.number 5) = 5 :=
    WorkValue.ExperienceCalculator.validateValue_of_mem (by norm_num) (by norm_num)

  have e1 : lit 0.25 = (1 / 4 : ℚ) :=
    rnd_eval_pos (-2) 4503599627370496 (by norm_num) (by norm_num) (by norm_num) (by norm_num) (by norm_num)
  have e2 : fmul (1 : ℚ) (1 / 4 : ℚ) = (1 / 4 : ℚ) :=
    rnd_eval_pos (-2) 4503599627370496 (by norm_num) (by norm_num) (by norm_num) (by norm_num) (by norm_num)
  have e3 : fadd (0 : ℚ) (1 / 4 : ℚ) = (1 / 4 : ℚ) :=
    rnd_eval_pos (-2) 4503599627370496 (by norm_num) (by norm_num) (by norm_num) (by norm_num) (by norm_num)
  have e4 : lit 0.20 = (3602879701896397 / 18014398509481984 : ℚ) :=
    rnd_eval_pos (-3) 7205759403792794 (by norm_num) (by norm_num) (by norm_num) (by norm_num) (by norm_num)
  have e5 : fmul (9 : ℚ) (3602879701896397 / 18014398509481984 : ℚ) = (8106479329266893 / 4503599627370496 : ℚ) :=
    rnd_eval_pos 0 8106479329266893 (by norm_num) (by norm_num) (by norm_num) (by norm_num) (by norm_num)
  have e6 : fadd (1 / 4 : ℚ) (8106479329266893 / 4503599627370496 : ℚ) = (2308094809027379 / 1125899906842624 : ℚ) :=
    rnd_eval_pos_tie 1 4616189618054758 (by norm_num) (by norm_num) (Or.inl (by norm_num)) (by norm_num) (by norm_num)
  have e7 : lit 0.15 = (5404319552844595 / 36028797018963968 : ℚ) :=
    rnd_eval_pos (-3) 5404319552844595 (by norm_num) (by norm_num) (by norm_num) (by norm_num) (by norm_num)
  have e8 : fmul (9 / 4 : ℚ) (5404319552844595 / 36028797018963968 : ℚ) = (6079859496950169 / 18014398509481984 : ℚ) :=
    rnd_eval_pos (-2) 6079859496950169 (by norm_num) (by norm_num) (by norm_num) (by norm_num) (by norm_num)
  have e9 : fadd (2308094809027379 / 1125899906842624 : ℚ) (6079859496950169 / 18014398509481984 : ℚ) = (5376172055173529 / 2251799813685248 : ℚ) :=
    rnd_eval_pos 1 5376172055173529 (by norm_num) (by norm_num) (by norm_num) (by norm_num) (by norm_num)
  have e10 : fmul (5 : ℚ) (3602879701896397 / 18014398509481984 : ℚ) = (1 : ℚ) :=
    rnd_eval_pos 0 4503599627370496 (by norm_num) (by norm_num) (by norm_num) (by norm_num) (by norm_num)
  have e11 : fadd (5376172055173529 / 2251799813685248 : ℚ) (1 : ℚ) = (7627971868858777 / 2251799813685248 : ℚ) :=
    rnd_eval_pos 1 7627971868858777 (by norm_num) (by norm_num) (by norm_num) (by norm_num) (by norm_num)
  have e12 : fadd (7627971868858777 / 2251799813685248 : ℚ) (1 : ℚ) = (1234971460318003 / 281474976710656 : ℚ) :=
    rnd_eval_pos_tie 2 4939885841272012 (by norm_num) (by norm_num) (Or.inl (by norm_num)) (by norm_num) (by norm_num)
  have e13 : fmul (1234971460318003 / 281474976710656 : ℚ) (10 : ℚ) = (6174857301590015 / 140737488355328 : ℚ) :=
    rnd_eval_pos 5 6174857301590015 (by norm_num) (by norm_num) (by norm_num) (by norm_num) (by norm_num)
  have e14 : fmul (6174857301590015 / 140737488355328 : ℚ) (100 : ℚ) = (4824107266867199 / 1099511627776 : ℚ) :=
    rnd_eval_pos 12 4824107266867199 (by norm_num) (by norm_num) (by norm_num) (by norm_num) (by norm_num)
  have e15 : mathRound (4824107266867199 / 1099511627776 : ℚ) = 4387 :=
    mathRound_eval 4387 (by norm_num) (by norm_num)
  have e16 : fdiv (((4387 : ℤ) : ℚ)) 100 = (6174153614148239 / 140737488355328 : ℚ) :=
    rnd_eval_pos 5 6174153614148239 (by norm_num) (by norm_num) (by norm_num) (by norm_num) (by norm_num)
  have e17 : lit 43.87 = (6174153614148239 / 140737488355328 : ℚ) :=
    rnd_eval_pos 5 6174153614148239 (by norm_num) (by norm_num) (by norm_num) (by norm_num) (by norm_num)
  refine ⟨?_, ?_, ?_⟩
  · rw [experienceIndex_of_unrounded, unroundedExperienceIndex_ofNumbers, h1, h9, hq, h5]
    simp only [Option.map_some', jsRound2]
    simp only [e1, e2, e3, e4, e5, e6, e7, e8, e9, e10, e11, e12, e13, e14, e15, e16, e17]
  · simp only [WorkValue.round2, mathRound]
    norm_num
  · rw [e17]
    norm_num

end ExperienceCalculator

end Js

end WorkValue

/-! ## Cost-benefit ratio on binary64 numbers -/

namespace WorkValue

namespace Js

namespace CostCalculator

theorem calculateCostBenefitRatio_of_ne_zero (income : ℚ) {cost : ℚ} (h : cost ≠ 0) :
    calculateCostBenefitRatio income cost = jsRound2 (fdiv income cost) := by
  unfold calculateCostBenefitRatio
  rw [if_neg h]

/-- C13, amended: `calculateCostBenefitRatio income 0` is 0 for every income, and for
a cost other than 0 the function returns `Math.round((income / cost) * 100) / 100`,
the quotient rounded to two decimals with every operation rounded to binary64. -/
theorem calculateCostBenefitRatio_binary64 (income cost : ℚ) :
    calculateCostBenefitRatio income 0 = 0 ∧
    (cost ≠ 0 → calculateCostBenefitRatio income cost = jsRound2 (fdiv income cost)) := by
  refine ⟨?_, calculateCostBenefitRatio_of_ne_zero income⟩
  unfold calculateCostBenefitRatio
  rw [if_pos rfl]

/-- C13, amended, at the income 23 and the cost 40: the function returns 0.57 (the
binary64 quotient times 100 is just below 57.5). -/
theorem calculateCostBenefitRatio_binary64_witness :
    calculateCostBenefitRatio 23 40 = jsRound2 (fdiv 23 40) ∧
    jsRound2 (fdiv 23 40) = lit 0.57 := by

  have e1 : fdiv (23 : ℚ) (40 : ℚ) = (2589569785738035 / 4503599627370496 : ℚ) :=
    rnd_eval_pos (-1) 5179139571476070 (by norm_num) (by norm_num) (by norm_num) (by norm_num) (by norm_num)
  have e2 : fmul (2589569785738035 / 4503599627370496 : ℚ) (100 : ℚ) = (8092405580431359 / 140737488355328 : ℚ) :=
    rnd_eval_pos 5 8092405580431359 (by norm_num) (by norm_num) (by norm_num) (by norm_num) (by norm_num)
  have e3 : mathRound (8092405580431359 / 140737488355328 : ℚ) = 57 :=
    mathRound_eval 57 (by norm_num) (by norm_num)
  have e4 : fdiv (((57 : ℤ) : ℚ)) 100 = (5134103575202365 / 9007199254740992 : ℚ) :=
    rnd_eval_pos (-1) 5134103575202365 (by norm_num) (by norm_num) (by norm_num) (by norm_num) (by norm_num)
  have e5 : lit 0.57 = (5134103575202365 / 9007199254740992 : ℚ) :=
    rnd_eval_pos (-1) 5134103575202365 (by norm_num) (by norm_num) (by norm_num) (by norm_num) (by norm_num)
  refine ⟨(calculateCostBenefitRatio_binary64 23 40).2 (by norm_num), ?_⟩
  simp only [jsRound2]
  simp only [e1, e2, e3, e4, e5]

/-- C13, as stated, fails: for the income 1 and the cost 3 the function returns
0.33, which is not the quotient 1 / 3 (nor its binary64 value). -/
theorem calculateCostBenefitRatio_quotient_counterexample :
    (3 : ℚ) ≠ 0 ∧
    calculateCostBenefitRatio 1 3 = lit 0.33 ∧
    lit 0.33 ≠ 1 / 3 ∧
    lit 0.33 ≠ fdiv 1 3 := by

  have e1 : fdiv (1 : ℚ) (3 : ℚ) = (6004799503160661 / 18014398509481984 : ℚ) :=
    rnd_eval_pos (-2) 6004799503160661 (by norm_num) (by norm_num) (by norm_num) (by norm_num) (by norm_num)
  have e2 : fmul (6004799503160661 / 18014398509481984 : ℚ) (100 : ℚ) = (2345624805922133 / 70368744177664 : ℚ) :=
    rnd_eval_pos 5 4691249611844266 (by norm_num) (by norm_num) (by norm_num) (by norm_num) (by norm_num)
  have e3 : mathRound (2345624805922133 / 70368744177664 : ℚ) = 33 :=
    mathRound_eval 33 (by norm_num) (by norm_num)
  have e4 : fdiv (((33 : ℤ) : ℚ)) 100 = (5944751508129055 / 18014398509481984 : ℚ) :=
    rnd_eval_pos (-2) 5944751508129055 (by norm_num) (by norm_num) (by norm_num) (by norm_num) (by norm_num)
  have e5 : lit 0.33 = (5944751508129055 / 18014398509481984 : ℚ) :=
    rnd_eval_pos (-2) 5944751508129055 (by norm_num) (by norm_num) (by norm_num) (by norm_num) (by norm_num)
  refine ⟨by norm_num, ?_, ?_, ?_⟩
  · rw [calculateCostBenefitRatio_of_ne_zero 1 (by norm_num)]
    simp only [jsRound2]
    simp only [e1, e2, e3, e4, e5]
  · rw [e5]
    norm_num
  · rw [e5, e1]
    norm_num

end CostCalculator

end Js

end WorkValue

/-! ## Education and school-rank lookups -/

namespace WorkValue

namespace Js

namespace IncomeCalculator

theorem educationFactor_number_of_lookup (data : WorkValue.IncomeCalculator.Input) {v : ℚ}
    (h : WorkValue.IncomeCalculator.educationFactors.lookup data.education = some v) :
    (calculateIncomeIndex data).educationFactor = .number (lit v) := by
  simp only [calculateIncomeIndex, getProperty_of_lookup h,
    orDefault_own (WorkValue.IncomeCalculator.educationFactors_ne_zero h)]

theorem schoolRankFactor_number_of_lookup (data : WorkValue.IncomeCalculator.Input) {v : ℚ}
    (h : WorkValue.IncomeCalculator.schoolRankFactors.lookup data.schoolRank = some v) :
    (calculateIncomeIndex data).schoolRankFactor = .number (lit v) := by
  simp only [calculateIncomeIndex, getProperty_of_lookup h,
    orDefault_own (WorkValue.IncomeCalculator.schoolRankFactors_ne_zero h)]

theorem educationFactor_of_unlisted (data : WorkValue.IncomeCalculator.Input)
    (h : data.education ∉ WorkValue.IncomeCalculator.educationFactors.map Prod.fst)
    (hp : data.education ∉ objectPrototypeNames) :
    (calculateIncomeIndex data).educationFactor = .number 1.0 := by
  simp only [calculateIncomeIndex, getProperty_undefined (lookup_none_of_not_key h) hp, orDefault]

theorem schoolRankFactor_of_unlisted (data : WorkValue.IncomeCalculator.Input)
    (h : data.schoolRank ∉ WorkValue.IncomeCalculator.schoolRankFactors.map Prod.fst)
    (hp : data.schoolRank ∉ objectPrototypeNames) :
    (calculateIncomeIndex data).schoolRankFactor = .number 1.0 := by
  simp only [calculateIncomeIndex, getProperty_undefined (lookup_none_of_not_key h) hp, orDefault]

theorem educationFactor_of_inherited (data : WorkValue.IncomeCalculator.Input)
    (hp : data.education ∈ objectPrototypeNames) :
    (calculateIncomeIndex data).educationFactor = .inherited ∧
    (calculateIncomeIndex data).incomeIndex = none := by
  have hk : ∀ name ∈ objectPrototypeNames,
      name ∉ WorkValue.IncomeCalculator.educationFactors.map Prod.fst := by decide
  have hg := getProperty_inherited (lookup_none_of_not_key (hk _ hp)) hp
  constructor
  · simp only [calculateIncomeIndex, hg, orDefault]
  · simp only [calculateIncomeIndex, hg, orDefault, timesFactor_inherited, timesFactor_none,
      Option.map_none']

theorem schoolRankFactor_of_inherited (data : WorkValue.IncomeCalculator.Input)
    (hp : data.schoolRank ∈ objectPrototypeNames) :
    (calculateIncomeIndex data).schoolRankFactor = .inherited ∧
    (calculateIncomeIndex data).incomeIndex = none := by
  have hk : ∀ name ∈ objectPrototypeNames,
      name ∉ WorkValue.IncomeCalculator.schoolRankFactors.map Prod.fst := by decide
  have hg := getProperty_inherited (lookup_none_of_not_key (hk _ hp)) hp
  constructor
  · simp only [calculateIncomeIndex, hg, orDefault]
  · simp only [calculateIncomeIndex, hg, orDefault, timesFactor_inherited, Option.map_none']

/-- C18 at the education `toString`: the string is outside 专科, 本科, 硕士 and 博士, and
`calculateIncomeIndex` reports for it not the education factor 1.0 but the property
`educationFactors` inherits under that name, and the income index `NaN`; a school
rank named like an inherited property fares the same.  For every other string the
lookups do what the claim says: a listed key yields the binary64 value of its table
entry (1.2, 1.0, 0.8, 0.6 and 1.1, 1.0, 0.9, 0.8), a string outside the table
yields 1.0. -/
theorem education_schoolRank_inherited :
    inheritedEducationInput.education ∉ ["专科", "本科", "硕士", "博士"] ∧
    (calculateIncomeIndex inheritedEducationInput).educationFactor = .inherited ∧
    (calculateIncomeIndex inheritedEducationInput).educationFactor ≠ .number 1.0 ∧
    (calculateIncomeIndex inheritedEducationInput).incomeIndex = none ∧
    (∀ data : WorkValue.IncomeCalculator.Input, data.schoolRank ∈ objectPrototypeNames →
      (calculateIncomeIndex data).schoolRankFactor = .inherited ∧
      (calculateIncomeIndex data).incomeIndex = none) ∧
    WorkValue.IncomeCalculator.educationFactors
      = [("专科", 1.2), ("本科", 1.0), ("硕士", 0.8), ("博士", 0.6)] ∧
    WorkValue.IncomeCalculator.schoolRankFactors
      = [("普通院校", 1.1), ("211院校", 1.0), ("985院校", 0.9), ("顶尖院校", 0.8)] ∧
    (∀ (data : WorkValue.IncomeCalculator.Input) (v : ℚ),
      (data.education, v) ∈ WorkValue.IncomeCalculator.educationFactors →
      (calculateIncomeIndex data).educationFactor = .number (lit v)) ∧
    (∀ (data : WorkValue.IncomeCalculator.Input) (v : ℚ),
      (data.schoolRank, v) ∈ WorkValue.IncomeCalculator.schoolRankFactors →
      (calculateIncomeIndex data).schoolRankFactor = .number (lit v)) ∧
    (∀ data : WorkValue.IncomeCalculator.Input,
      data.education ∉ ["专科", "本科", "硕士", "博士"] →
      data.education ∉ objectPrototypeNames →
      (calculateIncomeIndex data).educationFactor = .number 1.0) ∧
    (∀ data : WorkValue.IncomeCalculator.Input,
      data.schoolRank ∉ ["普通院校", "211院校", "985院校", "顶尖院校"] →
      data.schoolRank ∉ objectPrototypeNames →
      (calculateIncomeIndex data).schoolRankFactor = .number 1.0) := by
  have hp : inheritedEducationInput.education ∈ objectPrototypeNames := by decide
  obtain ⟨h1, h2⟩ := educationFactor_of_inherited inheritedEducationInput hp
  refine ⟨by decide, h1, ?_, h2, fun data h => schoolRankFactor_of_inherited data h, rfl, rfl,
    ?_, ?_, fun data h hq => educationFactor_of_unlisted data h hq,
    fun data h hq => schoolRankFactor_of_unlisted data h hq⟩
  · rw [h1]
    exact Factor.noConfusion
  · intro data v hv
    apply educationFactor_number_of_lookup
    simp only [WorkValue.IncomeCalculator.educationFactors, List.mem_cons, Prod.mk.injEq,
      List.mem_singleton, List.not_mem_nil, or_false] at hv
    rcases hv with ⟨h, rfl⟩ | ⟨h, rfl⟩ | ⟨h, rfl⟩ | ⟨h, rfl⟩ <;> rw [h] <;> rfl
  · intro data v hv
    apply schoolRankFactor_number_of_lookup
    simp only [WorkValue.IncomeCalculator.schoolRankFactors, List.mem_cons, Prod.mk.injEq,
      List.mem_singleton, List.not_mem_nil, or_false] at hv
    rcases hv with ⟨h, rfl⟩ | ⟨h, rfl⟩ | ⟨h, rfl⟩ | ⟨h, rfl⟩ <;> rw [h] <;> rfl

end IncomeCalculator

end Js

end WorkValue

/-! ## The cascade of roundings in `calculateValue` -/

namespace WorkValue

namespace Js

namespace IncomeCalculator

theorem unroundedIncomeIndex_of_lookups (data : WorkValue.IncomeCalculator.Input)
    (cityFactor educationFactor schoolRankFactor : ℚ)
    (hc : WorkValue.IncomeCalculator.cityFactors.lookup data.city = some cityFactor)
    (he : WorkValue.IncomeCalculator.educationFactors.lookup data.education
      = some educationFactor)
    (hs : WorkValue.IncomeCalculator.schoolRankFactors.lookup data.schoolRank
      = some schoolRankFactor) :
    unroundedIncomeIndex data =
      some (fmul (fmul (fmul
        (fmul (fdiv
          (fadd (fadd data.afterTax (fmul (fmul data.insuranceBase data.fundRate) (lit 0.02)))
            data.otherBenefits) 5000) 100)
        (lit cityFactor)) (lit educationFactor)) (lit schoolRankFactor)) := by
  obtain ⟨h1, h2, h3⟩ := factors_of_lookups data cityFactor educationFactor schoolRankFactor
    hc he hs
  simp only [unroundedIncomeIndex, calculateHousingFund, h1, h2, h3, timesFactor_number]

end IncomeCalculator

namespace CostCalculator

theorem unroundedCostIndex_of_lookup (data : WorkValue.CostCalculator.Input) {v : ℚ}
    (h : WorkValue.CostCalculator.cityCostFactors.lookup data.city = some v) :
    unroundedCostIndex data =
      some (fmul (fmul (fdiv (fadd (fadd data.rent data.food) data.transport) 4000) 100)
        (lit v)) := by
  simp only [unroundedCostIndex, getCityCostFactor_number_of_lookup h, timesFactor_number]

end CostCalculator

namespace WorkValueCalculator

theorem calculateValue_fields (formData : WorkValue.WorkValueCalculator.FormData)
    (hvalid : WorkValue.WorkValueCalculator.validateFormData formData = true) :
    ∃ r : ValueResult, calculateValue formData = some r ∧
      r.incomeResult.incomeIndex
        = (IncomeCalculator.unroundedIncomeIndex
            (WorkValue.WorkValueCalculator.incomeInput formData)).map jsRound2 ∧
      r.workResult.workIndex
        = max 1 (jsRound2
            (WorkCalculator.unroundedWorkIndex
              (WorkValue.WorkValueCalculator.workInput formData))) ∧
      r.costResult.costIndex
        = (CostCalculator.unroundedCostIndex
            (WorkValue.WorkValueCalculator.costInput formData)).map jsRound2 ∧
      r.experienceResult.experienceIndex
        = (ExperienceCalculator.unroundedExperienceIndex
            (WorkValue.ExperienceCalculator.ofNumbers formData.housingSatisfaction
              formData.consumptionSatisfaction formData.transportSatisfaction
              formData.lifeAtmosphere formData.workAtmosphere)).map jsRound2 ∧
      r.totalScore.totalScore
        = (lift2 max (some 0) (lift2 min (some 100)
            (weightedSum
              { income := r.incomeResult.incomeIndex
                work := some r.workResult.workIndex
                cost := r.costResult.costIndex
                experience := r.experienceResult.experienceIndex }))).map jsRound2 := by
  unfold calculateValue
  rw [if_neg (by rw [hvalid]; exact Bool.noConfusion)]
  exact ⟨_, rfl, rfl, rfl, rfl, rfl, rfl⟩

/-- C20, amended: for every form record that passes validation, `calculateValue`
rounds in a cascade: each of the four index fields is `Math.round(v * 100) / 100` of
its unrounded index `v` (the work index with its floor of 1 on top), and the total
score is `Math.round(s * 100) / 100` of the clamped weighted sum `s` of those four
already rounded fields, not of the unrounded indices; every operation is rounded to
binary64. -/
theorem calculateValue_cascaded_binary64 (formData : WorkValue.WorkValueCalculator.FormData)
    (hvalid : WorkValue.WorkValueCalculator.validateFormData formData = true) :
    ∃ r : ValueResult, calculateValue formData = some r ∧
      r.incomeResult.incomeIndex
        = (IncomeCalculator.unroundedIncomeIndex
            (WorkValue.WorkValueCalculator.incomeInput formData)).map jsRound2 ∧
      r.workResult.workIndex
        = max 1 (jsRound2
            (WorkCalculator.unroundedWorkIndex
              (WorkValue.WorkValueCalculator.workInput formData))) ∧
      r.costResult.costIndex
        = (CostCalculator.unroundedCostIndex
            (WorkValue.WorkValueCalculator.costInput formData)).map jsRound2 ∧
      r.experienceResult.experienceIndex
        = (ExperienceCalculator.unroundedExperienceIndex
            (WorkValue.ExperienceCalculator.ofNumbers formData.housingSatisfaction
              formData.consumptionSatisfaction formData.transportSatisfaction
              formData.lifeAtmosphere formData.workAtmosphere)).map jsRound2 ∧
      r.totalScore.totalScore
        = (lift2 max (some 0) (lift2 min (some 100)
            (weightedSum
              { income := r.incomeResult.incomeIndex
                work := some r.workResult.workIndex
                cost := r.costResult.costIndex
                experience := r.experienceResult.experienceIndex }))).map jsRound2 := by
  unfold calculateValue
  rw [if_neg (by rw [hvalid]; exact Bool.noConfusion)]
  exact ⟨_, rfl, rfl, rfl, rfl, rfl, rfl⟩

/-- C20, amended, at the form record `guangzhouForm` (广州, after-tax salary 3000,
insurance base 5000, fund rate 0.05): it passes validation, the income index field
is 51.08 and the total score 56.73. -/
theorem calculateValue_cascaded_binary64_witness :
    WorkValue.WorkValueCalculator.validateFormData guangzhouForm = true ∧
    ∃ r : ValueResult, calculateValue guangzhouForm = some r ∧
      r.incomeResult.incomeIndex = some (lit 51.08) ∧
      r.totalScore.totalScore = some (lit 56.73) := by

  have e1 : lit 0.02 = (5764607523034235 / 288230376151711744 : ℚ) :=
    rnd_eval_pos (-6) 5764607523034235 (by norm_num) (by norm_num) (by norm_num) (by norm_num) (by norm_num)
  have e2 : lit 0.05 = (3602879701896397 / 72057594037927936 : ℚ) :=
    rnd_eval_pos (-5) 7205759403792794 (by norm_num) (by norm_num) (by norm_num) (by norm_num) (by norm_num)
  have e3 : fmul (5000 : ℚ) (3602879701896397 / 72057594037927936 : ℚ) = (250 : ℚ) :=
    rnd_eval_pos 7 8796093022208000 (by norm_num) (by norm_num) (by norm_num) (by norm_num) (by norm_num)
  have e4 : fmul (250 : ℚ) (5764607523034235 / 288230376151711744 : ℚ) = (5 : ℚ) :=
    rnd_eval_pos 2 5629499534213120 (by norm_num) (by norm_num) (by norm_num) (by norm_num) (by norm_num)
  have e5 : fadd (3000 : ℚ) (5 : ℚ) = (3005 : ℚ) :=
    rnd_eval_pos 11 6608064882933760 (by norm_num) (by norm_num) (by norm_num) (by norm_num) (by norm_num)
  have e6 : fadd (3005 : ℚ) (0 : ℚ) = (3005 : ℚ) :=
    rnd_eval_pos 11 6608064882933760 (by norm_num) (by norm_num) (by norm_num) (by norm_num) (by norm_num)
  have e7 : fdiv (3005 : ℚ) (5000 : ℚ) = (676665844012417 / 1125899906842624 : ℚ) :=
    rnd_eval_pos (-1) 5413326752099336 (by norm_num) (by norm_num) (by norm_num) (by norm_num) (by norm_num)
  have e8 : fmul (676665844012417 / 1125899906842624 : ℚ) (100 : ℚ) = (2114580762538803 / 35184372088832 : ℚ) :=
    rnd_eval_pos_tie 5 8458323050155212 (by norm_num) (by norm_num) (Or.inl (by norm_num)) (by norm_num) (by norm_num)
  have e9 : lit 0.85 = (7656119366529843 / 9007199254740992 : ℚ) :=
    rnd_eval_pos (-1) 7656119366529843 (by norm_num) (by norm_num) (by norm_num) (by norm_num) (by norm_num)
  have e10 : fmul (2114580762538803 / 35184372088832 : ℚ) (7656119366529843 / 9007199254740992 : ℚ) = (3594787296315965 / 70368744177664 : ℚ) :=
    rnd_eval_pos 5 7189574592631930 (by norm_num) (by norm_num) (by norm_num) (by norm_num) (by norm_num)
  have e11 : lit 1.0 = (1 : ℚ) :=
    rnd_eval_pos 0 4503599627370496 (by norm_num) (by norm_num) (by norm_num) (by norm_num) (by norm_num)
  have e12 : fmul (3594787296315965 / 70368744177664 : ℚ) (1 : ℚ) = (3594787296315965 / 70368744177664 : ℚ) :=
    rnd_eval_pos 5 7189574592631930 (by norm_num) (by norm_num) (by norm_num) (by norm_num) (by norm_num)
  have e13 : fsub (18 : ℚ) (9 : ℚ) = (9 : ℚ) :=
    rnd_eval_pos 3 5066549580791808 (by norm_num) (by norm_num) (by norm_num) (by norm_num) (by norm_num)
  have e14 : fmul (60 : ℚ) (2 : ℚ) = (120 : ℚ) :=
    rnd_eval_pos 6 8444249301319680 (by norm_num) (by norm_num) (by norm_num) (by norm_num) (by norm_num)
  have e15 : fdiv (120 : ℚ) (60 : ℚ) = (2 : ℚ) :=
    rnd_eval_pos 1 4503599627370496 (by norm_num) (by norm_num) (by norm_num) (by norm_num) (by norm_num)
  have e16 : fadd (9 : ℚ) (2 : ℚ) = (11 : ℚ) :=
    rnd_eval_pos 3 6192449487634432 (by norm_num) (by norm_num) (by norm_num) (by norm_num) (by norm_num)
  have e17 : fdiv (11 : ℚ) (9 : ℚ) = (1376099886140985 / 1125899906842624 : ℚ) :=
    rnd_eval_pos 0 5504399544563940 (by norm_num) (by norm_num) (by norm_num) (by norm_num) (by norm_num)
  have e18 : fmul (1376099886140985 / 1125899906842624 : ℚ) (30 : ℚ) = (2580187286514347 / 70368744177664 : ℚ) :=
    rnd_eval_pos 5 5160374573028694 (by norm_num) (by norm_num) (by norm_num) (by norm_num) (by norm_num)
  have e19 : fdiv (3 : ℚ) (3 : ℚ) = (1 : ℚ) :=
    rnd_eval_pos 0 4503599627370496 (by norm_num) (by norm_num) (by norm_num) (by norm_num) (by norm_num)
  have e20 : fmul (1 : ℚ) (20 : ℚ) = (20 : ℚ) :=
    rnd_eval_pos 4 5629499534213120 (by norm_num) (by norm_num) (by norm_num) (by norm_num) (by norm_num)
  have e21 : fadd (0 : ℚ) (0 : ℚ) = 0 :=
    (by unfold fadd; norm_num [rnd_zero])
  have e22 : lit 0.1 = (3602879701896397 / 36028797018963968 : ℚ) :=
    rnd_eval_pos (-4) 7205759403792794 (by norm_num) (by norm_num) (by norm_num) (by norm_num) (by norm_num)
  have e23 : max (3602879701896397 / 36028797018963968 : ℚ) (0 : ℚ) = (3602879701896397 / 36028797018963968 : ℚ) :=
    max_eq_left (by norm_num)
  have e24 : fdiv (0 : ℚ) (3602879701896397 / 36028797018963968 : ℚ) = 0 :=
    (by unfold fdiv; norm_num [rnd_zero])
  have e25 : fmul (0 : ℚ) (10 : ℚ) = 0 :=
    (by unfold fmul; norm_num [rnd_zero])
  have e26 : fdiv (5 : ℚ) (5 : ℚ) = (1 : ℚ) :=
    rnd_eval_pos 0 4503599627370496 (by norm_num) (by norm_num) (by norm_num) (by norm_num) (by norm_num)
  have e27 : fsub (25 : ℚ) (25 : ℚ) = 0 :=
    (by unfold fsub; norm_num [rnd_zero])
  have e28 : fmul (0 : ℚ) (5764607523034235 / 288230376151711744 : ℚ) = 0 :=
    (by unfold fmul; norm_num [rnd_zero])
  have e29 : fadd (1 : ℚ) (0 : ℚ) = (1 : ℚ) :=
    rnd_eval_pos 0 4503599627370496 (by norm_num) (by norm_num) (by norm_num) (by norm_num) (by norm_num)
  have e30 : fadd (2580187286514347 / 70368744177664 : ℚ) (20 : ℚ) = (3987562170067627 / 70368744177664 : ℚ) :=
    rnd_eval_pos 5 7975124340135254 (by norm_num) (by norm_num) (by norm_num) (by norm_num) (by norm_num)
  have e31 : fadd (3987562170067627 / 70368744177664 : ℚ) (0 : ℚ) = (3987562170067627 / 70368744177664 : ℚ) :=
    rnd_eval_pos 5 7975124340135254 (by norm_num) (by norm_num) (by norm_num) (by norm_num) (by norm_num)
  have e32 : fmul (3987562170067627 / 70368744177664 : ℚ) (1 : ℚ) = (3987562170067627 / 70368744177664 : ℚ) :=
    rnd_eval_pos 5 7975124340135254 (by norm_num) (by norm_num) (by norm_num) (by norm_num) (by norm_num)
  have e33 : fdiv (3987562170067627 / 70368744177664 : ℚ) (10 : ℚ) = (6380099472108203 / 1125899906842624 : ℚ) :=
    rnd_eval_pos 2 6380099472108203 (by norm_num) (by norm_num) (by norm_num) (by norm_num) (by norm_num)
  have e34 : fadd (2000 : ℚ) (1500 : ℚ) = (3500 : ℚ) :=
    rnd_eval_pos 11 7696581394432000 (by norm_num) (by norm_num) (by norm_num) (by norm_num) (by norm_num)
  have e35 : fadd (3500 : ℚ) (500 : ℚ) = (4000 : ℚ) :=
    rnd_eval_pos 11 8796093022208000 (by norm_num) (by norm_num) (by norm_num) (by norm_num) (by norm_num)
  have e36 : fdiv (4000 : ℚ) (4000 : ℚ) = (1 : ℚ) :=
    rnd_eval_pos 0 4503599627370496 (by norm_num) (by norm_num) (by norm_num) (by norm_num) (by norm_num)
  have e37 : fmul (1 : ℚ) (100 : ℚ) = (100 : ℚ) :=
    rnd_eval_pos 6 7036874417766400 (by norm_num) (by norm_num) (by norm_num) (by norm_num) (by norm_num)
  have e38 : fmul (100 : ℚ) (1 : ℚ) = (100 : ℚ) :=
    rnd_eval_pos 6 7036874417766400 (by norm_num) (by norm_num) (by norm_num) (by norm_num) (by norm_num)
  have e39 : lit 0.25 = (1 / 4 : ℚ) :=
    rnd_eval_pos (-2) 4503599627370496 (by norm_num) (by norm_num) (by norm_num) (by norm_num) (by norm_num)
  have e40 : fmul (5 : ℚ) (1 / 4 : ℚ) = (5 / 4 : ℚ) :=
    rnd_eval_pos 0 5629499534213120 (by norm_num) (by norm_num) (by norm_num) (by norm_num) (by norm_num)
  have e41 : fadd (0 : ℚ) (5 / 4 : ℚ) = (5 / 4 : ℚ) :=
    rnd_eval_pos 0 5629499534213120 (by norm_num) (by norm_num) (by norm_num) (by norm_num) (by norm_num)
  have e42 : lit 0.20 = (3602879701896397 / 18014398509481984 : ℚ) :=
    rnd_eval_pos (-3) 7205759403792794 (by norm_num) (by norm_num) (by norm_num) (by norm_num) (by norm_num)
  have e43 : fmul (5 : ℚ) (3602879701896397 / 18014398509481984 : ℚ) = (1 : ℚ) :=
    rnd_eval_pos 0 4503599627370496 (by norm_num) (by norm_num) (by norm_num) (by norm_num) (by norm_num)
  have e44 : fadd (5 / 4 : ℚ) (1 : ℚ) = (9 / 4 : ℚ) :=
    rnd_eval_pos 1 5066549580791808 (by norm_num) (by norm_num) (by norm_num) (by norm_num) (by norm_num)
  have e45 : lit 0.15 = (5404319552844595 / 36028797018963968 : ℚ) :=
    rnd_eval_pos (-3) 5404319552844595 (by norm_num) (by norm_num) (by norm_num) (by norm_num) (by norm_num)
  have e46 : fmul (5 : ℚ) (5404319552844595 / 36028797018963968 : ℚ) = (3 / 4 : ℚ) :=
    rnd_eval_pos (-1) 6755399441055744 (by norm_num) (by norm_num) (by norm_num) (by norm_num) (by norm_num)
  have e47 : fadd (9 / 4 : ℚ) (3 / 4 : ℚ) = (3 : ℚ) :=
    rnd_eval_pos 1 6755399441055744 (by norm_num) (by norm_num) (by norm_num) (by norm_num) (by norm_num)
  have e48 : fadd (3 : ℚ) (1 : ℚ) = (4 : ℚ) :=
    rnd_eval_pos 2 4503599627370496 (by norm_num) (by norm_num) (by norm_num) (by norm_num) (by norm_num)
  have e49 : fadd (4 : ℚ) (1 : ℚ) = (5 : ℚ) :=
    rnd_eval_pos 2 5629499534213120 (by norm_num) (by norm_num) (by norm_num) (by norm_num) (by norm_num)
  have e50 : fmul (5 : ℚ) (10 : ℚ) = (50 : ℚ) :=
    rnd_eval_pos 5 7036874417766400 (by norm_num) (by norm_num) (by norm_num) (by norm_num) (by norm_num)
  have e51 : fmul (3594787296315965 / 70368744177664 : ℚ) (100 : ℚ) = (5616855150493695 / 1099511627776 : ℚ) :=
    rnd_eval_pos 12 5616855150493695 (by norm_num) (by norm_num) (by norm_num) (by norm_num) (by norm_num)
  have e52 : mathRound (5616855150493695 / 1099511627776 : ℚ) = 5108 :=
    mathRound_eval 5108 (by norm_num) (by norm_num)
  have e53 : fdiv (((5108 : ℤ) : ℚ)) 100 = (3594435452595077 / 70368744177664 : ℚ) :=
    rnd_eval_pos 5 7188870905190154 (by norm_num) (by norm_num) (by norm_num) (by norm_num) (by norm_num)
  have e54 : fmul (6380099472108203 / 1125899906842624 : ℚ) (100 : ℚ) = (2492226356292267 / 4398046511104 : ℚ) :=
    rnd_eval_pos 9 4984452712584534 (by norm_num) (by norm_num) (by norm_num) (by norm_num) (by norm_num)
  have e55 : mathRound (2492226356292267 / 4398046511104 : ℚ) = 567 :=
    mathRound_eval 567 (by norm_num) (by norm_num)
  have e56 : fdiv (((567 : ℤ) : ℚ)) 100 = (3191926235898839 / 562949953421312 : ℚ) :=
    rnd_eval_pos 2 6383852471797678 (by norm_num) (by norm_num) (by norm_num) (by norm_num) (by norm_num)
  have e57 : max (1 : ℚ) (3191926235898839 / 562949953421312 : ℚ) = (3191926235898839 / 562949953421312 : ℚ) :=
    max_eq_right (by norm_num)
  have e58 : fmul (100 : ℚ) (100 : ℚ) = (10000 : ℚ) :=
    rnd_eval_pos 13 5497558138880000 (by norm_num) (by norm_num) (by norm_num) (by norm_num) (by norm_num)
  have e59 : mathRound (10000 : ℚ) = 10000 :=
    mathRound_eval 10000 (by norm_num) (by norm_num)
  have e60 : fdiv (((10000 : ℤ) : ℚ)) 100 = (100 : ℚ) :=
    rnd_eval_pos 6 7036874417766400 (by norm_num) (by norm_num) (by norm_num) (by norm_num) (by norm_num)
  have e61 : fmul (50 : ℚ) (100 : ℚ) = (5000 : ℚ) :=
    rnd_eval_pos 12 5497558138880000 (by norm_num) (by norm_num) (by norm_num) (by norm_num) (by norm_num)
  have e62 : mathRound (5000 : ℚ) = 5000 :=
    mathRound_eval 5000 (by norm_num) (by norm_num)
  have e63 : fdiv (((5000 : ℤ) : ℚ)) 100 = (50 : ℚ) :=
    rnd_eval_pos 5 7036874417766400 (by norm_num) (by norm_num) (by norm_num) (by norm_num) (by norm_num)
  have e64 : lit 0.60 = (5404319552844595 / 9007199254740992 : ℚ) :=
    rnd_eval_pos (-1) 5404319552844595 (by norm_num) (by norm_num) (by norm_num) (by norm_num) (by norm_num)
  have e65 : fmul (3594435452595077 / 70368744177664 : ℚ) (5404319552844595 / 9007199254740992 : ℚ) = (1078330635778523 / 35184372088832 : ℚ) :=
    rnd_eval_pos 4 8626645086228184 (by norm_num) (by norm_num) (by norm_num) (by norm_num) (by norm_num)
  have e66 : fadd (0 : ℚ) (1078330635778523 / 35184372088832 : ℚ) = (1078330635778523 / 35184372088832 : ℚ) :=
    rnd_eval_pos 4 8626645086228184 (by norm_num) (by norm_num) (by norm_num) (by norm_num) (by norm_num)
  have e67 : fsub (100 : ℚ) (3191926235898839 / 562949953421312 : ℚ) = (6637883638279045 / 70368744177664 : ℚ) :=
    rnd_eval_pos 6 6637883638279045 (by norm_num) (by norm_num) (by norm_num) (by norm_num) (by norm_num)
  have e68 : fmul (6637883638279045 / 70368744177664 : ℚ) (1 / 4 : ℚ) = (6637883638279045 / 281474976710656 : ℚ) :=
    rnd_eval_pos 4 6637883638279045 (by norm_num) (by norm_num) (by norm_num) (by norm_num) (by norm_num)
  have e69 : fadd (1078330635778523 / 35184372088832 : ℚ) (6637883638279045 / 281474976710656 : ℚ) = (3816132181126807 / 70368744177664 : ℚ) :=
    rnd_eval_pos_tie 5 7632264362253614 (by norm_num) (by norm_num) (Or.inl (by norm_num)) (by norm_num) (by norm_num)
  have e70 : fsub (100 : ℚ) (100 : ℚ) = 0 :=
    (by unfold fsub; norm_num [rnd_zero])
  have e71 : lit 0.10 = (3602879701896397 / 36028797018963968 : ℚ) :=
    rnd_eval_pos (-4) 7205759403792794 (by norm_num) (by norm_num) (by norm_num) (by norm_num) (by norm_num)
  have e72 : fmul (0 : ℚ) (3602879701896397 / 36028797018963968 : ℚ) = 0 :=
    (by unfold fmul; norm_num [rnd_zero])
  have e73 : fadd (3816132181126807 / 70368744177664 : ℚ) (0 : ℚ) = (3816132181126807 / 70368744177664 : ℚ) :=
    rnd_eval_pos 5 7632264362253614 (by norm_num) (by norm_num) (by norm_num) (by norm_num) (by norm_num)
  have e74 : fmul (50 : ℚ) (3602879701896397 / 72057594037927936 : ℚ) = (5 / 2 : ℚ) :=
    rnd_eval_pos 1 5629499534213120 (by norm_num) (by norm_num) (by norm_num) (by norm_num) (by norm_num)
  have e75 : fadd (3816132181126807 / 70368744177664 : ℚ) (5 / 2 : ℚ) = (3992054041570967 / 70368744177664 : ℚ) :=
    rnd_eval_pos 5 7984108083141934 (by norm_num) (by norm_num) (by norm_num) (by norm_num) (by norm_num)
  have e76 : min (100 : ℚ) (3992054041570967 / 70368744177664 : ℚ) = (3992054041570967 / 70368744177664 : ℚ) :=
    min_eq_right (by norm_num)
  have e77 : max (0 : ℚ) (3992054041570967 / 70368744177664 : ℚ) = (3992054041570967 / 70368744177664 : ℚ) :=
    max_eq_right (by norm_num)
  have e78 : fmul (3992054041570967 / 70368744177664 : ℚ) (100 : ℚ) = (1559396109988659 / 274877906944 : ℚ) :=
    rnd_eval_pos 12 6237584439954636 (by norm_num) (by norm_num) (by norm_num) (by norm_num) (by norm_num)
  have e79 : mathRound (1559396109988659 / 274877906944 : ℚ) = 5673 :=
    mathRound_eval 5673 (by norm_num) (by norm_num)
  have e80 : fdiv (((5673 : ℤ) : ℚ)) 100 = (7984037714397757 / 140737488355328 : ℚ) :=
    rnd_eval_pos 5 7984037714397757 (by norm_num) (by norm_num) (by norm_num) (by norm_num) (by norm_num)
  have e81 : max (1 : ℚ) (6380099472108203 / 1125899906842624 : ℚ) = (6380099472108203 / 1125899906842624 : ℚ) :=
    max_eq_right (by norm_num)
  have e82 : fmul (3594787296315965 / 70368744177664 : ℚ) (5404319552844595 / 9007199254740992 : ℚ) = (2156872377789579 / 70368744177664 : ℚ) :=
    rnd_eval_pos 4 8627489511158316 (by norm_num) (by norm_num) (by norm_num) (by norm_num) (by norm_num)
  have e83 : fadd (0 : ℚ) (2156872377789579 / 70368744177664 : ℚ) = (2156872377789579 / 70368744177664 : ℚ) :=
    rnd_eval_pos 4 8627489511158316 (by norm_num) (by norm_num) (by norm_num) (by norm_num) (by norm_num)
  have e84 : fsub (100 : ℚ) (6380099472108203 / 1125899906842624 : ℚ) = (6638118200759637 / 70368744177664 : ℚ) :=
    rnd_eval_pos 6 6638118200759637 (by norm_num) (by norm_num) (by norm_num) (by norm_num) (by norm_num)
  have e85 : fmul (6638118200759637 / 70368744177664 : ℚ) (1 / 4 : ℚ) = (6638118200759637 / 281474976710656 : ℚ) :=
    rnd_eval_pos 4 6638118200759637 (by norm_num) (by norm_num) (by norm_num) (by norm_num) (by norm_num)
  have e86 : fadd (2156872377789579 / 70368744177664 : ℚ) (6638118200759637 / 281474976710656 : ℚ) = (119262560249359 / 2199023255552 : ℚ) :=
    rnd_eval_pos_tie 5 7632803855958976 (by norm_num) (by norm_num) (Or.inl (by norm_num)) (by norm_num) (by norm_num)
  have e87 : fadd (119262560249359 / 2199023255552 : ℚ) (0 : ℚ) = (119262560249359 / 2199023255552 : ℚ) :=
    rnd_eval_pos 5 7632803855958976 (by norm_num) (by norm_num) (by norm_num) (by norm_num) (by norm_num)
  have e88 : fadd (119262560249359 / 2199023255552 : ℚ) (5 / 2 : ℚ) = (124760118388239 / 2199023255552 : ℚ) :=
    rnd_eval_pos 5 7984647576847296 (by norm_num) (by norm_num) (by norm_num) (by norm_num) (by norm_num)
  have e89 : min (100 : ℚ) (124760118388239 / 2199023255552 : ℚ) = (124760118388239 / 2199023255552 : ℚ) :=
    min_eq_right (by norm_num)
  have e90 : max (0 : ℚ) (124760118388239 / 2199023255552 : ℚ) = (124760118388239 / 2199023255552 : ℚ) :=
    max_eq_right (by norm_num)
  have e91 : fmul (124760118388239 / 2199023255552 : ℚ) (100 : ℚ) = (3119002959705975 / 549755813888 : ℚ) :=
    rnd_eval_pos 12 6238005919411950 (by norm_num) (by norm_num) (by norm_num) (by norm_num) (by norm_num)
  have e92 : mathRound (3119002959705975 / 549755813888 : ℚ) = 5673 :=
    mathRound_eval 5673 (by norm_num) (by norm_num)
  have e93 : lit 51.08 = (3594435452595077 / 70368744177664 : ℚ) :=
    rnd_eval_pos 5 7188870905190154 (by norm_num) (by norm_num) (by norm_num) (by norm_num) (by norm_num)
  have e94 : lit 56.73 = (7984037714397757 / 140737488355328 : ℚ) :=
    rnd_eval_pos 5 7984037714397757 (by norm_num) (by norm_num) (by norm_num) (by norm_num) (by norm_num)
  have hvalid : WorkValue.WorkValueCalculator.validateFormData guangzhouForm = true := by
    simp only [WorkValue.WorkValueCalculator.validateFormData, guangzhouForm,
      WorkValue.WorkValueCalculator.cascadeForm]
    norm_num
    decide
  have h5 : WorkValue.ExperienceCalculator.validateValue (.number 5) = 5 :=
    WorkValue.ExperienceCalculator.validateValue_of_mem (by norm_num) (by norm_num)
  have hUI : IncomeCalculator.unroundedIncomeIndex
      (WorkValue.WorkValueCalculator.incomeInput guangzhouForm) = some (3594787296315965 / 70368744177664 : ℚ) := by
    rw [IncomeCalculator.unroundedIncomeIndex_of_lookups
      (WorkValue.WorkValueCalculator.incomeInput guangzhouForm) 0.85 1.0 1.0 rfl rfl rfl]
    simp only [WorkValue.WorkValueCalculator.incomeInput, guangzhouForm,
      WorkValue.WorkValueCalculator.cascadeForm]
    simp only [e1, e2, e3, e4, e5, e6, e7, e8, e9, e10, e11, e12, e13, e14, e15, e16, e17, e18, e19, e20, e21, e22, e23, e24, e25, e26, e27, e28, e29, e30, e31, e32, e33, e34, e35, e36, e37, e38, e39, e40, e41, e42, e43, e44, e45, e46, e47, e48, e49, e50, e51, e52, e53, e54, e55, e56, e57, e58, e59, e60, e61, e62, e63, e64, e65, e66, e67, e68, e69, e70, e71, e72, e73, e74, e75, e76, e77, e78, e79, e80, e81, e82, e83, e84, e85, e86, e87, e88, e89, e90, e91, e92, e93, e94]
  have hUW : WorkCalculator.unroundedWorkIndex
      (WorkValue.WorkValueCalculator.workInput guangzhouForm) = (6380099472108203 / 1125899906842624 : ℚ) := by
    rw [WorkCalculator.unroundedWorkIndex_formula]
    simp only [WorkValue.WorkValueCalculator.workInput, guangzhouForm,
      WorkValue.WorkValueCalculator.cascadeForm, WorkCalculator.calculateOvertimeCostIndex]
    simp only [e1, e2, e3, e4, e5, e6, e7, e8, e9, e10, e11, e12, e13, e14, e15, e16, e17, e18, e19, e20, e21, e22, e23, e24, e25, e26, e27, e28, e29, e30, e31, e32, e33, e34, e35, e36, e37, e38, e39, e40, e41, e42, e43, e44, e45, e46, e47, e48, e49, e50, e51, e52, e53, e54, e55, e56, e57, e58, e59, e60, e61, e62, e63, e64, e65, e66, e67, e68, e69, e70, e71, e72, e73, e74, e75, e76, e77, e78, e79, e80, e81, e82, e83, e84, e85, e86, e87, e88, e89, e90, e91, e92, e93, e94]
  have hUC : CostCalculator.unroundedCostIndex
      (WorkValue.WorkValueCalculator.costInput guangzhouForm) = some (100 : ℚ) := by
    rw [CostCalculator.unroundedCostIndex_of_lookup
      (WorkValue.WorkValueCalculator.costInput guangzhouForm) (v := 1.0) rfl]
    simp only [WorkValue.WorkValueCalculator.costInput, guangzhouForm,
      WorkValue.WorkValueCalculator.cascadeForm]
    simp only [e1, e2, e3, e4, e5, e6, e7, e8, e9, e10, e11, e12, e13, e14, e15, e16, e17, e18, e19, e20, e21, e22, e23, e24, e25, e26, e27, e28, e29, e30, e31, e32, e33, e34, e35, e36, e37, e38, e39, e40, e41, e42, e43, e44, e45, e46, e47, e48, e49, e50, e51, e52, e53, e54, e55, e56, e57, e58, e59, e60, e61, e62, e63, e64, e65, e66, e67, e68, e69, e70, e71, e72, e73, e74, e75, e76, e77, e78, e79, e80, e81, e82, e83, e84, e85, e86, e87, e88, e89, e90, e91, e92, e93, e94]
  have hUE : ExperienceCalculator.unroundedExperienceIndex
      (WorkValue.ExperienceCalculator.ofNumbers guangzhouForm.housingSatisfaction
        guangzhouForm.consumptionSatisfaction guangzhouForm.transportSatisfaction
        guangzhouForm.lifeAtmosphere guangzhouForm.workAtmosphere) = some (50 : ℚ) := by
    rw [ExperienceCalculator.unroundedExperienceIndex_ofNumbers]
    simp only [guangzhouForm, WorkValue.WorkValueCalculator.cascadeForm, h5]
    simp only [e1, e2, e3, e4, e5, e6, e7, e8, e9, e10, e11, e12, e13, e14, e15, e16, e17, e18, e19, e20, e21, e22, e23, e24, e25, e26, e27, e28, e29, e30, e31, e32, e33, e34, e35, e36, e37, e38, e39, e40, e41, e42, e43, e44, e45, e46, e47, e48, e49, e50, e51, e52, e53, e54, e55, e56, e57, e58, e59, e60, e61, e62, e63, e64, e65, e66, e67, e68, e69, e70, e71, e72, e73, e74, e75, e76, e77, e78, e79, e80, e81, e82, e83, e84, e85, e86, e87, e88, e89, e90, e91, e92, e93, e94]

  obtain ⟨r, hr, hi, hw, hc, he, ht⟩ := calculateValue_cascaded_binary64 guangzhouForm hvalid
  rw [hUI] at hi
  rw [hUW] at hw
  rw [hUC] at hc
  rw [hUE] at he
  simp only [Option.map_some', jsRound2] at hi hw hc he
  simp only [e1, e2, e3, e4, e5, e6, e7, e8, e9, e10, e11, e12, e13, e14, e15, e16, e17, e18, e19, e20, e21, e22, e23, e24, e25, e26, e27, e28, e29, e30, e31, e32, e33, e34, e35, e36, e37, e38, e39, e40, e41, e42, e43, e44, e45, e46, e47, e48, e49, e50, e51, e52, e53, e54, e55, e56, e57, e58, e59, e60, e61, e62, e63, e64, e65, e66, e67, e68, e69, e70, e71, e72, e73, e74, e75, e76, e77, e78, e79, e80, e81, e82, e83, e84, e85, e86, e87, e88, e89, e90, e91, e92, e93, e94] at hi hw hc he
  refine ⟨hvalid, r, hr, ?_, ?_⟩
  · rw [hi]
    simp only [e1, e2, e3, e4, e5, e6, e7, e8, e9, e10, e11, e12, e13, e14, e15, e16, e17, e18, e19, e20, e21, e22, e23, e24, e25, e26, e27, e28, e29, e30, e31, e32, e33, e34, e35, e36, e37, e38, e39, e40, e41, e42, e43, e44, e45, e46, e47, e48, e49, e50, e51, e52, e53, e54, e55, e56, e57, e58, e59, e60, e61, e62, e63, e64, e65, e66, e67, e68, e69, e70, e71, e72, e73, e74, e75, e76, e77, e78, e79, e80, e81, e82, e83, e84, e85, e86, e87, e88, e89, e90, e91, e92, e93, e94]
  · rw [ht, hi, hw, hc, he]
    simp only [weightedSum, WorkValue.WorkValueCalculator.weights, lift2_some, Option.map_some',
      jsRound2]
    simp only [e1, e2, e3, e4, e5, e6, e7, e8, e9, e10, e11, e12, e13, e14, e15, e16, e17, e18, e19, e20, e21, e22, e23, e24, e25, e26, e27, e28, e29, e30, e31, e32, e33, e34, e35, e36, e37, e38, e39, e40, e41, e42, e43, e44, e45, e46, e47, e48, e49, e50, e51, e52, e53, e54, e55, e56, e57, e58, e59, e60, e61, e62, e63, e64, e65, e66, e67, e68, e69, e70, e71, e72, e73, e74, e75, e76, e77, e78, e79, e80, e81, e82, e83, e84, e85, e86, e87, e88, e89, e90, e91, e92, e93, e94]

/-- C20, as stated, fails: for the form record `cascadeForm`, which passes
validation, the code's total score is 88.09, while `Math.round(s * 100) / 100` of the
clamped weighted sum `s` of the four unrounded indices is 88.1 (the unrounded work
index, about 5.6667, is above the floor of 1 and is rounded to 5.67 before it is
weighted). -/
theorem calculateValue_cascade_counterexample :
    WorkValue.WorkValueCalculator.validateFormData cascadeForm = true ∧
    (∃ r : ValueResult, calculateValue cascadeForm = some r ∧
      r.workResult.workIndex = lit 5.67 ∧
      r.totalScore.totalScore = some (lit 88.09)) ∧
    specTotalScore cascadeForm = some (lit 88.1) ∧
    lit 88.09 ≠ lit 88.1 := by

  have e1 : lit 0.02 = (5764607523034235 / 288230376151711744 : ℚ) :=
    rnd_eval_pos (-6) 5764607523034235 (by norm_num) (by norm_num) (by norm_num) (by norm_num) (by norm_num)
  have e2 : lit 0.12 = (1080863910568919 / 9007199254740992 : ℚ) :=
    rnd_eval_pos (-4) 8646911284551352 (by norm_num) (by norm_num) (by norm_num) (by norm_num) (by norm_num)
  have e3 : fmul (0 : ℚ) (1080863910568919 / 9007199254740992 : ℚ) = 0 :=
    (by unfold fmul; norm_num [rnd_zero])
  have e4 : fmul (0 : ℚ) (5764607523034235 / 288230376151711744 : ℚ) = 0 :=
    (by unfold fmul; norm_num [rnd_zero])
  have e5 : fadd (5001 : ℚ) (0 : ℚ) = (5001 : ℚ) :=
    rnd_eval_pos 12 5498657650507776 (by norm_num) (by norm_num) (by norm_num) (by norm_num) (by norm_num)
  have e6 : fdiv (5001 : ℚ) (5000 : ℚ) = (2252250173647985 / 2251799813685248 : ℚ) :=
    rnd_eval_pos 0 4504500347295970 (by norm_num) (by norm_num) (by norm_num) (by norm_num) (by norm_num)
  have e7 : fmul (2252250173647985 / 2251799813685248 : ℚ) (100 : ℚ) = (7038281792649953 / 70368744177664 : ℚ) :=
    rnd_eval_pos 6 7038281792649953 (by norm_num) (by norm_num) (by norm_num) (by norm_num) (by norm_num)
  have e8 : lit 1.0 = (1 : ℚ) :=
    rnd_eval_pos 0 4503599627370496 (by norm_num) (by norm_num) (by norm_num) (by norm_num) (by norm_num)
  have e9 : fmul (7038281792649953 / 70368744177664 : ℚ) (1 : ℚ) = (7038281792649953 / 70368744177664 : ℚ) :=
    rnd_eval_pos 6 7038281792649953 (by norm_num) (by norm_num) (by norm_num) (by norm_num) (by norm_num)
  have e10 : fsub (18 : ℚ) (9 : ℚ) = (9 : ℚ) :=
    rnd_eval_pos 3 5066549580791808 (by norm_num) (by norm_num) (by norm_num) (by norm_num) (by norm_num)
  have e11 : fmul (60 : ℚ) (2 : ℚ) = (120 : ℚ) :=
    rnd_eval_pos 6 8444249301319680 (by norm_num) (by norm_num) (by norm_num) (by norm_num) (by norm_num)
  have e12 : fdiv (120 : ℚ) (60 : ℚ) = (2 : ℚ) :=
    rnd_eval_pos 1 4503599627370496 (by norm_num) (by norm_num) (by norm_num) (by norm_num) (by norm_num)
  have e13 : fadd (9 : ℚ) (2 : ℚ) = (11 : ℚ) :=
    rnd_eval_pos 3 6192449487634432 (by norm_num) (by norm_num) (by norm_num) (by norm_num) (by norm_num)
  have e14 : fdiv (11 : ℚ) (9 : ℚ) = (1376099886140985 / 1125899906842624 : ℚ) :=
    rnd_eval_pos 0 5504399544563940 (by norm_num) (by norm_num) (by norm_num) (by norm_num) (by norm_num)
  have e15 : fmul (1376099886140985 / 1125899906842624 : ℚ) (30 : ℚ) = (2580187286514347 / 70368744177664 : ℚ) :=
    rnd_eval_pos 5 5160374573028694 (by norm_num) (by norm_num) (by norm_num) (by norm_num) (by norm_num)
  have e16 : fdiv (3 : ℚ) (3 : ℚ) = (1 : ℚ) :=
    rnd_eval_pos 0 4503599627370496 (by norm_num) (by norm_num) (by norm_num) (by norm_num) (by norm_num)
  have e17 : fmul (1 : ℚ) (20 : ℚ) = (20 : ℚ) :=
    rnd_eval_pos 4 5629499534213120 (by norm_num) (by norm_num) (by norm_num) (by norm_num) (by norm_num)
  have e18 : fadd (0 : ℚ) (0 : ℚ) = 0 :=
    (by unfold fadd; norm_num [rnd_zero])
  have e19 : lit 0.1 = (3602879701896397 / 36028797018963968 : ℚ) :=
    rnd_eval_pos (-4) 7205759403792794 (by norm_num) (by norm_num) (by norm_num) (by norm_num) (by norm_num)
  have e20 : max (3602879701896397 / 36028797018963968 : ℚ) (0 : ℚ) = (3602879701896397 / 36028797018963968 : ℚ) :=
    max_eq_left (by norm_num)
  have e21 : fdiv (0 : ℚ) (3602879701896397 / 36028797018963968 : ℚ) = 0 :=
    (by unfold fdiv; norm_num [rnd_zero])
  have e22 : fmul (0 : ℚ) (10 : ℚ) = 0 :=
    (by unfold fmul; norm_num [rnd_zero])
  have e23 : fdiv (5 : ℚ) (5 : ℚ) = (1 : ℚ) :=
    rnd_eval_pos 0 4503599627370496 (by norm_num) (by norm_num) (by norm_num) (by norm_num) (by norm_num)
  have e24 : fsub (25 : ℚ) (25 : ℚ) = 0 :=
    (by unfold fsub; norm_num [rnd_zero])
  have e25 : fadd (1 : ℚ) (0 : ℚ) = (1 : ℚ) :=
    rnd_eval_pos 0 4503599627370496 (by norm_num) (by norm_num) (by norm_num) (by norm_num) (by norm_num)
  have e26 : fadd (2580187286514347 / 70368744177664 : ℚ) (20 : ℚ) = (3987562170067627 / 70368744177664 : ℚ) :=
    rnd_eval_pos 5 7975124340135254 (by norm_num) (by norm_num) (by norm_num) (by norm_num) (by norm_num)
  have e27 : fadd (3987562170067627 / 70368744177664 : ℚ) (0 : ℚ) = (3987562170067627 / 70368744177664 : ℚ) :=
    rnd_eval_pos 5 7975124340135254 (by norm_num) (by norm_num) (by norm_num) (by norm_num) (by norm_num)
  have e28 : fmul (3987562170067627 / 70368744177664 : ℚ) (1 : ℚ) = (3987562170067627 / 70368744177664 : ℚ) :=
    rnd_eval_pos 5 7975124340135254 (by norm_num) (by norm_num) (by norm_num) (by norm_num) (by norm_num)
  have e29 : fdiv (3987562170067627 / 70368744177664 : ℚ) (10 : ℚ) = (6380099472108203 / 1125899906842624 : ℚ) :=
    rnd_eval_pos 2 6380099472108203 (by norm_num) (by norm_num) (by norm_num) (by norm_num) (by norm_num)
  have e30 : fadd (2000 : ℚ) (1500 : ℚ) = (3500 : ℚ) :=
    rnd_eval_pos 11 7696581394432000 (by norm_num) (by norm_num) (by norm_num) (by norm_num) (by norm_num)
  have e31 : fadd (3500 : ℚ) (500 : ℚ) = (4000 : ℚ) :=
    rnd_eval_pos 11 8796093022208000 (by norm_num) (by norm_num) (by norm_num) (by norm_num) (by norm_num)
  have e32 : fdiv (4000 : ℚ) (4000 : ℚ) = (1 : ℚ) :=
    rnd_eval_pos 0 4503599627370496 (by norm_num) (by norm_num) (by norm_num) (by norm_num) (by norm_num)
  have e33 : fmul (1 : ℚ) (100 : ℚ) = (100 : ℚ) :=
    rnd_eval_pos 6 7036874417766400 (by norm_num) (by norm_num) (by norm_num) (by norm_num) (by norm_num)
  have e34 : lit 0.8 = (3602879701896397 / 4503599627370496 : ℚ) :=
    rnd_eval_pos (-1) 7205759403792794 (by norm_num) (by norm_num) (by norm_num) (by norm_num) (by norm_num)
  have e35 : fmul (100 : ℚ) (3602879701896397 / 4503599627370496 : ℚ) = (80 : ℚ) :=
    rnd_eval_pos 6 5629499534213120 (by norm_num) (by norm_num) (by norm_num) (by norm_num) (by norm_num)
  have e36 : lit 0.25 = (1 / 4 : ℚ) :=
    rnd_eval_pos (-2) 4503599627370496 (by norm_num) (by norm_num) (by norm_num) (by norm_num) (by norm_num)
  have e37 : fmul (5 : ℚ) (1 / 4 : ℚ) = (5 / 4 : ℚ) :=
    rnd_eval_pos 0 5629499534213120 (by norm_num) (by norm_num) (by norm_num) (by norm_num) (by norm_num)
  have e38 : fadd (0 : ℚ) (5 / 4 : ℚ) = (5 / 4 : ℚ) :=
    rnd_eval_pos 0 5629499534213120 (by norm_num) (by norm_num) (by norm_num) (by norm_num) (by norm_num)
  have e39 : lit 0.20 = (3602879701896397 / 18014398509481984 : ℚ) :=
    rnd_eval_pos (-3) 7205759403792794 (by norm_num) (by norm_num) (by norm_num) (by norm_num) (by norm_num)
  have e40 : fmul (5 : ℚ) (3602879701896397 / 18014398509481984 : ℚ) = (1 : ℚ) :=
    rnd_eval_pos 0 4503599627370496 (by norm_num) (by norm_num) (by norm_num) (by norm_num) (by norm_num)
  have e41 : fadd (5 / 4 : ℚ) (1 : ℚ) = (9 / 4 : ℚ) :=
    rnd_eval_pos 1 5066549580791808 (by norm_num) (by norm_num) (by norm_num) (by norm_num) (by norm_num)
  have e42 : lit 0.15 = (5404319552844595 / 36028797018963968 : ℚ) :=
    rnd_eval_pos (-3) 5404319552844595 (by norm_num) (by norm_num) (by norm_num) (by norm_num) (by norm_num)
  have e43 : fmul (5 : ℚ) (5404319552844595 / 36028797018963968 : ℚ) = (3 / 4 : ℚ) :=
    rnd_eval_pos (-1) 6755399441055744 (by norm_num) (by norm_num) (by norm_num) (by norm_num) (by norm_num)
  have e44 : fadd (9 / 4 : ℚ) (3 / 4 : ℚ) = (3 : ℚ) :=
    rnd_eval_pos 1 6755399441055744 (by norm_num) (by norm_num) (by norm_num) (by norm_num) (by norm_num)
  have e45 : fadd (3 : ℚ) (1 : ℚ) = (4 : ℚ) :=
    rnd_eval_pos 2 4503599627370496 (by norm_num) (by norm_num) (by norm_num) (by norm_num) (by norm_num)
  have e46 : fadd (4 : ℚ) (1 : ℚ) = (5 : ℚ) :=
    rnd_eval_pos 2 5629499534213120 (by norm_num) (by norm_num) (by norm_num) (by norm_num) (by norm_num)
  have e47 : fmul (5 : ℚ) (10 : ℚ) = (50 : ℚ) :=
    rnd_eval_pos 5 7036874417766400 (by norm_num) (by norm_num) (by norm_num) (by norm_num) (by norm_num)
  have e48 : fmul (7038281792649953 / 70368744177664 : ℚ) (100 : ℚ) = (10002 : ℚ) :=
    rnd_eval_pos 13 5498657650507776 (by norm_num) (by norm_num) (by norm_num) (by norm_num) (by norm_num)
  have e49 : mathRound (10002 : ℚ) = 10002 :=
    mathRound_eval 10002 (by norm_num) (by norm_num)
  have e50 : fdiv (((10002 : ℤ) : ℚ)) 100 = (7038281792649953 / 70368744177664 : ℚ) :=
    rnd_eval_pos 6 7038281792649953 (by norm_num) (by norm_num) (by norm_num) (by norm_num) (by norm_num)
  have e51 : fmul (6380099472108203 / 1125899906842624 : ℚ) (100 : ℚ) = (2492226356292267 / 4398046511104 : ℚ) :=
    rnd_eval_pos 9 4984452712584534 (by norm_num) (by norm_num) (by norm_num) (by norm_num) (by norm_num)
  have e52 : mathRound (2492226356292267 / 4398046511104 : ℚ) = 567 :=
    mathRound_eval 567 (by norm_num) (by norm_num)
  have e53 : fdiv (((567 : ℤ) : ℚ)) 100 = (3191926235898839 / 562949953421312 : ℚ) :=
    rnd_eval_pos 2 6383852471797678 (by norm_num) (by norm_num) (by norm_num) (by norm_num) (by norm_num)
  have e54 : max (1 : ℚ) (3191926235898839 / 562949953421312 : ℚ) = (3191926235898839 / 562949953421312 : ℚ) :=
    max_eq_right (by norm_num)
  have e55 : fmul (80 : ℚ) (100 : ℚ) = (8000 : ℚ) :=
    rnd_eval_pos 12 8796093022208000 (by norm_num) (by norm_num) (by norm_num) (by norm_num) (by norm_num)
  have e56 : mathRound (8000 : ℚ) = 8000 :=
    mathRound_eval 8000 (by norm_num) (by norm_num)
  have e57 : fdiv (((8000 : ℤ) : ℚ)) 100 = (80 : ℚ) :=
    rnd_eval_pos 6 5629499534213120 (by norm_num) (by norm_num) (by norm_num) (by norm_num) (by norm_num)
  have e58 : fmul (50 : ℚ) (100 : ℚ) = (5000 : ℚ) :=
    rnd_eval_pos 12 5497558138880000 (by norm_num) (by norm_num) (by norm_num) (by norm_num) (by norm_num)
  have e59 : mathRound (5000 : ℚ) = 5000 :=
    mathRound_eval 5000 (by norm_num) (by norm_num)
  have e60 : fdiv (((5000 : ℤ) : ℚ)) 100 = (50 : ℚ) :=
    rnd_eval_pos 5 7036874417766400 (by norm_num) (by norm_num) (by norm_num) (by norm_num) (by norm_num)
  have e61 : lit 0.60 = (5404319552844595 / 9007199254740992 : ℚ) :=
    rnd_eval_pos (-1) 5404319552844595 (by norm_num) (by norm_num) (by norm_num) (by norm_num) (by norm_num)
  have e62 : fmul (7038281792649953 / 70368744177664 : ℚ) (5404319552844595 / 9007199254740992 : ℚ) = (8445938151179943 / 140737488355328 : ℚ) :=
    rnd_eval_pos 5 8445938151179943 (by norm_num) (by norm_num) (by norm_num) (by norm_num) (by norm_num)
  have e63 : fadd (0 : ℚ) (8445938151179943 / 140737488355328 : ℚ) = (8445938151179943 / 140737488355328 : ℚ) :=
    rnd_eval_pos 5 8445938151179943 (by norm_num) (by norm_num) (by norm_num) (by norm_num) (by norm_num)
  have e64 : fsub (100 : ℚ) (3191926235898839 / 562949953421312 : ℚ) = (6637883638279045 / 70368744177664 : ℚ) :=
    rnd_eval_pos 6 6637883638279045 (by norm_num) (by norm_num) (by norm_num) (by norm_num) (by norm_num)
  have e65 : fmul (6637883638279045 / 70368744177664 : ℚ) (1 / 4 : ℚ) = (6637883638279045 / 281474976710656 : ℚ) :=
    rnd_eval_pos 4 6637883638279045 (by norm_num) (by norm_num) (by norm_num) (by norm_num) (by norm_num)
  have e66 : fadd (8445938151179943 / 140737488355328 : ℚ) (6637883638279045 / 281474976710656 : ℚ) = (5882439985159733 / 70368744177664 : ℚ) :=
    rnd_eval_pos 6 5882439985159733 (by norm_num) (by norm_num) (by norm_num) (by norm_num) (by norm_num)
  have e67 : fsub (100 : ℚ) (80 : ℚ) = (20 : ℚ) :=
    rnd_eval_pos 4 5629499534213120 (by norm_num) (by norm_num) (by norm_num) (by norm_num) (by norm_num)
  have e68 : lit 0.10 = (3602879701896397 / 36028797018963968 : ℚ) :=
    rnd_eval_pos (-4) 7205759403792794 (by norm_num) (by norm_num) (by norm_num) (by norm_num) (by norm_num)
  have e69 : fmul (20 : ℚ) (3602879701896397 / 36028797018963968 : ℚ) = (2 : ℚ) :=
    rnd_eval_pos 1 4503599627370496 (by norm_num) (by norm_num) (by norm_num) (by norm_num) (by norm_num)
  have e70 : fadd (5882439985159733 / 70368744177664 : ℚ) (2 : ℚ) = (6023177473515061 / 70368744177664 : ℚ) :=
    rnd_eval_pos 6 6023177473515061 (by norm_num) (by norm_num) (by norm_num) (by norm_num) (by norm_num)
  have e71 : lit 0.05 = (3602879701896397 / 72057594037927936 : ℚ) :=
    rnd_eval_pos (-5) 7205759403792794 (by norm_num) (by norm_num) (by norm_num) (by norm_num) (by norm_num)
  have e72 : fmul (50 : ℚ) (3602879701896397 / 72057594037927936 : ℚ) = (5 / 2 : ℚ) :=
    rnd_eval_pos 1 5629499534213120 (by norm_num) (by norm_num) (by norm_num) (by norm_num) (by norm_num)
  have e73 : fadd (6023177473515061 / 70368744177664 : ℚ) (5 / 2 : ℚ) = (6199099333959221 / 70368744177664 : ℚ) :=
    rnd_eval_pos 6 6199099333959221 (by norm_num) (by norm_num) (by norm_num) (by norm_num) (by norm_num)
  have e74 : min (100 : ℚ) (6199099333959221 / 70368744177664 : ℚ) = (6199099333959221 / 70368744177664 : ℚ) :=
    min_eq_right (by norm_num)
  have e75 : max (0 : ℚ) (6199099333959221 / 70368744177664 : ℚ) = (6199099333959221 / 70368744177664 : ℚ) :=
    max_eq_right (by norm_num)
  have e76 : fmul (6199099333959221 / 70368744177664 : ℚ) (100 : ℚ) = (4843046354655641 / 549755813888 : ℚ) :=
    rnd_eval_pos 13 4843046354655641 (by norm_num) (by norm_num) (by norm_num) (by norm_num) (by norm_num)
  have e77 : mathRound (4843046354655641 / 549755813888 : ℚ) = 8809 :=
    mathRound_eval 8809 (by norm_num) (by norm_num)
  have e78 : fdiv (((8809 : ℤ) : ℚ)) 100 = (3099391337305211 / 35184372088832 : ℚ) :=
    rnd_eval_pos 6 6198782674610422 (by norm_num) (by norm_num) (by norm_num) (by norm_num) (by norm_num)
  have e79 : max (1 : ℚ) (6380099472108203 / 1125899906842624 : ℚ) = (6380099472108203 / 1125899906842624 : ℚ) :=
    max_eq_right (by norm_num)
  have e80 : fsub (100 : ℚ) (6380099472108203 / 1125899906842624 : ℚ) = (6638118200759637 / 70368744177664 : ℚ) :=
    rnd_eval_pos 6 6638118200759637 (by norm_num) (by norm_num) (by norm_num) (by norm_num) (by norm_num)
  have e81 : fmul (6638118200759637 / 70368744177664 : ℚ) (1 / 4 : ℚ) = (6638118200759637 / 281474976710656 : ℚ) :=
    rnd_eval_pos 4 6638118200759637 (by norm_num) (by norm_num) (by norm_num) (by norm_num) (by norm_num)
  have e82 : fadd (8445938151179943 / 140737488355328 : ℚ) (6638118200759637 / 281474976710656 : ℚ) = (5882498625779881 / 70368744177664 : ℚ) :=
    rnd_eval_pos 6 5882498625779881 (by norm_num) (by norm_num) (by norm_num) (by norm_num) (by norm_num)
  have e83 : fadd (5882498625779881 / 70368744177664 : ℚ) (2 : ℚ) = (6023236114135209 / 70368744177664 : ℚ) :=
    rnd_eval_pos 6 6023236114135209 (by norm_num) (by norm_num) (by norm_num) (by norm_num) (by norm_num)
  have e84 : fadd (6023236114135209 / 70368744177664 : ℚ) (5 / 2 : ℚ) = (6199157974579369 / 70368744177664 : ℚ) :=
    rnd_eval_pos 6 6199157974579369 (by norm_num) (by norm_num) (by norm_num) (by norm_num) (by norm_num)
  have e85 : min (100 : ℚ) (6199157974579369 / 70368744177664 : ℚ) = (6199157974579369 / 70368744177664 : ℚ) :=
    min_eq_right (by norm_num)
  have e86 : max (0 : ℚ) (6199157974579369 / 70368744177664 : ℚ) = (6199157974579369 / 70368744177664 : ℚ) :=
    max_eq_right (by norm_num)
  have e87 : fmul (6199157974579369 / 70368744177664 : ℚ) (100 : ℚ) = (1210773041910033 / 137438953472 : ℚ) :=
    rnd_eval_pos 13 4843092167640132 (by norm_num) (by norm_num) (by norm_num) (by norm_num) (by norm_num)
  have e88 : mathRound (1210773041910033 / 137438953472 : ℚ) = 8810 :=
    mathRound_eval 8810 (by norm_num) (by norm_num)
  have e89 : fdiv (((8810 : ℤ) : ℚ)) 100 = (3099743181026099 / 35184372088832 : ℚ) :=
    rnd_eval_pos 6 6199486362052198 (by norm_num) (by norm_num) (by norm_num) (by norm_num) (by norm_num)
  have e90 : lit 88.09 = (3099391337305211 / 35184372088832 : ℚ) :=
    rnd_eval_pos 6 6198782674610422 (by norm_num) (by norm_num) (by norm_num) (by norm_num) (by norm_num)
  have e91 : lit 88.1 = (3099743181026099 / 35184372088832 : ℚ) :=
    rnd_eval_pos 6 6199486362052198 (by norm_num) (by norm_num) (by norm_num) (by norm_num) (by norm_num)
  have e92 : lit 5.67 = (3191926235898839 / 562949953421312 : ℚ) :=
    rnd_eval_pos 2 6383852471797678 (by norm_num) (by norm_num) (by norm_num) (by norm_num) (by norm_num)
  have hvalid : WorkValue.WorkValueCalculator.validateFormData cascadeForm = true := by
    simp only [WorkValue.WorkValueCalculator.validateFormData, cascadeForm,
      WorkValue.WorkValueCalculator.cascadeForm]
    norm_num
    decide
  have h5 : WorkValue.ExperienceCalculator.validateValue (.number 5) = 5 :=
    WorkValue.ExperienceCalculator.validateValue_of_mem (by norm_num) (by norm_num)
  have hUI : IncomeCalculator.unroundedIncomeIndex
      (WorkValue.WorkValueCalculator.incomeInput cascadeForm) = some (7038281792649953 / 70368744177664 : ℚ) := by
    rw [IncomeCalculator.unroundedIncomeIndex_of_lookups
      (WorkValue.WorkValueCalculator.incomeInput cascadeForm) 1.0 1.0 1.0 rfl rfl rfl]
    simp only [WorkValue.WorkValueCalculator.incomeInput, cascadeForm,
      WorkValue.WorkValueCalculator.cascadeForm]
    simp only [e1, e2, e3, e4, e5, e6, e7, e8, e9, e10, e11, e12, e13, e14, e15, e16, e17, e18, e19, e20, e21, e22, e23, e24, e25, e26, e27, e28, e29, e30, e31, e32, e33, e34, e35, e36, e37, e38, e39, e40, e41, e42, e43, e44, e45, e46, e47, e48, e49, e50, e51, e52, e53, e54, e55, e56, e57, e58, e59, e60, e61, e62, e63, e64, e65, e66, e67, e68, e69, e70, e71, e72, e73, e74, e75, e76, e77, e78, e79, e80, e81, e82, e83, e84, e85, e86, e87, e88, e89, e90, e91, e92]
  have hUW : WorkCalculator.unroundedWorkIndex
      (WorkValue.WorkValueCalculator.workInput cascadeForm) = (6380099472108203 / 1125899906842624 : ℚ) := by
    rw [WorkCalculator.unroundedWorkIndex_formula]
    simp only [WorkValue.WorkValueCalculator.workInput, cascadeForm,
      WorkValue.WorkValueCalculator.cascadeForm, WorkCalculator.calculateOvertimeCostIndex]
    simp only [e1, e2, e3, e4, e5, e6, e7, e8, e9, e10, e11, e12, e13, e14, e15, e16, e17, e18, e19, e20, e21, e22, e23, e24, e25, e26, e27, e28, e29, e30, e31, e32, e33, e34, e35, e36, e37, e38, e39, e40, e41, e42, e43, e44, e45, e46, e47, e48, e49, e50, e51, e52, e53, e54, e55, e56, e57, e58, e59, e60, e61, e62, e63, e64, e65, e66, e67, e68, e69, e70, e71, e72, e73, e74, e75, e76, e77, e78, e79, e80, e81, e82, e83, e84, e85, e86, e87, e88, e89, e90, e91, e92]
  have hUC : CostCalculator.unroundedCostIndex
      (WorkValue.WorkValueCalculator.costInput cascadeForm) = some (80 : ℚ) := by
    rw [CostCalculator.unroundedCostIndex_of_lookup
      (WorkValue.WorkValueCalculator.costInput cascadeForm) (v := 0.8) rfl]
    simp only [WorkValue.WorkValueCalculator.costInput, cascadeForm,
      WorkValue.WorkValueCalculator.cascadeForm]
    simp only [e1, e2, e3, e4, e5, e6, e7, e8, e9, e10, e11, e12, e13, e14, e15, e16, e17, e18, e19, e20, e21, e22, e23, e24, e25, e26, e27, e28, e29, e30, e31, e32, e33, e34, e35, e36, e37, e38, e39, e40, e41, e42, e43, e44, e45, e46, e47, e48, e49, e50, e51, e52, e53, e54, e55, e56, e57, e58, e59, e60, e61, e62, e63, e64, e65, e66, e67, e68, e69, e70, e71, e72, e73, e74, e75, e76, e77, e78, e79, e80, e81, e82, e83, e84, e85, e86, e87, e88, e89, e90, e91, e92]
  have hUE : ExperienceCalculator.unroundedExperienceIndex
      (WorkValue.ExperienceCalculator.ofNumbers cascadeForm.housingSatisfaction
        cascadeForm.consumptionSatisfaction cascadeForm.transportSatisfaction
        cascadeForm.lifeAtmosphere cascadeForm.workAtmosphere) = some (50 : ℚ) := by
    rw [ExperienceCalculator.unroundedExperienceIndex_ofNumbers]
    simp only [cascadeForm, WorkValue.WorkValueCalculator.cascadeForm, h5]
    simp only [e1, e2, e3, e4, e5, e6, e7, e8, e9, e10, e11, e12, e13, e14, e15, e16, e17, e18, e19, e20, e21, e22, e23, e24, e25, e26, e27, e28, e29, e30, e31, e32, e33, e34, e35, e36, e37, e38, e39, e40, e41, e42, e43, e44, e45, e46, e47, e48, e49, e50, e51, e52, e53, e54, e55, e56, e57, e58, e59, e60, e61, e62, e63, e64, e65, e66, e67, e68, e69, e70, e71, e72, e73, e74, e75, e76, e77, e78, e79, e80, e81, e82, e83, e84, e85, e86, e87, e88, e89, e90, e91, e92]

  obtain ⟨r, hr, hi, hw, hc, he, ht⟩ := calculateValue_fields cascadeForm hvalid
  rw [hUI] at hi
  rw [hUW] at hw
  rw [hUC] at hc
  rw [hUE] at he
  simp only [Option.map_some', jsRound2] at hi hw hc he
  simp only [e1, e2, e3, e4, e5, e6, e7, e8, e9, e10, e11, e12, e13, e14, e15, e16, e17, e18, e19, e20, e21, e22, e23, e24, e25, e26, e27, e28, e29, e30, e31, e32, e33, e34, e35, e36, e37, e38, e39, e40, e41, e42, e43, e44, e45, e46, e47, e48, e49, e50, e51, e52, e53, e54, e55, e56, e57, e58, e59, e60, e61, e62, e63, e64, e65, e66, e67, e68, e69, e70, e71, e72, e73, e74, e75, e76, e77, e78, e79, e80, e81, e82, e83, e84, e85, e86, e87, e88, e89, e90, e91, e92] at hi hw hc he
  refine ⟨hvalid, ⟨r, hr, ?_, ?_⟩, ?_, ?_⟩
  · rw [hw]
    simp only [e1, e2, e3, e4, e5, e6, e7, e8, e9, e10, e11, e12, e13, e14, e15, e16, e17, e18, e19, e20, e21, e22, e23, e24, e25, e26, e27, e28, e29, e30, e31, e32, e33, e34, e35, e36, e37, e38, e39, e40, e41, e42, e43, e44, e45, e46, e47, e48, e49, e50, e51, e52, e53, e54, e55, e56, e57, e58, e59, e60, e61, e62, e63, e64, e65, e66, e67, e68, e69, e70, e71, e72, e73, e74, e75, e76, e77, e78, e79, e80, e81, e82, e83, e84, e85, e86, e87, e88, e89, e90, e91, e92]
  · rw [ht, hi, hw, hc, he]
    simp only [weightedSum, WorkValue.WorkValueCalculator.weights, lift2_some, Option.map_some',
      jsRound2]
    simp only [e1, e2, e3, e4, e5, e6, e7, e8, e9, e10, e11, e12, e13, e14, e15, e16, e17, e18, e19, e20, e21, e22, e23, e24, e25, e26, e27, e28, e29, e30, e31, e32, e33, e34, e35, e36, e37, e38, e39, e40, e41, e42, e43, e44, e45, e46, e47, e48, e49, e50, e51, e52, e53, e54, e55, e56, e57, e58, e59, e60, e61, e62, e63, e64, e65, e66, e67, e68, e69, e70, e71, e72, e73, e74, e75, e76, e77, e78, e79, e80, e81, e82, e83, e84, e85, e86, e87, e88, e89, e90, e91, e92]
  · simp only [specTotalScore, hUI, hUW, hUC, hUE, weightedSum,
      WorkValue.WorkValueCalculator.weights, lift2_some, Option.map_some', jsRound2]
    simp only [e1, e2, e3, e4, e5, e6, e7, e8, e9, e10, e11, e12, e13, e14, e15, e16, e17, e18, e19, e20, e21, e22, e23, e24, e25, e26, e27, e28, e29, e30, e31, e32, e33, e34, e35, e36, e37, e38, e39, e40, e41, e42, e43, e44, e45, e46, e47, e48, e49, e50, e51, e52, e53, e54, e55, e56, e57, e58, e59, e60, e61, e62, e63, e64, e65, e66, e67, e68, e69, e70, e71, e72, e73, e74, e75, e76, e77, e78, e79, e80, e81, e82, e83, e84, e85, e86, e87, e88, e89, e90, e91, e92]
  · rw [e90, e91]
    norm_num

end WorkValueCalculator

end Js

end WorkValue

/-! ## The applied city factor and the reported city info -/

namespace WorkValue

namespace Js

namespace IncomeCalculator

theorem lit_one : lit 1.0 = 1.0 := by
  unfold lit
  norm_num [rnd_one]

theorem cityInfo_eq (data : WorkValue.IncomeCalculator.Input) :
    (calculateIncomeIndex data).cityInfo = getCityInfo data.city := rfl

theorem cityFactor_number_of_lookup (data : WorkValue.IncomeCalculator.Input) {v : ℚ}
    (h : WorkValue.IncomeCalculator.cityFactors.lookup data.city = some v) :
    (calculateIncomeIndex data).cityFactor = .number (lit v) := by
  simp only [calculateIncomeIndex, getProperty_of_lookup h,
    orDefault_own (WorkValue.IncomeCalculator.cityFactors_ne_zero h)]

theorem cityFactor_of_inherited (data : WorkValue.IncomeCalculator.Input)
    (hp : data.city ∈ objectPrototypeNames) :
    (calculateIncomeIndex data).cityFactor = .inherited ∧
    (calculateIncomeIndex data).incomeIndex = none := by
  have hk : ∀ name ∈ objectPrototypeNames,
      name ∉ WorkValue.IncomeCalculator.cityFactors.map Prod.fst := by decide
  have hg := getProperty_inherited (lookup_none_of_not_key (hk _ hp)) hp
  constructor
  · simp only [calculateIncomeIndex, hg, orDefault]
  · simp only [calculateIncomeIndex, hg, orDefault, timesFactor_inherited, timesFactor_none,
      Option.map_none']

theorem getCityInfo_entries :
    WorkValue.IncomeCalculator.cityData.map (fun r => r.2.map (fun e => getCityInfo e.1))
      = WorkValue.IncomeCalculator.cityData.map
          (fun r => r.2.map (fun e => CityInfoValue.info e.2)) := by
  rfl

theorem getCityInfo_entry {r : String × List (String × WorkValue.IncomeCalculator.CityInfo)}
    (hr : r ∈ WorkValue.IncomeCalculator.cityData)
    {e : String × WorkValue.IncomeCalculator.CityInfo} (he : e ∈ r.2) :
    getCityInfo e.1 = .info e.2 :=
  List.map_inj_left.1 (List.map_inj_left.1 getCityInfo_entries r hr) e he

theorem getCityInfo_off_other :
    (WorkValue.IncomeCalculator.cityFactors.filter (fun p => p.1 != "其他")).map
        (fun p => (getCityInfo p.1).factor)
      = (WorkValue.IncomeCalculator.cityFactors.filter (fun p => p.1 != "其他")).map
          (fun p => some (lit p.2)) := by
  rfl

theorem getCityInfo_of_unlisted {city : String}
    (h : WorkValue.IncomeCalculator.cityFactors.lookup city = none)
    (hp : city ∉ objectPrototypeNames) : getCityInfo city = .info ⟨1.0, "其他城市"⟩ := by
  unfold getCityInfo
  split
  · rename_i found heq
    exfalso
    obtain ⟨r, hr, hf⟩ := List.exists_of_findSome?_eq_some heq
    cases hl : r.2.lookup city with
    | none =>
      rw [getProperty_undefined hl hp] at hf
      exact Option.noConfusion hf
    | some info =>
      have hsome := (WorkValue.IncomeCalculator.cityData_entry hr (lookup_some_pair_mem hl)).2
      rw [h] at hsome
      exact Option.noConfusion hsome
  · rfl

theorem getCityInfo_of_inherited {city : String} (hp : city ∈ objectPrototypeNames) :
    getCityInfo city = .inherited := by
  have h : ∀ name ∈ objectPrototypeNames, getCityInfo name = .inherited := by
    intro name hn
    simp only [objectPrototypeNames, List.mem_cons, List.mem_singleton, List.not_mem_nil,
      or_false] at hn
    rcases hn with rfl | rfl | rfl | rfl | rfl | rfl | rfl | rfl | rfl | rfl | rfl | rfl <;> rfl
  exact h city hp

/-- C22 at the city `constructor`: the string is not 其他 and is in no table, yet
`calculateIncomeIndex` applies no number as its city factor: the lookup finds the
property `cityFactors` inherits under that name, `getCityInfo` returns the property
the first region inherits, whose `factor` is `undefined`, and the income index is
`NaN`; so the two are neither equal nor 1.0.  For every other city the claim holds:
off 其他 and off the inherited names the applied city factor is the factor of the
city info; for a city of `getCitiesByRegion r`, `r` of `getRegions`, both stem from
the entry `cityData[r][city]` (no city name occurs twice in `cityData`); for a city
that is no key of `cityFactors` both are 1.0; for 其他 the city factor is 1.2 and the
factor of the city info 1.0. -/
theorem cityFactor_cityInfo_inherited :
    inheritedCityInput.city ≠ "其他" ∧
    inheritedCityInput.city ∉ WorkValue.IncomeCalculator.cityFactors.map Prod.fst ∧
    (calculateIncomeIndex inheritedCityInput).cityFactor = .inherited ∧
    (calculateIncomeIndex inheritedCityInput).cityFactor ≠ .number 1.0 ∧
    (calculateIncomeIndex inheritedCityInput).cityInfo.factor = none ∧
    (calculateIncomeIndex inheritedCityInput).incomeIndex = none ∧
    (∀ data : WorkValue.IncomeCalculator.Input, data.city ≠ "其他" →
      data.city ∉ objectPrototypeNames →
      ∃ q : ℚ, (calculateIncomeIndex data).cityFactor = .number q ∧
        (calculateIncomeIndex data).cityInfo.factor = some q) ∧
    (∀ data : WorkValue.IncomeCalculator.Input,
      ∀ r ∈ WorkValue.IncomeCalculator.getRegions,
      ∀ c ∈ WorkValue.IncomeCalculator.getCitiesByRegion r, data.city = c →
      ∃ (cities : List (String × WorkValue.IncomeCalculator.CityInfo))
        (info : WorkValue.IncomeCalculator.CityInfo),
        WorkValue.IncomeCalculator.cityData.lookup r = some cities ∧
        cities.lookup c = some info ∧
        (calculateIncomeIndex data).cityFactor = .number (lit info.factor) ∧
        (calculateIncomeIndex data).cityInfo.factor = some (lit info.factor)) ∧
    (WorkValue.IncomeCalculator.cityData.map (fun r => r.2.map Prod.fst)).flatten.Nodup ∧
    (∀ data : WorkValue.IncomeCalculator.Input,
      data.city ∉ WorkValue.IncomeCalculator.cityFactors.map Prod.fst →
      data.city ∉ objectPrototypeNames →
      (calculateIncomeIndex data).cityFactor = .number 1.0 ∧
      (calculateIncomeIndex data).cityInfo.factor = some 1.0) ∧
    (∀ data : WorkValue.IncomeCalculator.Input, data.city = "其他" →
      (calculateIncomeIndex data).cityFactor = .number (lit 1.2) ∧
      (calculateIncomeIndex data).cityInfo.factor = some 1.0 ∧
      lit 1.2 ≠ 1.0) := by
  have hp : inheritedCityInput.city ∈ objectPrototypeNames := by decide
  obtain ⟨h1, h2⟩ := cityFactor_of_inherited inheritedCityInput hp
  have hunlisted : ∀ data : WorkValue.IncomeCalculator.Input,
      WorkValue.IncomeCalculator.cityFactors.lookup data.city = none →
      data.city ∉ objectPrototypeNames →
      (calculateIncomeIndex data).cityFactor = .number 1.0 ∧
      (calculateIncomeIndex data).cityInfo.factor = some 1.0 := by
    intro data h hq
    constructor
    · simp only [calculateIncomeIndex, getProperty_undefined h hq, orDefault]
    · rw [cityInfo_eq, getCityInfo_of_unlisted h hq]
      exact congrArg some lit_one
  have e1 : lit 1.2 = (5404319552844595 / 4503599627370496 : ℚ) :=
    rnd_eval_pos 0 5404319552844595 (by norm_num) (by norm_num) (by norm_num) (by norm_num)
      (by norm_num)
  refine ⟨by decide, by decide, h1, ?_, ?_, h2, ?_, ?_, by decide, ?_, ?_⟩
  · rw [h1]
    exact Factor.noConfusion
  · rw [cityInfo_eq, getCityInfo_of_inherited hp]
    rfl
  · intro data hne hq
    cases hl : WorkValue.IncomeCalculator.cityFactors.lookup data.city with
    | none => exact ⟨1.0, hunlisted data hl hq⟩
    | some v =>
      refine ⟨lit v, cityFactor_number_of_lookup data hl, ?_⟩
      have hmem : (data.city, v) ∈
          WorkValue.IncomeCalculator.cityFactors.filter (fun p => p.1 != "其他") := by
        rw [List.mem_filter]
        exact ⟨lookup_some_pair_mem hl, by simpa using hne⟩
      rw [cityInfo_eq]
      exact List.map_inj_left.1 getCityInfo_off_other _ hmem
  · intro data r hr c hc hcity
    obtain ⟨cities, hcities⟩ :=
      lookup_some_of_key (l := WorkValue.IncomeCalculator.cityData) hr
    have hc2 : c ∈ cities.map Prod.fst := by
      unfold WorkValue.IncomeCalculator.getCitiesByRegion at hc
      rw [hcities] at hc
      exact hc
    obtain ⟨info, hinfo2⟩ := lookup_some_of_key hc2
    have hentry := WorkValue.IncomeCalculator.cityData_entry (lookup_some_pair_mem hcities)
      (lookup_some_pair_mem hinfo2)
    have hjs : getCityInfo c = .info info :=
      getCityInfo_entry (lookup_some_pair_mem hcities) (lookup_some_pair_mem hinfo2)
    refine ⟨cities, info, hcities, hinfo2, ?_, ?_⟩
    · exact cityFactor_number_of_lookup data (by rw [hcity]; exact hentry.2)
    · rw [cityInfo_eq, hcity, hjs]
      rfl
  · intro data h hq
    exact hunlisted data (lookup_none_of_not_key h) hq
  · intro data h
    refine ⟨cityFactor_number_of_lookup data (by rw [h]; rfl), ?_, ?_⟩
    · rw [cityInfo_eq, h]
      have hinfo : getCityInfo "其他" = .info ⟨1.0, "其他城市"⟩ := rfl
      rw [hinfo]
      exact congrArg some lit_one
    · rw [e1]
      norm_num

end IncomeCalculator

end Js

end WorkValue

/-! ## The breakdown of the composite score -/

namespace WorkValue

namespace Js

namespace WorkValueCalculator

theorem fadd_zero_fmul (a b : ℚ) : fadd 0 (fmul a b) = fmul a b := by
  unfold fadd fmul
  rw [zero_add, rnd_idem]

theorem jsRound2_zero : jsRound2 0 = 0 := by
  have h : mathRound (0 : ℚ) = 0 := by simpa using mathRound_intCast 0
  simp only [jsRound2, fmul, fdiv, zero_mul, rnd_zero, h, Int.cast_zero, zero_div]

theorem jsRound2_hundred : jsRound2 100 = 100 := by
  have h : mathRound (10000 : ℚ) = 10000 := by simpa using mathRound_intCast 10000
  have e1 : (100 : ℚ) * 100 = 10000 := by norm_num
  have e2 : ((10000 : ℤ) : ℚ) / 100 = 100 := by norm_num
  simp only [jsRound2, fmul, fdiv, e1, rnd_tenThousand, h, e2, rnd_hundred]

theorem totalScore_of_breakdown (income work cost experience : ℚ) :
    (calculateTotalScore ⟨some income, some work, some cost, some experience⟩).totalScore =
      some (jsRound2 (max 0 (min 100
        (fadd
        (fadd (fadd (fmul income (lit 0.60)) (fmul (fsub 100 work) (lit 0.25)))
          (fmul (fsub 100 cost) (lit 0.10)))
        (fmul experience (lit 0.05)))))) := by
  rw [totalScore_of_numbers, fadd_zero_fmul]

/-- C25, amended: the four breakdown entries of `calculateTotalScore` are the
unclamped weighted contributions `income * 0.60`, `(100 - work) * 0.25`,
`(100 - cost) * 0.10` and `experience * 0.05` as binary64 products; with `S` their
sum, added in that order in binary64, the total score is
`Math.round(S * 100) / 100` when `S` lies in [0, 100], it is 100 when `S` exceeds 100
and 0 when `S` is negative, and in those two cases the breakdown does not add up to
the reported total (an income index of 200 with the other three at 0 has `S = 155`
and the total 100). -/
theorem calculateTotalScore_breakdown_binary64 (income work cost experience : ℚ) :
    (calculateTotalScore ⟨some income, some work, some cost, some experience⟩).breakdown.income = some (fmul income (lit 0.60)) ∧
    (calculateTotalScore ⟨some income, some work, some cost, some experience⟩).breakdown.work = some (fmul (fsub 100 work) (lit 0.25)) ∧
    (calculateTotalScore ⟨some income, some work, some cost, some experience⟩).breakdown.cost = some (fmul (fsub 100 cost) (lit 0.10)) ∧
    (calculateTotalScore ⟨some income, some work, some cost, some experience⟩).breakdown.experience = some (fmul experience (lit 0.05)) ∧
    (0 ≤ (fadd
        (fadd (fadd (fmul income (lit 0.60)) (fmul (fsub 100 work) (lit 0.25)))
          (fmul (fsub 100 cost) (lit 0.10)))
        (fmul experience (lit 0.05))) →
      (fadd
        (fadd (fadd (fmul income (lit 0.60)) (fmul (fsub 100 work) (lit 0.25)))
          (fmul (fsub 100 cost) (lit 0.10)))
        (fmul experience (lit 0.05))) ≤ 100 →
      (calculateTotalScore ⟨some income, some work, some cost, some experience⟩).totalScore = some (jsRound2
        (fadd
        (fadd (fadd (fmul income (lit 0.60)) (fmul (fsub 100 work) (lit 0.25)))
          (fmul (fsub 100 cost) (lit 0.10)))
        (fmul experience (lit 0.05))))) ∧
    (100 < (fadd
        (fadd (fadd (fmul income (lit 0.60)) (fmul (fsub 100 work) (lit 0.25)))
          (fmul (fsub 100 cost) (lit 0.10)))
        (fmul experience (lit 0.05))) →
      (calculateTotalScore ⟨some income, some work, some cost, some experience⟩).totalScore = some 100) ∧
    ((fadd
        (fadd (fadd (fmul income (lit 0.60)) (fmul (fsub 100 work) (lit 0.25)))
          (fmul (fsub 100 cost) (lit 0.10)))
        (fmul experience (lit 0.05))) < 0 →
      (calculateTotalScore ⟨some income, some work, some cost, some experience⟩).totalScore = some 0) ∧
    (fadd (fadd (fadd (fmul 200 (lit 0.60)) (fmul (fsub 100 0) (lit 0.25)))
        (fmul (fsub 100 0) (lit 0.10))) (fmul 0 (lit 0.05)) = 155 ∧
      (calculateTotalScore ⟨some 200, some 0, some 0, some 0⟩).totalScore = some 100) := by

  have e1 : lit 0.60 = (5404319552844595 / 9007199254740992 : ℚ) :=
    rnd_eval_pos (-1) 5404319552844595 (by norm_num) (by norm_num) (by norm_num) (by norm_num) (by norm_num)
  have e2 : fmul (200 : ℚ) (5404319552844595 / 9007199254740992 : ℚ) = (120 : ℚ) :=
    rnd_eval_pos 6 8444249301319680 (by norm_num) (by norm_num) (by norm_num) (by norm_num) (by norm_num)
  have e3 : fadd (0 : ℚ) (120 : ℚ) = (120 : ℚ) :=
    rnd_eval_pos 6 8444249301319680 (by norm_num) (by norm_num) (by norm_num) (by norm_num) (by norm_num)
  have e4 : fsub (100 : ℚ) (0 : ℚ) = (100 : ℚ) :=
    rnd_eval_pos 6 7036874417766400 (by norm_num) (by norm_num) (by norm_num) (by norm_num) (by norm_num)
  have e5 : lit 0.25 = (1 / 4 : ℚ) :=
    rnd_eval_pos (-2) 4503599627370496 (by norm_num) (by norm_num) (by norm_num) (by norm_num) (by norm_num)
  have e6 : fmul (100 : ℚ) (1 / 4 : ℚ) = (25 : ℚ) :=
    rnd_eval_pos 4 7036874417766400 (by norm_num) (by norm_num) (by norm_num) (by norm_num) (by norm_num)
  have e7 : fadd (120 : ℚ) (25 : ℚ) = (145 : ℚ) :=
    rnd_eval_pos 7 5101733952880640 (by norm_num) (by norm_num) (by norm_num) (by norm_num) (by norm_num)
  have e8 : lit 0.10 = (3602879701896397 / 36028797018963968 : ℚ) :=
    rnd_eval_pos (-4) 7205759403792794 (by norm_num) (by norm_num) (by norm_num) (by norm_num) (by norm_num)
  have e9 : fmul (100 : ℚ) (3602879701896397 / 36028797018963968 : ℚ) = (10 : ℚ) :=
    rnd_eval_pos 3 5629499534213120 (by norm_num) (by norm_num) (by norm_num) (by norm_num) (by norm_num)
  have e10 : fadd (145 : ℚ) (10 : ℚ) = (155 : ℚ) :=
    rnd_eval_pos 7 5453577673768960 (by norm_num) (by norm_num) (by norm_num) (by norm_num) (by norm_num)
  have e11 : lit 0.05 = (3602879701896397 / 72057594037927936 : ℚ) :=
    rnd_eval_pos (-5) 7205759403792794 (by norm_num) (by norm_num) (by norm_num) (by norm_num) (by norm_num)
  have e12 : fmul (0 : ℚ) (3602879701896397 / 72057594037927936 : ℚ) = 0 :=
    (by unfold fmul; norm_num [rnd_zero])
  have e13 : fadd (155 : ℚ) (0 : ℚ) = (155 : ℚ) :=
    rnd_eval_pos 7 5453577673768960 (by norm_num) (by norm_num) (by norm_num) (by norm_num) (by norm_num)
  have hsum : fadd (fadd (fadd (fmul 200 (lit 0.60)) (fmul (fsub 100 0) (lit 0.25)))
      (fmul (fsub 100 0) (lit 0.10))) (fmul 0 (lit 0.05)) = 155 := by
    simp only [e1, e2, e3, e4, e5, e6, e7, e8, e9, e10, e11, e12, e13]
  refine ⟨rfl, rfl, rfl, rfl, ?_, ?_, ?_, hsum, ?_⟩
  · intro h0 h100
    rw [totalScore_of_breakdown, min_eq_right h100, max_eq_right h0]
  · intro h
    rw [totalScore_of_breakdown, min_eq_left (le_of_lt h), max_eq_right (by norm_num),
      jsRound2_hundred]
  · intro h
    rw [totalScore_of_breakdown, min_eq_right (by linarith), max_eq_left (le_of_lt h),
      jsRound2_zero]
  · rw [totalScore_of_breakdown, hsum, min_eq_left (by norm_num), max_eq_right (by norm_num),
      jsRound2_hundred]

/-- C25, as stated, fails: for the indices 3, 1.5, 50 and 50 the weighted
contributions 1.8, 24.625, 5 and 2.5 add up to 33.925 and `round2` of that is 33.93,
while the code returns the total 33.92; its breakdown holds for the income not 1.8
but the binary64 product of 3 and 0.60, which is smaller. -/
theorem calculateTotalScore_breakdown_counterexample :
    (calculateTotalScore ⟨some 3, some (3 / 2), some 50, some 50⟩).totalScore
      = some (lit 33.92) ∧
    (0 : ℚ) ≤ 3 * 0.60 + (100 - 3 / 2) * 0.25 + (100 - 50) * 0.10 + 50 * 0.05 ∧
    (3 : ℚ) * 0.60 + (100 - 3 / 2) * 0.25 + (100 - 50) * 0.10 + 50 * 0.05 ≤ 100 ∧
    WorkValue.round2 (3 * 0.60 + (100 - 3 / 2) * 0.25 + (100 - 50) * 0.10 + 50 * 0.05)
      = 33.93 ∧
    lit 33.92 ≠ 33.93 ∧
    (calculateTotalScore ⟨some 3, some (3 / 2), some 50, some 50⟩).breakdown.income
      = some (2026619832316723 / 1125899906842624 : ℚ) ∧
    (2026619832316723 / 1125899906842624 : ℚ) < 3 * 0.60 := by

  have e1 : lit 0.60 = (5404319552844595 / 9007199254740992 : ℚ) :=
    rnd_eval_pos (-1) 5404319552844595 (by norm_num) (by norm_num) (by norm_num) (by norm_num) (by norm_num)
  have e2 : fmul (3 : ℚ) (5404319552844595 / 9007199254740992 : ℚ) = (2026619832316723 / 1125899906842624 : ℚ) :=
    rnd_eval_pos_tie 0 8106479329266892 (by norm_num) (by norm_num) (Or.inl (by norm_num)) (by norm_num) (by norm_num)
  have e3 : fadd (0 : ℚ) (2026619832316723 / 1125899906842624 : ℚ) = (2026619832316723 / 1125899906842624 : ℚ) :=
    rnd_eval_pos 0 8106479329266892 (by norm_num) (by norm_num) (by norm_num) (by norm_num) (by norm_num)
  have e4 : fsub (100 : ℚ) (3 / 2 : ℚ) = (197 / 2 : ℚ) :=
    rnd_eval_pos 6 6931321301499904 (by norm_num) (by norm_num) (by norm_num) (by norm_num) (by norm_num)
  have e5 : lit 0.25 = (1 / 4 : ℚ) :=
    rnd_eval_pos (-2) 4503599627370496 (by norm_num) (by norm_num) (by norm_num) (by norm_num) (by norm_num)
  have e6 : fmul (197 / 2 : ℚ) (1 / 4 : ℚ) = (197 / 8 : ℚ) :=
    rnd_eval_pos 4 6931321301499904 (by norm_num) (by norm_num) (by norm_num) (by norm_num) (by norm_num)
  have e7 : fadd (2026619832316723 / 1125899906842624 : ℚ) (197 / 8 : ℚ) = (7437976259579085 / 281474976710656 : ℚ) :=
    rnd_eval_pos 4 7437976259579085 (by norm_num) (by norm_num) (by norm_num) (by norm_num) (by norm_num)
  have e8 : fsub (100 : ℚ) (50 : ℚ) = (50 : ℚ) :=
    rnd_eval_pos 5 7036874417766400 (by norm_num) (by norm_num) (by norm_num) (by norm_num) (by norm_num)
  have e9 : lit 0.10 = (3602879701896397 / 36028797018963968 : ℚ) :=
    rnd_eval_pos (-4) 7205759403792794 (by norm_num) (by norm_num) (by norm_num) (by norm_num) (by norm_num)
  have e10 : fmul (50 : ℚ) (3602879701896397 / 36028797018963968 : ℚ) = (5 : ℚ) :=
    rnd_eval_pos 2 5629499534213120 (by norm_num) (by norm_num) (by norm_num) (by norm_num) (by norm_num)
  have e11 : fadd (7437976259579085 / 281474976710656 : ℚ) (5 : ℚ) = (8845351143132365 / 281474976710656 : ℚ) :=
    rnd_eval_pos 4 8845351143132365 (by norm_num) (by norm_num) (by norm_num) (by norm_num) (by norm_num)
  have e12 : lit 0.05 = (3602879701896397 / 72057594037927936 : ℚ) :=
    rnd_eval_pos (-5) 7205759403792794 (by norm_num) (by norm_num) (by norm_num) (by norm_num) (by norm_num)
  have e13 : fmul (50 : ℚ) (3602879701896397 / 72057594037927936 : ℚ) = (5 / 2 : ℚ) :=
    rnd_eval_pos 1 5629499534213120 (by norm_num) (by norm_num) (by norm_num) (by norm_num) (by norm_num)
  have e14 : fadd (8845351143132365 / 281474976710656 : ℚ) (5 / 2 : ℚ) = (2387259646227251 / 70368744177664 : ℚ) :=
    rnd_eval_pos_tie 5 4774519292454502 (by norm_num) (by norm_num) (Or.inl (by norm_num)) (by norm_num) (by norm_num)
  have e15 : fmul (2387259646227251 / 70368744177664 : ℚ) (100 : ℚ) = (7460186394460159 / 2199023255552 : ℚ) :=
    rnd_eval_pos 11 7460186394460159 (by norm_num) (by norm_num) (by norm_num) (by norm_num) (by norm_num)
  have e16 : mathRound (7460186394460159 / 2199023255552 : ℚ) = 3392 :=
    mathRound_eval 3392 (by norm_num) (by norm_num)
  have e17 : fdiv (((3392 : ℤ) : ℚ)) 100 = (2386907802506363 / 70368744177664 : ℚ) :=
    rnd_eval_pos 5 4773815605012726 (by norm_num) (by norm_num) (by norm_num) (by norm_num) (by norm_num)
  have e18 : lit 33.92 = (2386907802506363 / 70368744177664 : ℚ) :=
    rnd_eval_pos 5 4773815605012726 (by norm_num) (by norm_num) (by norm_num) (by norm_num) (by norm_num)
  have hmax : max (0 : ℚ) (min 100 (2387259646227251 / 70368744177664 : ℚ)) = (2387259646227251 / 70368744177664 : ℚ) := by
    rw [min_eq_right (by norm_num), max_eq_right (by norm_num)]
  refine ⟨?_, by norm_num, by norm_num, ?_, ?_, ?_, by norm_num⟩
  · rw [totalScore_of_numbers]
    simp only [e1, e2, e3, e4, e5, e6, e7, e8, e9, e10, e11, e12, e13, e14, e15, e16, e17, e18]
    rw [hmax]
    simp only [jsRound2, e1, e2, e3, e4, e5, e6, e7, e8, e9, e10, e11, e12, e13, e14, e15, e16, e17, e18]
  · simp only [WorkValue.round2, mathRound]
    norm_num
  · rw [e18]
    norm_num
  · show some (fmul 3 (lit 0.60)) = _
    rw [e1, e2]

end WorkValueCalculator

end Js

end WorkValue
